import Mathlib

/-!
Livable Communities data browser (`lcApp.js`): embedding and properties.

A shallow embedding of `src/lcApp.js`.

* JavaScript numbers are rationals (`ℚ`); `NaN` is `none` in `Option ℚ`.  The
  modelled code only converts, compares and rounds numbers.  A decimal literal
  is read as the rational it denotes (the error of its binary representation is
  not represented), infinities are not represented, and the sign of zero is
  represented only where it is displayed (`fmtFixed`).  The print of a number
  can therefore differ from the engine's where a decimal lies at a rounding tie
  of `toFixed` that is not a binary fraction (`"12.35"` at one decimal is
  `12.4` here and `12.3` in the engine, which holds 12.3499...); the worked
  examples use values for which the two agree.
* Objects (`properties` of a town, a CSV row, a statistics profile) are
  association lists from property name to value.
* The page (dropdowns, SVG paths, legend, tables) is an explicit `State`
  record; every event handler is a function from a state to an `Outcome`, which
  tells whether the handler ran to its end, alerted and returned, or threw a
  `TypeError`, and in which state it left the page.
* The library calls the source makes (`d3.scaleThreshold`, d3 data binding,
  jQuery selectors, `AccessibleGrid`) are embedded by what they do to that
  record.  Transitions are taken at their end values.
* Loops are structural recursions; where the source loops over indices of an
  array it modifies, a counter bounds the number of iterations.
-/

namespace LcApp

/-! ## Values -/

/-- A JavaScript value as it occurs in a property record: the property is
absent, it is a number (topojson attribute), or it is a string (every CSV cell
read by `d3.csv`). -/
inductive JSVal where
  | undefined : JSVal
  | number (q : ℚ) : JSVal
  | string (s : String) : JSVal
  deriving DecidableEq

/-- Value of a string of decimal digits. -/
def digitsToNat (cs : List Char) : Nat :=
  cs.foldl (fun n c => 10 * n + (c.toNat - 48)) 0

/-- An unsigned decimal literal `ddd`, `ddd.`, `ddd.ddd` or `.ddd`. -/
def parseUnsigned (cs : List Char) : Option ℚ :=
  let ip := cs.takeWhile Char.isDigit
  match cs.dropWhile Char.isDigit with
  | [] => if ip.isEmpty then none else some (digitsToNat ip : ℚ)
  | '.' :: fs =>
    if fs.all Char.isDigit && !(ip.isEmpty && fs.isEmpty) then
      some ((digitsToNat ip : ℚ) + (digitsToNat fs : ℚ) / (10 : ℚ) ^ fs.length)
    else none
  | _ => none

/-- The numeric conversion of a string (unary `+` on a string): surrounding
white space is dropped, the empty string is `0`, a signed decimal literal is its
value, anything else is `NaN`.  Exponent, hexadecimal and `Infinity` literals
are outside the model and read as `NaN`.  The value is the decimal itself, where
the engine yields the binary floating-point number nearest to it. -/
def stringToNumber (s : String) : Option ℚ :=
  match s.trim.toList with
  | [] => some 0
  | '-' :: r => (parseUnsigned r).map (fun q => -q)
  | '+' :: r => parseUnsigned r
  | r => parseUnsigned r

/-- Unary `+`: `+undefined` is `NaN`, a number is itself, a string is
converted. -/
def toNumber : JSVal → Option ℚ
  | .undefined => none
  | .number q => some q
  | .string s => stringToNumber s

/-- Strict equality `===` of two numbers; `NaN` equals nothing. -/
def numEq : Option ℚ → Option ℚ → Bool
  | some a, some b => a == b
  | _, _ => false

/-- A property record (a JavaScript object used as a dictionary). -/
abbrev Props := List (String × JSVal)

/-- Property access `obj[key]` / `obj.key`: `undefined` when absent. -/
def Props.get (p : Props) (key : String) : JSVal :=
  (p.lookup key).getD JSVal.undefined

/-! ## Theme registry (`defineAndInit`, lines 47-308) -/

/-- An entry of `CTPS.lcApp.mapThemesDict`.  The fields `themeConstant` (always
`undefined`: the constants it names are never defined) and `legendTitle` (one
entry only) are never read and are left out. -/
structure ThemeDescriptor where
  themeName : String
  paletteDomain : List ℚ
  paletteRange : List String
  legendText : List String
  pointerText : String
  mapAltText : String
  legendAltText : String
  tabSwitchID : String
  gridRowID : String
  deriving DecidableEq

/-- The array `CTPS.lcApp.mapThemes` (lines 53-69). -/
def mapThemes : List String :=
  [ "COMMUNITY_TYPE", "POP_DENSITY", "EMP_DENSITY", "ELDERLY_POP_PCT",
    "SIDEWALK_COV_PCT", "SIDEWALK_MI", "WALK_SHARE_PCT", "BIKE_COV_PCT",
    "BIKE_SHARE_PCT", "BIKE_TRAIL_MI", "BIKE_LANE_MI", "AUTOS_PER_HH",
    "VMT_PER_HH", "PED_CRASH_RATE", "BIKE_CRASH_RATE" ]

/-- The object `CTPS.lcApp.mapThemesDict` (lines 70-252), in source order. -/
def mapThemesDict : List (String × ThemeDescriptor) :=
  [ ("COMMUNITY_TYPE",
      { themeName := "Community Type"
        paletteDomain := [1.5, 2.5, 3.5]
        paletteRange := ["#6B0000", "#C66B18", "#F7C64A", "#FFFF84"]
        legendText := ["Inner Core", "Regional Urban Center", "Maturing Suburb", "Developing Suburb"]
        pointerText := "Boston Region Towns by Community Type </br></br> Data from: MAPC"
        mapAltText := "Map of Boston Region MPO towns, symbolized by community type"
        legendAltText := "Boston Region Towns by Community Type. Categories are inner core, regional urban center, maturing suburb, developing suburb"
        tabSwitchID := "#demog"
        gridRowID := "" }),
    ("POP_DENSITY",
      { themeName := "Population Density"
        paletteDomain := [750, 2000, 5000]
        paletteRange := ["#e6e5fe", "#cdcbfe", "#7f7bd0", "#595691"]
        legendText := ["< 750 people per sq mi", "750-1999 people per sq mi", "2000-5000 people per sq mi", "> 5000 people per sq mi"]
        pointerText := "Population density (residents per sq mi) </br></br> Data from: regional model estimates, 2009"
        mapAltText := "Map of Boston Region MPO towns, symbolized by population density"
        legendAltText := "Population Density. Population per square mile, 2009 estimate. Four categories are people per square mile ranging from less than 750 to more than 5000"
        tabSwitchID := "#demog"
        gridRowID := "#demog_table_r_2" }),
    ("EMP_DENSITY",
      { themeName := "Employment Density"
        paletteDomain := [1000, 2500, 5000]
        paletteRange := ["#D6F7AD", "#ADBD7B", "#849452", "#636B29"]
        legendText := ["< 1000 jobs per sq mi", "1000-2499 jobs per sq mi", "2500-5000 jobs per sq mi", "> 5000 jobs per sq mi"]
        pointerText := "Employment density (jobs per sq mi) </br></br> Data from: regional model estimates, 2009"
        mapAltText := "Map of Boston Region MPO towns, symbolized by employment density"
        legendAltText := "Employment Density. Employment per square mile, 2009 estimate. Four categories are jobs per square mile ranging from less than 1000 to more than 5000"
        tabSwitchID := "#demog"
        gridRowID := "#demog_table_r_4" }),
    ("ELDERLY_POP_PCT",
      { themeName := "Elderly Population Percentage"
        paletteDomain := [5, 8, 10]
        paletteRange := ["#FEF7E7", "#E79484", "#BD4A39", "#8C0808"]
        legendText := ["< 5%", "5-8%", "8-10%", "> 10%"]
        pointerText := "Percentage of elderly (over 70) population </br></br> Data from: regional model estimates, 2009"
        mapAltText := "Map of Boston Region MPO towns, symbolized by elderly population percentage"
        legendAltText := "Percentage of town population over age 70. Four categories range from less than 5 percent to over 10 percent"
        tabSwitchID := "#demog"
        gridRowID := "#demog_table_r_5" }),
    ("SIDEWALK_COV_PCT",
      { themeName := "Sidewalk Coverage"
        paletteDomain := [25, 50, 75]
        paletteRange := ["#f5e1fe", "#eac3fe", "#9f65be", "#592277"]
        legendText := ["< 25%", "25-50%", "50-75%", "> 75%"]
        pointerText := "Percentage of non-Interstate roadway miles with sidewalks on at least one side </br></br> Data from: Massachusetts Roadway Inventory 2009"
        mapAltText := "Map of Boston Region MPO towns, symbolized by sidewalk coverage"
        legendAltText := "Percentage of non-Interstate roadway miles with sidewalks on at least one side. Four categories range from less than 25% to over 75%"
        tabSwitchID := "#walk"
        gridRowID := "#walk_table_r_2" }),
    ("SIDEWALK_MI",
      { themeName := "Miles of Sidewalk"
        paletteDomain := [50, 100, 200]
        paletteRange := ["#FFFF84", "#F7C64A", "#C66B18", "#6B0000"]
        legendText := ["< 50 miles", "50-99 miles", "100-200 miles", "> 200 miles"]
        pointerText := "Miles of non-Interstate roadway with sidewalks on at least one side </br></br> Data from: Massachusetts Roadway Inventory 2009"
        mapAltText := "Map of Boston Region MPO towns, symbolized by sidewalk mileage"
        legendAltText := "Non-Interstate roadway miles with sidewalks on at least one side. Four categories range from less than 50 miles to over 200 miles."
        tabSwitchID := "#walk"
        gridRowID := "#walk_table_r_1" }),
    ("WALK_SHARE_PCT",
      { themeName := "Resident Walk Share"
        paletteDomain := [5, 10, 20]
        paletteRange := ["#FFE7E7", "#E79484", "#BD4A39", "#8C0808"]
        legendText := ["< 5%", "5-10%", "10-20%", "> 20%"]
        pointerText := "Percentage of resident workers who walk to work </br></br> Data from: 2000 Census Journey-to-Work"
        mapAltText := "Map of Boston Region MPO towns, symbolized by Census Journey to Work walk share"
        legendAltText := "Census Journey to Work percent walk share. Percentage of workers who live and work in the community and walk to work. Four categories are percentage values up to and over 20 %"
        tabSwitchID := "#walk"
        gridRowID := "#walk_table_r_3" }),
    ("BIKE_COV_PCT",
      { themeName := "Bike Coverage"
        paletteDomain := [2, 4, 8]
        paletteRange := ["#DEF7EF", "#8CB5AD", "#4A7B73", "#104A4A"]
        legendText := ["< 2%", "2-4%", "4-8%", "> 8%"]
        pointerText := "Percent of non-Interstate roadway miles with bike lanes or shoulders &gt 4 feet wide </br></br> Data from: Massachusetts Roadway Inventory 2009"
        mapAltText := "Map of Boston Region MPO towns, symbolized by bicycle coverage"
        legendAltText := "Percent of non-Interstate roadway miles with bike lanes or shoulders over 4 feet wide. Four categories are percentage values up to and over 8 %"
        tabSwitchID := "#bike"
        gridRowID := "#bike_table_r_3" }),
    ("BIKE_SHARE_PCT",
      { themeName := "Resident Bike Share"
        paletteDomain := [0.5, 1, 2]
        paletteRange := ["#d7f3fe", "#b0e7fe", "#52afd6", "#397a95"]
        legendText := ["< 0.5%", "0.5-1%", "1-2%", "> 2%"]
        pointerText := "Percentage of resident workers who bike to work </br></br> Data from: 2000 Census Journey-to-Work"
        mapAltText := "Map of Boston Region MPO towns, symbolized by Census Journey to Work bike share"
        legendAltText := "Census Journey to Work bike share. Percent of workers who live and work in the community and bike to work. Four categories are percentages of work trips up to and over 2 %"
        tabSwitchID := "#bike"
        gridRowID := "#bike_table_r_4" }),
    ("BIKE_TRAIL_MI",
      { themeName := "Miles of Bicycle Trails"
        paletteDomain := [2.5, 5, 10]
        paletteRange := ["#EFEFCE", "#D6EF8C", "#BDDE52", "#9CC310"]
        legendText := ["< 2.5 miles", "2.5-5 miles", "5-10 miles", "> 10 miles"]
        pointerText := "Miles of off-road trails, paved and unpaved </br></br> Data from: CTPS bicycle inventory data"
        mapAltText := "Map of Boston Region MPO towns, symbolized by bike trail mileage"
        legendAltText := "Miles of off-road bike trails, paved and unpaved. Four categories are mileage totals up to and over 10 miles"
        tabSwitchID := "#bike"
        gridRowID := "#bike_table_r_1" }),
    ("BIKE_LANE_MI",
      { themeName := "Miles of Bicycle Lanes"
        paletteDomain := [1, 2.5, 10]
        paletteRange := ["#FFD6F7", "#DE8CAD", "#B5526B", "#8C1039"]
        legendText := ["< 2.5 miles", "2.5-5 miles", "5-10 miles", "> 10 miles"]
        pointerText := "Miles of non-Interstate roadways with bike lanes or shoulders &gt 4 feet wide </br></br> Data from: Massachusetts Roadway Inventory 2009"
        mapAltText := "Map of Boston Region MPO towns, symbolized by bike lane mileage"
        legendAltText := "Miles of non-Interstate roadways with bike lanes or shoulders over 4 feet wide. Four categories are mileage totals up to and over 10 miles"
        tabSwitchID := "#bike"
        gridRowID := "#bike_table_r_2" }),
    ("AUTOS_PER_HH",
      { themeName := "Autos per Household"
        paletteDomain := [1.5, 1.75, 2]
        paletteRange := ["#d7f3fe", "#b0e7fe", "#52afd6", "#397a95"]
        legendText := ["< 1.5 autos", "1.5-1.75 autos", "1.75-2.0 autos", "> 2.0 autos"]
        pointerText := "Average autos per household </br></br> Data from: MAPC"
        mapAltText := "Map of Boston Region MPO towns, symbolized by autos per household"
        legendAltText := "Average autos per household. Four categories range from 1.5 to more than 2 autos per household"
        tabSwitchID := "#auto"
        gridRowID := "#auto_table_r_1" }),
    ("VMT_PER_HH",
      { themeName := "Daily VMT per Household"
        paletteDomain := [40, 60, 80]
        paletteRange := ["#FFE7E7", "#E79484", "#BD4A39", "#8C0808"]
        legendText := ["< 40 miles", "40-60 miles", "60-80 miles", "> 80 miles"]
        pointerText := "Average daily vehicle miles of travel (VMT) per household, 2005-2007 </br></br> Data from: MassGIS and MAPC"
        mapAltText := "Map of Boston Region MPO towns, symbolized by vehicle miles traveled per household"
        legendAltText := "Average daily vehicle miles of travel per household. Four categories range from less than 40 to more than 80 miles"
        tabSwitchID := "#auto"
        gridRowID := "#auto_table_r_2" }),
    ("PED_CRASH_RATE",
      { themeName := "Pedestrian Crash Rate"
        paletteDomain := [0.1, 0.3, 0.6]
        paletteRange := ["#fee3d7", "#fec6b0", "#935238", "#663927"]
        legendText := ["< 0.1", "0.1-0.3", "0.3-0.6", "> 0.6"]
        pointerText := "Number of crashes involving pedestrians per year per 1,000 residents, 1996-2007 </br></br> Data from: Mass. Registry of Motor Vehicles"
        mapAltText := "Map of Boston Region MPO towns, symbolized by pedestrian crash rate"
        legendAltText := "Number of crashes involving pedestrians per year per 1000 residents, 1996-2007. Values range from less than 0.1 to greater than 0.6."
        tabSwitchID := "#health"
        gridRowID := "#phs_table_r_1" }),
    ("BIKE_CRASH_RATE",
      { themeName := "Bicycle Crash Rate"
        paletteDomain := [0.1, 0.2, 0.5]
        paletteRange := ["#FFFF84", "#F7C64A", "#C66B18", "#6B0000"]
        legendText := ["< 0.1", "0.1-0.2", "0.2-0.5", "> 0.5"]
        pointerText := "Number of crashes involving bicyclists per year per 1,000 residents, 1996-2007 </br></br> Data from: Mass. Registry of Motor Vehicles"
        mapAltText := "Map of Boston Region MPO towns, symbolized by bicycle crash rate"
        legendAltText := "Number of crashes involving bicyclists per year per 1000 residents, 1996-2007. Values range from less than 0.1 to greater than 0.5."
        tabSwitchID := "#health"
        gridRowID := "#phs_table_r_2" }) ]

/-! ## Threshold scale (`d3.scaleThreshold`, built at lines 1120-1122) -/

/-- Test `ascending(a, x) > 0` of d3's bisector, with `a = domain[mid]`
(`none` when the index is outside the array) and `x` the numeric value of the
argument: true exactly when both are numbers and `a > x`. -/
def ascendingGt : Option ℚ → Option ℚ → Bool
  | some a, some x => decide (x < a)
  | _, _ => false

/-- The loop of `bisectRight` in d3-array:
`while (lo < hi) { var mid = lo + hi >>> 1; if (compare(a[mid], x) > 0) hi = mid; else lo = mid + 1; } return lo;`.
The first argument bounds the number of iterations; `hi - lo` strictly
decreases in each one. -/
def bisectRightLoop (a : List ℚ) (x : Option ℚ) : Nat → Nat → Nat → Nat
  | 0, lo, _ => lo
  | fuel + 1, lo, hi =>
    if lo < hi then
      let mid := (lo + hi) / 2
      if ascendingGt a[mid]? x then bisectRightLoop a x fuel lo mid
      else bisectRightLoop a x fuel (mid + 1) hi
    else lo

/-- Library function `d3.bisectRight(a, x, lo, hi)`. -/
def bisectRight (a : List ℚ) (x : Option ℚ) (lo hi : Nat) : Nat :=
  bisectRightLoop a x (hi - lo) lo hi

/-- The guard `x <= x` of the threshold scale: false for `undefined`, true for
a number and for a string (compared with itself as a string). -/
def selfLe : JSVal → Bool
  | .undefined => false
  | .number _ => true
  | .string _ => true

/-- The bound `n = Math.min(domain.length, range.length - 1)` the scale keeps. -/
def scaleBound (domain : List ℚ) (range : List String) : Nat :=
  min domain.length (range.length - 1)

/-- Library function `d3.scaleThreshold().domain(domain).range(range)` applied
to `x`, as in d3-scale: `if (x <= x) return range[bisect(domain, x, 0, n)]`,
otherwise `undefined` (`none`); `bisect` is `bisectRight`.  Reading `range`
outside its bounds is `undefined` as well. -/
def scaleThreshold (domain : List ℚ) (range : List String) (x : JSVal) : Option String :=
  if selfLe x then range[bisectRight domain (toNumber x) 0 (scaleBound domain range)]? else none

/-- The scale `pathcolor` that `renderTheme` builds for a descriptor. -/
def pathcolor (d : ThemeDescriptor) (x : JSVal) : Option String :=
  scaleThreshold d.paletteDomain d.paletteRange x

/-- Index of the bucket `pathcolor` selects: the position in `paletteRange` it
reads. -/
def bucketIndex (d : ThemeDescriptor) (x : JSVal) : Nat :=
  bisectRight d.paletteDomain (toNumber x) 0 (scaleBound d.paletteDomain d.paletteRange)

/-- Descriptor lookup `CTPS.lcApp.mapThemesDict[iTheme]`. -/
def getTheme (iTheme : String) : Option ThemeDescriptor :=
  mapThemesDict.lookup iTheme

/-- The descriptor stored under a registered identifier; the empty descriptor
for any other name. -/
def themeOf (iTheme : String) : ThemeDescriptor :=
  (getTheme iTheme).getD
    { themeName := "", paletteDomain := [], paletteRange := [], legendText := [],
      pointerText := "", mapAltText := "", legendAltText := "", tabSwitchID := "",
      gridRowID := "" }

/-- The descriptor invariant of the data model: breakpoints strictly
increasing, one colour and one legend label per bucket. -/
def ThemeDescriptor.Valid (d : ThemeDescriptor) : Prop :=
  d.paletteDomain.Pairwise (· < ·) ∧
  d.paletteRange.length = d.paletteDomain.length + 1 ∧
  d.legendText.length = d.paletteDomain.length + 1

instance (d : ThemeDescriptor) : Decidable d.Valid := by
  unfold ThemeDescriptor.Valid; infer_instance

/-! ## Entity catalog (the merge in `initMap`, lines 589-599) -/

/-- A town feature: its geometry (opaque here) and its `properties` object. -/
structure Feature where
  geometry : String
  properties : Props
  deriving DecidableEq

/-- The number `+f.properties.TOWN_ID`. -/
def townId (f : Feature) : Option ℚ :=
  toNumber (f.properties.get "TOWN_ID")

/-- Body of the inner loop (lines 594-596): the `properties` object of the town
is replaced by the row when the two `TOWN_ID`s are equal as numbers. -/
def mergeRow (properties row : Props) : Props :=
  if numEq (toNumber (properties.get "TOWN_ID")) (toNumber (row.get "TOWN_ID")) then row
  else properties

/-- The inner loop `for (var j=0; j<lcData.length; j++)` for one town. -/
def mergeTown (lcData : List Props) (town : Feature) : Feature :=
  { town with properties := lcData.foldl mergeRow town.properties }

/-- The merge of the geometry records with the CSV rows (lines 592-599); the
result is stored in `CTPS.lcApp.data`. -/
def build (towns : List Feature) (lcData : List Props) : List Feature :=
  towns.map (mergeTown lcData)

/-! ## Reference data (lines 270-450) -/

/-- Labels `CTPS.lcApp.demogRowNames`. -/
def demogRowNames : List String :=
  ["Population", "Population Density", "Employment", "Employment Density",
    "Elderly Population Percentage"]

/-- Labels `CTPS.lcApp.walkRowNames`. -/
def walkRowNames : List String :=
  ["Miles of Sidewalk", "Sidewalk Coverage", "Resident Worker Walk Share"]

/-- Labels `CTPS.lcApp.bikeRowNames`. -/
def bikeRowNames : List String :=
  ["Miles of Trails", "Miles Bicycle Lanes", "Bicycle Coverage", "Resident Worker Bicycle Share"]

/-- Labels `CTPS.lcApp.autoRowNames`. -/
def autoRowNames : List String :=
  ["Autos per Household", "Daily Vehicle Miles Traveled per Household",
    "Resident Worker Drive-alone Share", "Resident Worker Carpool Share"]

/-- Labels `CTPS.lcApp.phsRowNames`. -/
def phsRowNames : List String :=
  ["Annual Pedestrian Crash Rate", "Annual Bicycle Crash Rate"]

/-- Labels `CTPS.lcApp.msRowNames`. -/
def msRowNames : List String :=
  ["Drive Alone", "Carpool", "Transit", "Bicycle", "Walk", "Work at Home", "Other"]

/-- Element `names[i]` of a label array. -/
def rowName (names : List String) (i : Nat) : String :=
  (names[i]?).getD "undefined"

/-- The array `CTPS.lcApp.commTypeStats` (lines 311-422): average statistics
by community type; entry 0 is the empty placeholder. -/
def commTypeStats : List Props :=
  [ [],
    [ ("pop_2009", .number 86443), ("pop_density", .number 9751), ("emp_2009", .number 56555),
      ("emp_density", .number 6380), ("elderly_pop_pct", .number 9.2),
      ("sidewalk_mi", .number 132.5), ("sidewalk_cov_pct", .number 82.0),
      ("walk_share_pct", .number 19.8), ("bike_trail_mi", .number 2.8),
      ("bike_lane_mi", .number 4.5), ("bike_cov_pct", .number 2.1),
      ("bike_share_pct", .number 1.3), ("autos_per_hh", .number 1.4), ("vmt_per_hh", .number 40),
      ("drove_alone_share_pct", .number 52.1), ("carpool_share_pct", .number 2.9),
      ("ped_crash_rate", .number 0.3), ("bike_crash_rate", .number 0.2),
      ("transit_share_pct", .number 27.0), ("wah_share_pct", .number 7.7),
      ("other_share_pct", .number 1.1), ("housing_costs", .number 0.0),
      ("transportation_costs", .number 0.0), ("h_plus_t_costs", .number 0.0) ],
    [ ("pop_2009", .number 48783), ("pop_density", .number 3004), ("emp_2009", .number 27294),
      ("emp_density", .number 1681), ("elderly_pop_pct", .number 10.4),
      ("sidewalk_mi", .number 93.4), ("sidewalk_cov_pct", .number 59.0),
      ("walk_share_pct", .number 8.7), ("bike_trail_mi", .number 0.9),
      ("bike_lane_mi", .number 2.0), ("bike_cov_pct", .number 1.3),
      ("bike_share_pct", .number 0.2), ("autos_per_hh", .number 1.6), ("vmt_per_hh", .number 47),
      ("drove_alone_share_pct", .number 70.2), ("carpool_share_pct", .number 9.9),
      ("ped_crash_rate", .number 0.5), ("bike_crash_rate", .number 0.2),
      ("transit_share_pct", .number 2.3), ("wah_share_pct", .number 7.7),
      ("other_share_pct", .number 0.9), ("housing_costs", .number 0.0),
      ("transportation_costs", .number 0.0), ("h_plus_t_costs", .number 0.0) ],
    [ ("pop_2009", .number 20339), ("pop_density", .number 1544), ("emp_2009", .number 10612),
      ("emp_density", .number 805), ("elderly_pop_pct", .number 10.6),
      ("sidewalk_mi", .number 41.5), ("sidewalk_cov_pct", .number 40.0),
      ("walk_share_pct", .number 7.7), ("bike_trail_mi", .number 0.5),
      ("bike_lane_mi", .number 1.5), ("bike_cov_pct", .number 1.5),
      ("bike_share_pct", .number 0.2), ("autos_per_hh", .number 1.9), ("vmt_per_hh", .number 62),
      ("drove_alone_share_pct", .number 63.8), ("carpool_share_pct", .number 6.5),
      ("ped_crash_rate", .number 0.3), ("bike_crash_rate", .number 0.2),
      ("transit_share_pct", .number 0.6), ("wah_share_pct", .number 20.4),
      ("other_share_pct", .number 0.7), ("housing_costs", .number 0.0),
      ("transportation_costs", .number 0.0), ("h_plus_t_costs", .number 0.0) ],
    [ ("pop_2009", .number 10837), ("pop_density", .number 673), ("emp_2009", .number 4621),
      ("emp_density", .number 287), ("elderly_pop_pct", .number 7.6),
      ("sidewalk_mi", .number 20.7), ("sidewalk_cov_pct", .number 28.0),
      ("walk_share_pct", .number 5.9), ("bike_trail_mi", .number 0.0),
      ("bike_lane_mi", .number 1.6), ("bike_cov_pct", .number 2.2),
      ("bike_share_pct", .number 0.3), ("autos_per_hh", .number 2.1), ("vmt_per_hh", .number 76),
      ("drove_alone_share_pct", .number 63.3), ("carpool_share_pct", .number 6.7),
      ("ped_crash_rate", .number 0.2), ("bike_crash_rate", .number 0.1),
      ("transit_share_pct", .number 0.2), ("wah_share_pct", .number 22.8),
      ("other_share_pct", .number 0.8), ("housing_costs", .number 0.0),
      ("transportation_costs", .number 0.0), ("h_plus_t_costs", .number 0.0) ] ]

/-- The object `CTPS.lcApp.regionStats` (lines 425-450): regional averages. -/
def regionStats : Props :=
  [ ("pop_2009", .number 31807), ("pop_density", .number 2232), ("emp_2009", .number 17928),
    ("emp_density", .number 1287), ("elderly_pop_pct", .number 9.60),
    ("sidewalk_mi", .number 55.40), ("sidewalk_cov_pct", .number 50.00),
    ("walk_share_pct", .number 14.78), ("bike_trail_mi", .number 3.70),
    ("bike_lane_mi", .number 2.0), ("bike_cov_pct", .number 1.90),
    ("bike_share_pct", .number 0.87), ("autos_per_hh", .number 1.6), ("vmt_per_hh", .number 47),
    ("transit_share_pct", .number 16.19), ("drove_alone_share_pct", .number 48.28),
    ("carpool_share_pct", .number 7.85), ("wah_share_pct", .number 11.05),
    ("other_share_pct", .number 0.97), ("ped_crash_rate", .number 0.4),
    ("bike_crash_rate", .number 0.2), ("housing_costs", .number 17003),
    ("transportation_costs", .number 10229), ("h_plus_t_costs", .number 27232) ]

/-- The array index a number denotes: a natural number is an index, any other
number (negative, fractional, `NaN`) is not. -/
def arrayIndex : Option ℚ → Option Nat
  | some x => if x.den = 1 ∧ 0 ≤ x.num then some x.num.toNat else none
  | none => none

/-- Element access `CTPS.lcApp.commTypeStats[iCommType]`; `none` is
`undefined`. -/
def commTypeStatsAt (iCommType : Option ℚ) : Option Props :=
  (arrayIndex iCommType).bind (fun i => commTypeStats[i]?)

/-! ## Utility functions (lines 505-523) -/

/-- Character class `\w` of the regular expression in `toTitleCase`. -/
def isWordChar (c : Char) : Bool :=
  c.isAlphanum || c == '_'

/-- Scan of `toTitleCase`: the flag tells whether the scan is inside a match of
`\w\S*`; the first character of a match is upper-cased, the rest lower-cased,
characters outside a match are kept. -/
def titleCaseAux : Bool → List Char → List Char
  | _, [] => []
  | true, c :: cs =>
    if c.isWhitespace then c :: titleCaseAux false cs else c.toLower :: titleCaseAux true cs
  | false, c :: cs =>
    if isWordChar c then c.toUpper :: titleCaseAux true cs else c :: titleCaseAux false cs

/-- Function `toTitleCase(str)` (lines 507-509). -/
def toTitleCase (str : String) : String :=
  String.mk (titleCaseAux false str.toList)

/-- Method `Array.prototype.move(old_index, new_index)` (lines 514-523) for
indices inside the array: the element at `old_index` is removed and inserted
at `new_index`.  With an index outside the array the source pads the array with
`undefined`; lists have no such entries and the list is returned as it is (the
two call sites pass `i < length` and `length - 1`). -/
def move {α : Type} (xs : List α) (old_index new_index : Nat) : List α :=
  match xs[old_index]? with
  | some x =>
    if new_index < xs.length then
      (xs.eraseIdx old_index).take new_index ++ x :: (xs.eraseIdx old_index).drop new_index
    else xs
  | none => xs

/-! ## Number formatting (`toFixed`, `toLocaleString`) -/

/-- Digits padded on the left with zeros to at least `k` characters. -/
def padLeft (k : Nat) (cs : List Char) : List Char :=
  List.replicate (k - cs.length) '0' ++ cs

/-- Method `Number.prototype.toFixed(f)`: `"NaN"` for `NaN`; otherwise the
integer `n` nearest to `|x| * 10^f` (the larger one on a tie), written with
exactly `f` fraction digits and a leading `-` when `x < 0`.  (The exponential
notation used from `10^21` on is not modelled.)  The rounding is that of the
number given; for a number read from a decimal that is the decimal itself, see
`stringToNumber`. -/
def toFixed (f : Nat) : Option ℚ → String
  | none => "NaN"
  | some x =>
    let n : Nat := (⌊|x| * (10 : ℚ) ^ f + 1 / 2⌋).toNat
    let m := padLeft (f + 1) (Nat.repr n).toList
    let body := if f = 0 then m else m.take (m.length - f) ++ '.' :: m.drop (m.length - f)
    String.mk ((if x < 0 then ['-'] else []) ++ body)

/-- Thousands separators on a reversed digit string. -/
def groupRev : List Char → List Char
  | a :: b :: c :: tl =>
    match tl with
    | [] => [a, b, c]
    | _ => a :: b :: c :: ',' :: groupRev tl
  | cs => cs

/-- Digits with a comma between groups of three (`1234567` gives
`1,234,567`). -/
def groupThousands (cs : List Char) : List Char :=
  (groupRev cs.reverse).reverse

/-- Digits without their trailing zeros. -/
def stripTrailingZeros (cs : List Char) : List Char :=
  (cs.reverse.dropWhile (fun c => c == '0')).reverse

/-- Method `Number.prototype.toLocaleString()` with no argument, in the
`en-US` convention: `"NaN"` for `NaN`; otherwise grouped integer digits and at
most three fraction digits (rounded half away from zero, trailing zeros
dropped). -/
def toLocaleString : Option ℚ → String
  | none => "NaN"
  | some x =>
    let n : Nat := (⌊|x| * 1000 + 1 / 2⌋).toNat
    let ip := groupThousands (Nat.repr (n / 1000)).toList
    let fp := stripTrailingZeros (padLeft 3 (Nat.repr (n % 1000)).toList)
    String.mk ((if x < 0 then ['-'] else []) ++ ip ++ (if fp.isEmpty then [] else '.' :: fp))

/-- Whether unary `+` reads the string as the negative zero: a `-` followed by
a literal of value 0 (as in `"-0.0"`). -/
def isNegZeroLiteral (s : String) : Bool :=
  match s.trim.toList with
  | '-' :: r => parseUnsigned r == some 0
  | _ => false

/-- Expression `(+(+v).toFixed(f)).toLocaleString()`.  When a negative number
is rounded to zero, `toFixed` prints a `-`, the string is read back as the
negative zero, and that is displayed as `-0`. -/
def fmtFixed (f : Nat) (v : JSVal) : String :=
  let str := toFixed f (toNumber v)
  if isNegZeroLiteral str then "-0" else toLocaleString (stringToNumber str)

/-- Expression `(+v).toLocaleString()`. -/
def fmtPlain (v : JSVal) : String :=
  toLocaleString (toNumber v)

/-! ## The page state -/

/-- A row of a grid data store: `{ ind, muni, commtype, reg }`. -/
structure StoreRow where
  ind : String
  muni : String
  commtype : String
  reg : String
  deriving DecidableEq

/-- An `AccessibleGrid` as rendered in its `div`: the table id, the caption and
the rows last loaded with `loadArrayData`. -/
structure Grid where
  tableId : String
  caption : String
  rows : List StoreRow
  deriving DecidableEq

/-- An SVG `path` of class `towns`: the value its `id` attribute was created
from, its `d` attribute (the outline drawn, `geoPath` of the geometry it was
created for), the datum d3 has bound to it, and the styles the handlers set
(`fill` is `none` when the style property has been removed). -/
structure PathEl where
  id : JSVal
  d : String
  datum : Feature
  fill : Option String
  opacity : Option String
  stroke : String
  strokeWidth : String
  deriving DecidableEq

/-- A legend entry created by `initLegend`: the styles of its `rect` and the
content of its `text`. -/
structure LegendItem where
  fill : Option String
  opacity : Option String
  stroke : Option String
  text : String
  deriving DecidableEq

/-- The mutable state the handlers read and write: the fields of `CTPS.lcApp`
and the parts of the document they touch.  Not represented: the visibility
classes toggled by `unhide` and `CSSClass.remove`, the cursor and underline
styles of linked rows, tooltips and hover styles, the scale bar and the state
outline. -/
structure State where
  /-- The table `CTPSUTILS.aMpoTowns` of `[id, name]` pairs (external library). -/
  aMpoTowns : List (ℚ × String)
  /-- The array `CTPS.lcApp.data`. -/
  data : List Feature
  /-- The `path.towns` elements of the map, in document order. -/
  paths : List PathEl
  /-- The four legend entries `CTPS.lcApp.legend`. -/
  legend : List LegendItem
  /-- The number `+$("#selected_town :selected").val()`. -/
  selected_town : Option ℚ
  /-- The string `$("#selected_theme :selected").val()`. -/
  selected_theme : String
  /-- The field `CTPS.lcApp.iSelectedTown`; `none` while it is unset. -/
  iSelectedTown : Option ℚ
  town_text : String
  lastaAttrs : Option Props
  demogStore : List StoreRow
  walkStore : List StoreRow
  bikeStore : List StoreRow
  autoStore : List StoreRow
  phsStore : List StoreRow
  msStore : List StoreRow
  demogGrid : Grid
  walkGrid : Grid
  bikeGrid : Grid
  autoGrid : Grid
  phsGrid : Grid
  msGrid : Grid
  /-- Pairs (row selector, class) added with `addClass` to row header cells. -/
  rowClass : List (String × String)
  /-- Selectors of the row header cells whose table row has font weight bold. -/
  bold : List String
  /-- The tab opened last with `showAccessibleTabSelector`. -/
  activeTab : String
  mapAlt : String
  legendTitle : String
  pointer : String
  legendAlt : String
  deriving DecidableEq

/-- How a handler ended: it ran to its end, it showed an alert and returned, or
a `TypeError` was thrown (a property of `undefined` was read).  In each case
the state the page is left in is recorded. -/
inductive Outcome where
  | done (s : State) : Outcome
  | alerted (msg : String) (s : State) : Outcome
  | threw (s : State) : Outcome
  deriving DecidableEq

/-- The state a handler leaves behind. -/
def Outcome.state : Outcome → State
  | .done s => s
  | .alerted _ s => s
  | .threw s => s

/-- Sequencing of statements: when the first part ended normally the rest runs
on its state; an alert-and-return or an exception ends the handler. -/
def Outcome.andThen (o : Outcome) (rest : State → Outcome) : Outcome :=
  match o with
  | .done s => rest s
  | .alerted msg s => .alerted msg s
  | .threw s => .threw s

/-- The six stores, in the order demographic, walk, bike, auto, public health
and safety, mode share. -/
def State.stores (s : State) : List (List StoreRow) :=
  [s.demogStore, s.walkStore, s.bikeStore, s.autoStore, s.phsStore, s.msStore]

/-- The six rendered grids, in the same order. -/
def State.grids (s : State) : List Grid :=
  [s.demogGrid, s.walkGrid, s.bikeGrid, s.autoGrid, s.phsGrid, s.msGrid]

/-- Selectors `#<tableId>_r_<i>` of the row header cells of a rendered grid,
`i` counting the loaded rows from 1 (the id convention of `AccessibleGrid`, on
which the `gridRowID` entries of `mapThemesDict` rely). -/
def rowSelectors (g : Grid) : List String :=
  (List.range g.rows.length).map (fun i => "#" ++ g.tableId ++ "_r_" ++ toString (i + 1))

/-- Whether the jQuery selection `$(sel)` finds a row header cell of one of the
six tables.  The empty selector selects nothing. -/
def rowExists (s : State) (sel : String) : Bool :=
  s.grids.any (fun g => (rowSelectors g).contains sel)

/-- Statement `$(sel).parent().css("font-weight", "bold")`. -/
def setBold (sel : String) (s : State) : State :=
  if rowExists s sel then
    { s with bold := if s.bold.contains sel then s.bold else s.bold ++ [sel] }
  else s

/-! ## Tables (lines 789-1064) -/

/-- Function `CTPS.lcApp.initializeGrids` (lines 841-905): the six grids are
created with their captions and loaded with the current stores. -/
def initializeGrids (s : State) : State :=
  { s with
    demogGrid := ⟨"demog_table", "Demographic Data for " ++ s.town_text, s.demogStore⟩
    walkGrid := ⟨"walk_table", "Walking Data for " ++ s.town_text, s.walkStore⟩
    bikeGrid := ⟨"bike_table", "Bicycling Data for " ++ s.town_text, s.bikeStore⟩
    autoGrid := ⟨"auto_table", "Automotive Data for " ++ s.town_text, s.autoStore⟩
    phsGrid := ⟨"phs_table", "Public Health and Safety Data for " ++ s.town_text, s.phsStore⟩
    msGrid := ⟨"ms_table", "Journey-to-Work Mode Share Data for " ++ s.town_text, s.msStore⟩ }

/-- The rows of `demogStore`: section #1 Demographic data (lines 920-945) of `populateDataStores`; `ct` is
`CTPS.lcApp.commTypeStats[iCommType]`. -/
def demogRows (aAttrs ct : Props) : List StoreRow :=
  [ { ind := rowName demogRowNames 0
      muni := fmtFixed 0 (aAttrs.get "POP_2009")
      commtype := fmtPlain (ct.get "pop_2009")
      reg := fmtPlain (regionStats.get "pop_2009") },
    { ind := rowName demogRowNames 1
      muni := fmtFixed 0 (aAttrs.get "POP_DENSITY")
      commtype := fmtPlain (ct.get "pop_density")
      reg := fmtPlain (regionStats.get "pop_density") },
    { ind := rowName demogRowNames 2
      muni := fmtFixed 0 (aAttrs.get "EMP_2009")
      commtype := fmtPlain (ct.get "emp_2009")
      reg := fmtPlain (regionStats.get "emp_2009") },
    { ind := rowName demogRowNames 3
      muni := fmtFixed 0 (aAttrs.get "EMP_DENSITY")
      commtype := fmtPlain (ct.get "emp_density")
      reg := fmtPlain (regionStats.get "emp_density") },
    { ind := rowName demogRowNames 4
      muni := fmtFixed 1 (aAttrs.get "ELDERLY_POP_PCT") ++ "%"
      commtype := fmtPlain (ct.get "elderly_pop_pct") ++ "%"
      reg := fmtPlain (regionStats.get "elderly_pop_pct") ++ "%" } ]

/-- The rows of `walkStore`: section #2 Walk data (lines 948-963) of `populateDataStores`; `ct` is
`CTPS.lcApp.commTypeStats[iCommType]`. -/
def walkRows (aAttrs ct : Props) (szAsterisk : String) : List StoreRow :=
  [ { ind := rowName walkRowNames 0
      muni := fmtFixed 1 (aAttrs.get "SIDEWALK_MI")
      commtype := fmtFixed 1 (ct.get "sidewalk_mi")
      reg := fmtFixed 1 (regionStats.get "sidewalk_mi") },
    { ind := rowName walkRowNames 1
      muni := fmtFixed 1 (aAttrs.get "SIDEWALK_COV_PCT") ++ "%"
      commtype := fmtFixed 1 (ct.get "sidewalk_cov_pct") ++ "%"
      reg := fmtFixed 1 (regionStats.get "sidewalk_cov_pct") ++ "%" },
    { ind := rowName walkRowNames 2
      muni := fmtFixed 1 (aAttrs.get "WALK_SHARE_PCT") ++ "%" ++ szAsterisk
      commtype := fmtFixed 1 (ct.get "walk_share_pct") ++ "%"
      reg := fmtFixed 1 (regionStats.get "walk_share_pct") ++ "%" } ]

/-- The rows of `bikeStore`: section #3 Bike data (lines 966-986) of `populateDataStores`; `ct` is
`CTPS.lcApp.commTypeStats[iCommType]`. -/
def bikeRows (aAttrs ct : Props) (szAsterisk : String) : List StoreRow :=
  [ { ind := rowName bikeRowNames 0
      muni := fmtFixed 1 (aAttrs.get "BIKE_TRAIL_MI")
      commtype := fmtFixed 1 (ct.get "bike_trail_mi")
      reg := fmtFixed 1 (regionStats.get "bike_trail_mi") },
    { ind := rowName bikeRowNames 1
      muni := fmtFixed 1 (aAttrs.get "BIKE_LANE_MI")
      commtype := fmtFixed 1 (ct.get "bike_lane_mi")
      reg := fmtFixed 1 (regionStats.get "bike_lane_mi") },
    { ind := rowName bikeRowNames 2
      muni := fmtFixed 1 (aAttrs.get "BIKE_COV_PCT") ++ "%"
      commtype := fmtFixed 1 (ct.get "bike_cov_pct") ++ "%"
      reg := fmtFixed 1 (regionStats.get "bike_cov_pct") ++ "%" },
    { ind := rowName bikeRowNames 3
      muni := fmtFixed 1 (aAttrs.get "BIKE_SHARE_PCT") ++ "%" ++ szAsterisk
      commtype := fmtFixed 1 (ct.get "bike_share_pct") ++ "%"
      reg := fmtFixed 1 (regionStats.get "bike_share_pct") ++ "%" } ]

/-- The rows of `autoStore`: section #4 Auto data (lines 989-1009) of `populateDataStores`; `ct` is
`CTPS.lcApp.commTypeStats[iCommType]`. -/
def autoRows (aAttrs ct : Props) : List StoreRow :=
  [ { ind := rowName autoRowNames 0
      muni := fmtFixed 1 (aAttrs.get "AUTOS_PER_HH")
      commtype := fmtFixed 1 (ct.get "autos_per_hh")
      reg := fmtFixed 1 (regionStats.get "autos_per_hh") },
    { ind := rowName autoRowNames 1
      muni := fmtFixed 0 (aAttrs.get "VMT_PER_HH")
      commtype := fmtFixed 0 (ct.get "vmt_per_hh")
      reg := fmtFixed 0 (regionStats.get "vmt_per_hh") },
    { ind := rowName autoRowNames 2
      muni := fmtFixed 1 (aAttrs.get "DROVE_ALONE_SHARE_PCT") ++ "%"
      commtype := fmtFixed 1 (ct.get "drove_alone_share_pct") ++ "%"
      reg := fmtFixed 1 (regionStats.get "drove_alone_share_pct") ++ "%" },
    { ind := rowName autoRowNames 3
      muni := fmtFixed 1 (aAttrs.get "CARPOOL_SHARE_PCT") ++ "%"
      commtype := fmtFixed 1 (ct.get "carpool_share_pct") ++ "%"
      reg := fmtFixed 1 (regionStats.get "carpool_share_pct") ++ "%" } ]

/-- The rows of `phsStore`: section #5 Public health and safety data (lines 1012-1022) of `populateDataStores`; `ct` is
`CTPS.lcApp.commTypeStats[iCommType]`. -/
def phsRows (aAttrs ct : Props) : List StoreRow :=
  [ { ind := rowName phsRowNames 0
      muni := fmtFixed 2 (aAttrs.get "PED_CRASH_RATE")
      commtype := fmtFixed 2 (ct.get "ped_crash_rate")
      reg := fmtFixed 2 (regionStats.get "ped_crash_rate") },
    { ind := rowName phsRowNames 1
      muni := fmtFixed 2 (aAttrs.get "BIKE_CRASH_RATE")
      commtype := fmtFixed 2 (ct.get "bike_crash_rate")
      reg := fmtFixed 2 (regionStats.get "bike_crash_rate") } ]

/-- The rows of `msStore`: section #6 Mode split data (lines 1025-1060) of `populateDataStores`; `ct` is
`CTPS.lcApp.commTypeStats[iCommType]`. -/
def msRows (aAttrs ct : Props) : List StoreRow :=
  [ { ind := rowName msRowNames 0
      muni := fmtFixed 1 (aAttrs.get "DROVE_ALONE_SHARE_PCT") ++ "%"
      commtype := fmtFixed 1 (ct.get "drove_alone_share_pct") ++ "%"
      reg := fmtFixed 1 (regionStats.get "drove_alone_share_pct") ++ "%" },
    { ind := rowName msRowNames 1
      muni := fmtFixed 1 (aAttrs.get "CARPOOL_SHARE_PCT") ++ "%"
      commtype := fmtFixed 1 (ct.get "carpool_share_pct") ++ "%"
      reg := fmtFixed 1 (regionStats.get "carpool_share_pct") ++ "%" },
    { ind := rowName msRowNames 2
      muni := fmtFixed 1 (aAttrs.get "TRANSIT_SHARE_PCT") ++ "%"
      commtype := fmtFixed 1 (ct.get "transit_share_pct") ++ "%"
      reg := fmtFixed 1 (regionStats.get "transit_share_pct") ++ "%" },
    { ind := rowName msRowNames 3
      muni := fmtFixed 1 (aAttrs.get "BIKE_SHARE_PCT") ++ "%"
      commtype := fmtFixed 1 (ct.get "bike_share_pct") ++ "%"
      reg := fmtFixed 1 (regionStats.get "bike_share_pct") ++ "%" },
    { ind := rowName msRowNames 4
      muni := fmtFixed 1 (aAttrs.get "WALK_SHARE_PCT") ++ "%"
      commtype := fmtFixed 1 (ct.get "walk_share_pct") ++ "%"
      reg := fmtFixed 1 (regionStats.get "walk_share_pct") ++ "%" },
    { ind := rowName msRowNames 5
      muni := fmtFixed 1 (aAttrs.get "WAH_SHARE_PCT") ++ "%"
      commtype := fmtFixed 1 (ct.get "wah_share_pct") ++ "%"
      reg := fmtFixed 1 (regionStats.get "wah_share_pct") ++ "%" },
    { ind := rowName msRowNames 6
      muni := fmtFixed 1 (aAttrs.get "OTHER_SHARE_PCT") ++ "%"
      commtype := fmtFixed 1 (ct.get "other_share_pct") ++ "%"
      reg := fmtFixed 1 (regionStats.get "other_share_pct") ++ "%" } ]

/-- The variable `szAsterisk` of `populateDataStores` (lines 912-917): `" *"`
when the attribute `SMALL_SAMPLE_SIZE` is the string `"Y"`. -/
def szAsterisk (aAttrs : Props) : String :=
  if aAttrs.get "SMALL_SAMPLE_SIZE" = JSVal.string "Y" then " *" else ""

/-- Function `CTPS.lcApp.populateDataStores` (lines 908-1064).  Reading
`commTypeStats[iCommType].pop_2009` for the first row throws when
`commTypeStats[iCommType]` is `undefined`; by then `lastaAttrs` is set and
`demogStore` is empty. -/
def populateDataStores (aAttrs : Props) (s : State) : Outcome :=
  let s := { s with lastaAttrs := some aAttrs }
  let iCommType := toNumber (aAttrs.get "COMMUNITY_TYPE")
  let s := { s with demogStore := [] }
  match commTypeStatsAt iCommType with
  | none => Outcome.threw s
  | some ct =>
    Outcome.done { s with
      demogStore := demogRows aAttrs ct
      walkStore := walkRows aAttrs ct (szAsterisk aAttrs)
      bikeStore := bikeRows aAttrs ct (szAsterisk aAttrs)
      autoStore := autoRows aAttrs ct
      phsStore := phsRows aAttrs ct
      msStore := msRows aAttrs ct }

/-- The six `loadArrayData` calls of `displayDataForTown` (lines 817-822). -/
def loadStores (s : State) : State :=
  { s with
    demogGrid := { s.demogGrid with rows := s.demogStore }
    walkGrid := { s.walkGrid with rows := s.walkStore }
    bikeGrid := { s.bikeGrid with rows := s.bikeStore }
    autoGrid := { s.autoGrid with rows := s.autoStore }
    phsGrid := { s.phsGrid with rows := s.phsStore }
    msGrid := { s.msGrid with rows := s.msStore } }

/-- The loop of `displayDataForTown` (lines 825-830): the row header cell each
theme names in `gridRowID`, when the page has it, receives the theme identifier
as a class. -/
def linkRows (s : State) : State :=
  let linked := mapThemes.filter (fun t => rowExists s (themeOf t).gridRowID)
  { s with rowClass := linked.map (fun t => ((themeOf t).gridRowID, t)) }

/-- Function `CTPS.lcApp.displayDataForTown` (lines 805-838).  Emptying the six
`div`s removes the old rows together with their classes and font weights. -/
def displayDataForTown (lcData : Props) (s : State) : Outcome :=
  let s := initializeGrids { s with rowClass := [], bold := [] }
  (populateDataStores lcData s).andThen (fun s => Outcome.done (linkRows (loadStores s)))

/-- The statements of `getDataForTown` after its loop (lines 798-801): the row
of the theme shown in the theme dropdown is made bold. -/
def rehighlight (s : State) : Outcome :=
  if s.selected_theme.length > 0 then
    match getTheme s.selected_theme with
    | some d => Outcome.done (setBold d.gridRowID s)
    | none => Outcome.threw s
  else Outcome.done s

/-- Function `CTPS.lcApp.getDataForTown` (lines 789-802): the first entry of
`data` whose `TOWN_ID` equals the argument as a number is displayed. -/
def getDataForTown (iTownId : JSVal) (s : State) : Outcome :=
  match s.data.find? (fun f => numEq (townId f) (toNumber iTownId)) with
  | some f => (displayDataForTown f.properties s).andThen rehighlight
  | none => rehighlight s

/-! ## Map and town selection (lines 604-644, 741-786) -/

/-- A `path` as `initMap` creates it for a town (lines 605-614). -/
def newPath (d : Feature) : PathEl :=
  { id := d.properties.get "TOWN_ID", d := d.geometry, datum := d, fill := some "#fff",
    opacity := none,
    stroke := "#000", strokeWidth := "1px" }

/-- The number `+this.id` of a path: an `id` attribute created from `undefined`
is not set, the element's `id` is then the empty string, which converts to 0. -/
def elementIdNumber : JSVal → Option ℚ
  | .undefined => some 0
  | v => toNumber v

/-- The default outline: `strokeWidth = "1px"`, `stroke = "#000"`. -/
def resetStroke (el : PathEl) : PathEl :=
  { el with strokeWidth := "1px", stroke := "#000" }

/-- The outline of the selected town: `stroke-width` 4px, `stroke` red. -/
def highlight (el : PathEl) : PathEl :=
  { el with strokeWidth := "4px", stroke := "#ff0000" }

/-- The loop `for (var i=0; i<data.length; i++)` of lines 635-642 and 771-778,
from index `i` on: every entry whose `TOWN_ID` equals the number `id` is moved
to the last position.  The first argument bounds the iterations left. -/
def selectLoop (id : Option ℚ) : Nat → Nat → List Feature → List Feature
  | 0, _, data => data
  | fuel + 1, i, data =>
    match data[i]? with
    | some f =>
      selectLoop id fuel (i + 1)
        (if numEq (townId f) id then move data i (data.length - 1) else data)
    | none => data

/-- The whole loop over `CTPS.lcApp.data`. -/
def moveToLast (id : Option ℚ) (data : List Feature) : List Feature :=
  selectLoop id data.length 0 data

/-- Statement `$("#selected_town").val(v)` for a number `v`: the option with
that value becomes the selected one; the numeric options are those `init` made
from `aMpoTowns`.  When there is none, no option is selected and the value of
the dropdown reads as `NaN`. -/
def setSelectedTown (s : State) (v : Option ℚ) : State :=
  { s with selected_town :=
      v.bind (fun q => if s.aMpoTowns.any (fun t => t.1 == q) then some q else none) }

/-- The click handler of a town path (lines 624-644), for the path at position
`k` in document order.  `toTitleCase(d.properties.TOWN)` throws unless `TOWN` is
a string. -/
def clickTown (k : Nat) (s : State) : Outcome :=
  match s.paths[k]? with
  | none => Outcome.done s
  | some el =>
    let d := el.datum
    let s := { s with paths := s.paths.map resetStroke }
    let s := setSelectedTown s (toNumber (d.properties.get "TOWN_ID"))
    match d.properties.get "TOWN" with
    | JSVal.string town =>
      let s := { s with town_text := toTitleCase town }
      let s := { s with paths := s.paths.eraseIdx k ++ [highlight (resetStroke el)] }
      let s := { s with data := moveToLast (elementIdNumber el.id) s.data }
      getDataForTown (d.properties.get "TOWN_ID") s
    | _ => Outcome.threw s

/-- The loop `$(".towns").each(...)` of `renderMapAndDataForTown` (lines
764-783) for the town number `q`: in document order, a path whose id equals
`q` is appended to its parent (it becomes the last path), outlined, and the
data loop is run for it; every other path gets the default outline. -/
def eachTown (q : ℚ) (s : State) : State :=
  let hit := fun (el : PathEl) => numEq (elementIdNumber el.id) (some q)
  { s with
    paths := (s.paths.filter (fun el => !hit el)).map resetStroke ++
      (s.paths.filter hit).map highlight
    data := (s.paths.filter hit).foldl (fun data el => moveToLast (elementIdNumber el.id) data)
      s.data }

/-- Function `CTPS.lcApp.renderMapAndDataForTown` (lines 741-786).  The guard
`!iTownId > 0` compares the boolean `!iTownId` with 0: it holds exactly when
`iTownId` is `NaN` or 0. -/
def renderMapAndDataForTown (s : State) : Outcome :=
  match s.selected_town with
  | none =>
    Outcome.alerted "No city or town selected. Please try selecting a theme again from either the dropdown or the map." s
  | some q =>
    if q = 0 then
      Outcome.alerted "No city or town selected. Please try selecting a theme again from either the dropdown or the map." s
    else
      let s := { s with iSelectedTown := some q }
      let s :=
        match s.aMpoTowns.find? (fun t => t.1 == q) with
        | some t => { s with town_text := toTitleCase t.2 }
        | none => s
      (getDataForTown (JSVal.number q) s).andThen (fun s => Outcome.done (eachTown q s))

/-! ## Theme rendering (lines 1072-1151) -/

/-- Function `colorMap` (lines 1083-1093): `data` is bound to the paths by
position and each bound path gets the colour of its new datum. -/
def colorMap (d : ThemeDescriptor) (iTheme : String) : List PathEl → List Feature → List PathEl
  | el :: els, f :: fs =>
    { el with datum := f, fill := pathcolor d (f.properties.get iTheme), opacity := some "0.7" } ::
      colorMap d iTheme els fs
  | els, _ => els

/-- The `rect` part of `colorLegend` (lines 1099-1108): the sample values are
bound to the legend entries by position. -/
def legendRects (d : ThemeDescriptor) : List LegendItem → List ℚ → List LegendItem
  | it :: its, v :: vs =>
    { it with fill := pathcolor d (JSVal.number v), opacity := some "0.7", stroke := some "#000" } ::
      legendRects d its vs
  | its, _ => its

/-- The `text` part of `colorLegend` (lines 1109-1116). -/
def legendTexts : List LegendItem → List String → List LegendItem
  | it :: its, t :: ts => { it with text := t } :: legendTexts its ts
  | its, _ => its

/-- Function `colorLegend` (lines 1094-1117); `legendData` is `0` followed by
the domain of the scale. -/
def colorLegend (d : ThemeDescriptor) (legend : List LegendItem) : List LegendItem :=
  legendTexts (legendRects d legend (0 :: d.paletteDomain)) d.legendText

/-- The statements of `renderTheme` after its guard (lines 1119-1141), for the
descriptor `d` of the theme `iTheme`: the map is recoloured, the legend redrawn,
every table row set to normal weight and the row of the theme made bold. -/
def applyTheme (d : ThemeDescriptor) (iTheme : String) (s : State) : State :=
  let s := { s with paths := colorMap d iTheme s.paths s.data }
  let s := { s with mapAlt := d.mapAltText }
  let s := { s with legend := colorLegend d s.legend }
  let s := { s with legendTitle := d.themeName, pointer := d.pointerText }
  let s := { s with legendAlt := d.legendAltText }
  let s := { s with bold := [] }
  setBold d.gridRowID s

/-- Function `CTPS.lcApp.renderTheme` (lines 1072-1151). -/
def renderTheme (s : State) : Outcome :=
  let iTheme := s.selected_theme
  if mapThemes.contains iTheme then
    match getTheme iTheme with
    | none => Outcome.threw s
    | some d => Outcome.done (applyTheme d iTheme s)
  else
    Outcome.alerted "No theme selected. Please try selecting a theme again from either the dropdown or the table." s

/-! ## Event listeners (lines 1190-1230) and start-up -/

/-- The `change` handler of `#selected_theme` (lines 1192-1203).  The guard
`!iTheme.length > 0` holds exactly when the value is the empty string. -/
def themeChanged (s : State) : Outcome :=
  let iTheme := s.selected_theme
  if iTheme.length = 0 then
    Outcome.alerted "No theme selected. Please try selecting a theme again from either the dropdown or the table." s
  else
    match getTheme iTheme with
    | none => Outcome.threw s
    | some d => renderTheme { s with activeTab := d.tabSwitchID }

/-- The `click` handler of `.tabbody` (lines 1219-1229) for a click on an
element with the given `scope` and `className`. -/
def tableClicked (scope className : String) (s : State) : Outcome :=
  if scope = "row" then
    if mapThemes.contains className then renderTheme { s with selected_theme := className }
    else Outcome.done s
  else Outcome.done s

/-- A user action: choosing an option of the town dropdown (given by the number
its value converts to), clicking the path at a position of the map, choosing an
option of the theme dropdown, clicking an element of a table. -/
inductive Action where
  | selectTown (v : Option ℚ) : Action
  | clickTown (k : Nat) : Action
  | selectTheme (v : String) : Action
  | clickTable (scope className : String) : Action

/-- The handler an action triggers; a dropdown shows the chosen option before
its `change` handler runs. -/
def step : Action → State → Outcome
  | .selectTown v, s => renderMapAndDataForTown { s with selected_town := v }
  | .clickTown k, s => clickTown k s
  | .selectTheme v, s => themeChanged { s with selected_theme := v }
  | .clickTable scope className, s => tableClicked scope className s

/-- The state after a sequence of actions, each running to its end (or to its
alert or exception) before the next. -/
def run (actions : List Action) (s : State) : State :=
  actions.foldl (fun s a => (step a s).state) s

/-- The four legend entries `initLegend` creates (lines 706-734). -/
def initLegend : List LegendItem :=
  List.replicate 4 { fill := some "#fff", opacity := none, stroke := none, text := "" }

/-- The state once `init` has run and the data files are loaded (lines
589-644, 1237-1276): the merged catalog, one path per entry in the same order,
empty stores and grids.  `town0` and `theme0` are what the two dropdowns show
at that time (the page markup is not part of the sources). -/
def loadedState (aMpoTowns : List (ℚ × String)) (towns : List Feature) (lcData : List Props)
    (town0 : Option ℚ) (theme0 : String) : State :=
  initializeGrids
    { aMpoTowns := aMpoTowns
      data := build towns lcData
      paths := (build towns lcData).map newPath
      legend := initLegend
      selected_town := town0
      selected_theme := theme0
      iSelectedTown := none
      town_text := ""
      lastaAttrs := none
      demogStore := [], walkStore := [], bikeStore := [], autoStore := [], phsStore := []
      msStore := []
      demogGrid := ⟨"", "", []⟩, walkGrid := ⟨"", "", []⟩, bikeGrid := ⟨"", "", []⟩
      autoGrid := ⟨"", "", []⟩, phsGrid := ⟨"", "", []⟩, msGrid := ⟨"", "", []⟩
      rowClass := []
      bold := []
      activeTab := ""
      mapAlt := "Map of Boston Region MPO town boundaries"
      legendTitle := ""
      pointer := ""
      legendAlt := "" }

/-- The state after `init` while the data files have not arrived: there is no
path yet, and `CTPS.lcApp.data` is `{}`, which has no `length`, so that every
loop over it does nothing, as over an empty array. -/
def startState (aMpoTowns : List (ℚ × String)) (town0 : Option ℚ) (theme0 : String) : State :=
  loadedState aMpoTowns [] [] town0 theme0

/-! ## Invariants used in the properties -/

/-- The map invariant: in document order, the datum bound to each path is the
entry of `data` at the same position, and each path was created for its datum:
its `id` was made from the `TOWN_ID` of the datum and it draws the geometry of
the datum. -/
def Synced (s : State) : Prop :=
  s.paths.map (fun el => el.datum) = s.data ∧
  ∀ el ∈ s.paths, el.id = el.datum.properties.get "TOWN_ID" ∧ el.d = el.datum.geometry

/-- Town identifiers are keys: each `TOWN_ID` is a number and no two towns
have the same one. -/
def Keyed (data : List Feature) : Prop :=
  (∀ f ∈ data, townId f ≠ none) ∧ (data.map townId).Nodup

/-- State `s` with the fields that hold the tables taken from `t`:
`lastaAttrs`, the six stores, the six grids, the row classes and the bold
rows. -/
def withTables (s t : State) : State :=
  { s with
    lastaAttrs := t.lastaAttrs
    demogStore := t.demogStore, walkStore := t.walkStore, bikeStore := t.bikeStore
    autoStore := t.autoStore, phsStore := t.phsStore, msStore := t.msStore
    demogGrid := t.demogGrid, walkGrid := t.walkGrid, bikeGrid := t.bikeGrid
    autoGrid := t.autoGrid, phsGrid := t.phsGrid, msGrid := t.msGrid
    rowClass := t.rowClass, bold := t.bold }

/-- The six stores `populateDataStores` builds from the record `aAttrs` and the
community-type profile `ct`, in the order of `State.stores`. -/
def storesFor (aAttrs ct : Props) : List (List StoreRow) :=
  [demogRows aAttrs ct, walkRows aAttrs ct (szAsterisk aAttrs),
    bikeRows aAttrs ct (szAsterisk aAttrs), autoRows aAttrs ct, phsRows aAttrs ct,
    msRows aAttrs ct]

/-- The six grids as `initializeGrids` captions them for the town name
`town_text`, loaded with the stores for `aAttrs` and `ct`. -/
def gridsFor (town_text : String) (aAttrs ct : Props) : List Grid :=
  [⟨"demog_table", "Demographic Data for " ++ town_text, demogRows aAttrs ct⟩,
    ⟨"walk_table", "Walking Data for " ++ town_text, walkRows aAttrs ct (szAsterisk aAttrs)⟩,
    ⟨"bike_table", "Bicycling Data for " ++ town_text, bikeRows aAttrs ct (szAsterisk aAttrs)⟩,
    ⟨"auto_table", "Automotive Data for " ++ town_text, autoRows aAttrs ct⟩,
    ⟨"phs_table", "Public Health and Safety Data for " ++ town_text, phsRows aAttrs ct⟩,
    ⟨"ms_table", "Journey-to-Work Mode Share Data for " ++ town_text, msRows aAttrs ct⟩]

/-- The name `renderMapAndDataForTown` caches for the town number `q`: the name
`aMpoTowns` lists for it, in title case, or the name cached before. -/
def townTextFor (s : State) (q : ℚ) : String :=
  match s.aMpoTowns.find? (fun t => t.1 == q) with
  | some t => toTitleCase t.2
  | none => s.town_text

/-! ## A small catalog for worked examples -/

/-- Three geometry records. -/
def sampleTowns : List Feature :=
  [⟨"M0,0L1,0L1,1Z", [("TOWN_ID", JSVal.number 1), ("TOWN", JSVal.string "ACTON")]⟩,
    ⟨"M1,0L2,0L2,1Z", [("TOWN_ID", JSVal.number 2), ("TOWN", JSVal.string "ARLINGTON")]⟩,
    ⟨"M2,0L3,0L3,1Z", [("TOWN_ID", JSVal.number 3), ("TOWN", JSVal.string "BEDFORD")]⟩]

/-- Two CSV rows, for towns 1 and 2; town 3 has no row. -/
def sampleRows : List Props :=
  [ [ ("TOWN", JSVal.string "ACTON"), ("TOWN_ID", JSVal.string "1"),
      ("COMMUNITY_TYPE", JSVal.string "3"), ("POP_2009", JSVal.string "20331"),
      ("POP_DENSITY", JSVal.string "749"), ("EMP_2009", JSVal.string "9876.4"),
      ("EMP_DENSITY", JSVal.string "1000"), ("ELDERLY_POP_PCT", JSVal.string "7.25"),
      ("SIDEWALK_MI", JSVal.string "48.06"), ("SIDEWALK_COV_PCT", JSVal.string "25"),
      ("WALK_SHARE_PCT", JSVal.string "19.83"), ("BIKE_TRAIL_MI", JSVal.string "2.5"),
      ("BIKE_LANE_MI", JSVal.string "1.5"), ("BIKE_COV_PCT", JSVal.string "1.2"),
      ("BIKE_SHARE_PCT", JSVal.string "0.44"), ("AUTOS_PER_HH", JSVal.string "1.91"),
      ("VMT_PER_HH", JSVal.string "61.5"), ("DROVE_ALONE_SHARE_PCT", JSVal.string "80.1"),
      ("CARPOOL_SHARE_PCT", JSVal.string "6"), ("PED_CRASH_RATE", JSVal.string "0.125"),
      ("BIKE_CRASH_RATE", JSVal.string "0.1"), ("TRANSIT_SHARE_PCT", JSVal.string "5.5"),
      ("WAH_SHARE_PCT", JSVal.string "4.2"), ("OTHER_SHARE_PCT", JSVal.string "0.9"),
      ("SMALL_SAMPLE_SIZE", JSVal.string "Y") ],
    [ ("TOWN", JSVal.string "ARLINGTON"), ("TOWN_ID", JSVal.string "2"),
      ("COMMUNITY_TYPE", JSVal.string "1"), ("POP_2009", JSVal.string "41224"),
      ("POP_DENSITY", JSVal.string "8000"), ("EMP_2009", JSVal.string "9000"),
      ("EMP_DENSITY", JSVal.string "1750"), ("ELDERLY_POP_PCT", JSVal.string "11"),
      ("SIDEWALK_MI", JSVal.string "100"), ("SIDEWALK_COV_PCT", JSVal.string "88.8"),
      ("WALK_SHARE_PCT", JSVal.string "5"), ("BIKE_TRAIL_MI", JSVal.string "3"),
      ("BIKE_LANE_MI", JSVal.string "10"), ("BIKE_COV_PCT", JSVal.string "8"),
      ("BIKE_SHARE_PCT", JSVal.string "2"), ("AUTOS_PER_HH", JSVal.string "1.5"),
      ("VMT_PER_HH", JSVal.string "40"), ("DROVE_ALONE_SHARE_PCT", JSVal.string "60"),
      ("CARPOOL_SHARE_PCT", JSVal.string "7"), ("PED_CRASH_RATE", JSVal.string "0.3"),
      ("BIKE_CRASH_RATE", JSVal.string "0.2"), ("TRANSIT_SHARE_PCT", JSVal.string "20"),
      ("WAH_SHARE_PCT", JSVal.string "5"), ("OTHER_SHARE_PCT", JSVal.string "1"),
      ("SMALL_SAMPLE_SIZE", JSVal.string "N") ] ]

/-- The town list of the dropdown for the sample catalog. -/
def sampleMpoTowns : List (ℚ × String) :=
  [(1, "ACTON"), (2, "ARLINGTON"), (3, "BEDFORD")]

/-- The sample page once loaded; both dropdowns show their empty option. -/
def sampleState : State :=
  loadedState sampleMpoTowns sampleTowns sampleRows (some 0) ""

/-! ## Reading the legend labels -/

/-- The first number a legend label names: the label is scanned up to its first
digit and the decimal literal that starts there is read (`"< 750 people per sq
mi"` names 750, `"2.5-5 miles"` names 2.5, `"Inner Core"` names none).  For the
labels of `mapThemesDict` this is the bound of a `<` or `>` label and the lower
bound of a label `a-b`. -/
def legendBound (label : String) : Option ℚ :=
  parseUnsigned
    ((label.toList.dropWhile (fun c => !c.isDigit)).takeWhile (fun c => c.isDigit || c == '.'))

/-- The bounds the labels of a descriptor have to name for the wording to
follow the classification: label 0 is below `b0`, label `i` starts at
`b (i - 1)`. -/
def bucketBounds (d : ThemeDescriptor) : List (Option ℚ) :=
  d.paletteDomain.head? :: d.paletteDomain.map some

/-- Whether the labels of a descriptor name its breakpoints. -/
def legendNamesBreakpoints (d : ThemeDescriptor) : Bool :=
  d.legendText.map legendBound == bucketBounds d

/-! ## The layout of the six tables -/

/-- How `populateDataStores` builds one row: the attribute of the town record
its municipality cell reads (`key`), the property of a statistics profile its
two averages read (`avgKey`), the number of fraction digits passed to
`toFixed`, whether `'%'` is appended to the three cells, whether `szAsterisk`
is appended to the municipality cell, and whether the two averages are printed
without `toFixed` (the demographic table). -/
structure CellSpec where
  key : String
  avgKey : String
  digits : Nat
  percent : Bool
  starred : Bool
  plainAverages : Bool
  deriving DecidableEq

/-- One of the six tables: the id of its grid, the array of its row labels, and
the build of each row. -/
structure TableSpec where
  tableId : String
  rowNames : List String
  cells : List CellSpec
  deriving DecidableEq

/-- The rows of the six stores as `populateDataStores` writes them (lines
919-1060), table by table and row by row. -/
def tableLayout : List TableSpec :=
  [ ⟨"demog_table", demogRowNames,
      [ ⟨"POP_2009", "pop_2009", 0, false, false, true⟩,
        ⟨"POP_DENSITY", "pop_density", 0, false, false, true⟩,
        ⟨"EMP_2009", "emp_2009", 0, false, false, true⟩,
        ⟨"EMP_DENSITY", "emp_density", 0, false, false, true⟩,
        ⟨"ELDERLY_POP_PCT", "elderly_pop_pct", 1, true, false, true⟩ ]⟩,
    ⟨"walk_table", walkRowNames,
      [ ⟨"SIDEWALK_MI", "sidewalk_mi", 1, false, false, false⟩,
        ⟨"SIDEWALK_COV_PCT", "sidewalk_cov_pct", 1, true, false, false⟩,
        ⟨"WALK_SHARE_PCT", "walk_share_pct", 1, true, true, false⟩ ]⟩,
    ⟨"bike_table", bikeRowNames,
      [ ⟨"BIKE_TRAIL_MI", "bike_trail_mi", 1, false, false, false⟩,
        ⟨"BIKE_LANE_MI", "bike_lane_mi", 1, false, false, false⟩,
        ⟨"BIKE_COV_PCT", "bike_cov_pct", 1, true, false, false⟩,
        ⟨"BIKE_SHARE_PCT", "bike_share_pct", 1, true, true, false⟩ ]⟩,
    ⟨"auto_table", autoRowNames,
      [ ⟨"AUTOS_PER_HH", "autos_per_hh", 1, false, false, false⟩,
        ⟨"VMT_PER_HH", "vmt_per_hh", 0, false, false, false⟩,
        ⟨"DROVE_ALONE_SHARE_PCT", "drove_alone_share_pct", 1, true, false, false⟩,
        ⟨"CARPOOL_SHARE_PCT", "carpool_share_pct", 1, true, false, false⟩ ]⟩,
    ⟨"phs_table", phsRowNames,
      [ ⟨"PED_CRASH_RATE", "ped_crash_rate", 2, false, false, false⟩,
        ⟨"BIKE_CRASH_RATE", "bike_crash_rate", 2, false, false, false⟩ ]⟩,
    ⟨"ms_table", msRowNames,
      [ ⟨"DROVE_ALONE_SHARE_PCT", "drove_alone_share_pct", 1, true, false, false⟩,
        ⟨"CARPOOL_SHARE_PCT", "carpool_share_pct", 1, true, false, false⟩,
        ⟨"TRANSIT_SHARE_PCT", "transit_share_pct", 1, true, false, false⟩,
        ⟨"BIKE_SHARE_PCT", "bike_share_pct", 1, true, false, false⟩,
        ⟨"WALK_SHARE_PCT", "walk_share_pct", 1, true, false, false⟩,
        ⟨"WAH_SHARE_PCT", "wah_share_pct", 1, true, false, false⟩,
        ⟨"OTHER_SHARE_PCT", "other_share_pct", 1, true, false, false⟩ ]⟩ ]

/-- The string with `'%'` appended when the row is a percentage. -/
def withPercent (c : CellSpec) (s : String) : String :=
  if c.percent then s ++ "%" else s

/-- The string with `szAsterisk` appended when the row carries the small-sample
mark. -/
def withStar (c : CellSpec) (aAttrs : Props) (s : String) : String :=
  if c.starred then s ++ szAsterisk aAttrs else s

/-- The print of an average of the row. -/
def avgCell (c : CellSpec) (v : JSVal) : String :=
  withPercent c (if c.plainAverages then fmtPlain v else fmtFixed c.digits v)

/-- The row a `CellSpec` describes, at position `i` of its table. -/
def layoutRow (t : TableSpec) (aAttrs ct : Props) (i : Nat) (c : CellSpec) : StoreRow :=
  { ind := rowName t.rowNames i
    muni := withStar c aAttrs (withPercent c (fmtFixed c.digits (aAttrs.get c.key)))
    commtype := avgCell c (ct.get c.avgKey)
    reg := avgCell c (regionStats.get c.avgKey) }

/-- The store a `TableSpec` describes. -/
def layoutRows (t : TableSpec) (aAttrs ct : Props) : List StoreRow :=
  t.cells.enum.map (fun p => layoutRow t aAttrs ct p.1 p.2)

/-- The six stores the layout describes. -/
def layoutStores (aAttrs ct : Props) : List (List StoreRow) :=
  tableLayout.map (fun t => layoutRows t aAttrs ct)

/-- A key in lower case, character by character. -/
def lowerKey (key : String) : String :=
  String.mk (key.toList.map Char.toLower)

/-- The six stores with two cells blanked: the municipality cell of row 3 of
the walk store (`walkStore[2]`) and of row 4 of the bike store
(`bikeStore[3]`). -/
def maskFlagged (stores : List (List StoreRow)) : List (List StoreRow) :=
  stores.enum.map (fun p =>
    p.2.enum.map (fun q =>
      if (p.1 = 1 ∧ q.1 = 2) ∨ (p.1 = 2 ∧ q.1 = 3) then { q.2 with muni := "" } else q.2))

/-- The selector of the header cell of row `i` (from 0) of table `j` of the
layout, by the id convention of `AccessibleGrid`; `none` outside the layout. -/
def selectorAt (j i : Nat) : Option String :=
  (tableLayout[j]?).bind (fun t =>
    if i < t.cells.length then some ("#" ++ t.tableId ++ "_r_" ++ toString (i + 1)) else none)

/-- The attribute the municipality cell of row `i` of table `j` reads. -/
def keyAt (j i : Nat) : Option String :=
  ((tableLayout[j]?).bind (fun t => t.cells[i]?)).map (fun c => c.key)

/-- The id of the table a row selector belongs to: the table of the layout
whose id the selector starts with, after the `#`. -/
def selectorTable (sel : String) : Option String :=
  (tableLayout.find? (fun t => ("#" ++ t.tableId ++ "_r_").toList.isPrefixOf sel.toList)).map
    (fun t => t.tableId)

/-- The themes that name a table row in `gridRowID`. -/
def themesWithRow : List String :=
  mapThemes.filter (fun t => (themeOf t).gridRowID != "")

/-! ## Properties -/



theorem countP_eq_of_split (p : ℚ → Bool) :
    ∀ (a : List ℚ) (k : Nat), k ≤ a.length →
      (∀ i b, a[i]? = some b → i < k → p b = true) →
      (∀ i b, a[i]? = some b → k ≤ i → p b = false) → a.countP p = k := by
  intro a
  induction a with
  | nil => intro k hk _ _; simp at hk; simp [hk]
  | cons x xs ih =>
    intro k hk h1 h2
    cases k with
    | zero =>
      rw [List.countP_eq_zero]
      intro y hy
      obtain ⟨i, hi, rfl⟩ := List.getElem_of_mem hy
      have := h2 i _ (List.getElem?_eq_getElem hi) (Nat.zero_le _)
      simp [this]
    | succ k =>
      have hx : p x = true := h1 0 x (by simp) (Nat.succ_pos _)
      rw [List.countP_cons_of_pos _ _ hx]
      congr 1
      apply ih k (by simpa using hk)
      · intro i b hb hi
        exact h1 (i + 1) b (by simpa using hb) (by omega)
      · intro i b hb hi
        exact h2 (i + 1) b (by simpa using hb) (by omega)

theorem bisectRightLoop_eq_countP (a : List ℚ) (v : ℚ) (hs : a.Pairwise (· < ·)) :
    ∀ (fuel lo hi : Nat), hi - lo ≤ fuel → lo ≤ hi → hi ≤ a.length →
      (∀ i b, a[i]? = some b → i < lo → b ≤ v) →
      (∀ i b, a[i]? = some b → hi ≤ i → v < b) →
      bisectRightLoop a (some v) fuel lo hi = a.countP (fun b => decide (b ≤ v)) := by
  intro fuel
  induction fuel with
  | zero =>
    intro lo hi hf hle hlen h1 h2
    have : lo = hi := by omega
    subst this
    simp only [bisectRightLoop]
    symm
    apply countP_eq_of_split _ a lo hlen
    · intro i b hb hi; simpa using h1 i b hb hi
    · intro i b hb hi; simpa using h2 i b hb hi
  | succ fuel ih =>
    intro lo hi hf hle hlen h1 h2
    simp only [bisectRightLoop]
    split
    · rename_i hlt
      have hmid1 : lo ≤ (lo + hi) / 2 := by omega
      have hmid2 : (lo + hi) / 2 < hi := by omega
      have hmidlen : (lo + hi) / 2 < a.length := by omega
      have hget : a[(lo + hi) / 2]? = some a[(lo + hi) / 2] := List.getElem?_eq_getElem hmidlen
      rw [hget]
      simp only [ascendingGt]
      rw [List.pairwise_iff_getElem] at hs
      split
      · rename_i hgt
        have hgt' : v < a[(lo + hi) / 2] := by simpa using hgt
        apply ih lo _ (by omega) hmid1 (by omega) h1
        intro i b hb hi'
        have hi_len : i < a.length := by
          by_contra hcon
          rw [List.getElem?_eq_none (by omega)] at hb
          exact absurd hb (by simp)
        have hb' : a[i] = b := by
          rw [List.getElem?_eq_getElem hi_len] at hb
          exact Option.some.inj hb
        rcases Nat.eq_or_lt_of_le hi' with heq | hlt'
        · subst heq; rw [← hb']; exact hgt'
        · rw [← hb']
          exact lt_trans hgt' (hs _ _ hmidlen hi_len hlt')
      · rename_i hgt
        have hle' : a[(lo + hi) / 2] ≤ v := by simpa using hgt
        apply ih _ hi (by omega) (by omega) hlen _ h2
        intro i b hb hi'
        have hi_len : i < a.length := by omega
        have hb' : a[i] = b := by
          rw [List.getElem?_eq_getElem hi_len] at hb
          exact Option.some.inj hb
        rcases Nat.eq_or_lt_of_le (Nat.lt_succ_iff.mp hi') with heq | hlt'
        · subst heq; rw [← hb']; exact hle'
        · rw [← hb']
          exact le_trans (le_of_lt (hs _ _ hi_len hmidlen hlt')) hle'
    · rename_i hnlt
      have : lo = hi := by omega
      subst this
      symm
      apply countP_eq_of_split _ a lo hlen
      · intro i b hb hi; simpa using h1 i b hb hi
      · intro i b hb hi; simpa using h2 i b hb hi

/-- The bisection over a strictly increasing array counts the breakpoints that
are at most the value. -/
theorem bisectRight_eq_countP (a : List ℚ) (v : ℚ) (hs : a.Pairwise (· < ·)) :
    bisectRight a (some v) 0 a.length = a.countP (fun b => decide (b ≤ v)) := by
  unfold bisectRight
  apply bisectRightLoop_eq_countP a v hs _ 0 a.length (le_refl _) (Nat.zero_le _) (le_refl _)
  · intro i b _ hi; omega
  · intro i b hb hi
    rw [List.getElem?_eq_none hi] at hb
    exact absurd hb (by simp)



/-! ### The threshold classification -/

theorem toNumber_some_selfLe {x : JSVal} {v : ℚ} (hv : toNumber x = some v) : selfLe x = true := by
  cases x <;> simp [toNumber, selfLe] at hv ⊢

theorem bucketIndex_eq_countP (d : ThemeDescriptor) (x : JSVal) (v : ℚ)
    (hinc : d.paletteDomain.Pairwise (· < ·))
    (hK : d.paletteRange.length = d.paletteDomain.length + 1)
    (hv : toNumber x = some v) :
    bucketIndex d x = d.paletteDomain.countP (fun b => decide (b ≤ v)) := by
  unfold bucketIndex scaleBound
  rw [hv, hK, Nat.add_sub_cancel, Nat.min_self]
  exact bisectRight_eq_countP _ v hinc

theorem pathcolor_eq_bucket (d : ThemeDescriptor) (x : JSVal) (v : ℚ)
    (hv : toNumber x = some v) : pathcolor d x = d.paletteRange[bucketIndex d x]? := by
  unfold pathcolor scaleThreshold bucketIndex
  rw [toNumber_some_selfLe hv]
  simp

theorem countP_le_breakpoint (a : List ℚ) (hs : a.Pairwise (· < ·)) (i : Nat) (v : ℚ)
    (hi : a[i]? = some v) : a.countP (fun b => decide (b ≤ v)) = i + 1 := by
  have hlen : i < a.length := by
    by_contra hcon
    rw [List.getElem?_eq_none (by omega)] at hi
    exact absurd hi (by simp)
  have hv : a[i] = v := by
    rw [List.getElem?_eq_getElem hlen] at hi
    exact Option.some.inj hi
  rw [List.pairwise_iff_getElem] at hs
  apply countP_eq_of_split _ a (i + 1) hlen
  · intro j b hb hj
    have hjl : j < a.length := by omega
    have hb' : a[j] = b := by
      rw [List.getElem?_eq_getElem hjl] at hb
      exact Option.some.inj hb
    rcases Nat.eq_or_lt_of_le (Nat.lt_succ_iff.mp hj) with heq | hlt
    · subst heq; simp [← hb', hv]
    · have := hs j i hjl hlen hlt
      simp only [decide_eq_true_eq]
      rw [← hb', ← hv]
      exact le_of_lt this
  · intro j b hb hj
    have hjl : j < a.length := by
      by_contra hcon
      rw [List.getElem?_eq_none (by omega)] at hb
      exact absurd hb (by simp)
    have hb' : a[j] = b := by
      rw [List.getElem?_eq_getElem hjl] at hb
      exact Option.some.inj hb
    have := hs i j hlen hjl (by omega)
    simp only [decide_eq_false_iff_not, not_le]
    rw [← hb', ← hv]
    exact this

theorem getTheme_valid (iTheme : String) (d : ThemeDescriptor) (h : getTheme iTheme = some d) :
    d.Valid := by
  have hall : ∀ p ∈ mapThemesDict, p.2.Valid := by decide!
  have hmem : (iTheme, d) ∈ mapThemesDict := by
    unfold getTheme at h
    obtain ⟨l₁, l₂, hl, _⟩ := List.lookup_eq_some_iff.mp h
    rw [hl]
    simp
  exact hall _ hmem

/-- C1: for a theme descriptor with strictly increasing breakpoints (one colour
per bucket) and a numeric value `v`, the scale `pathcolor` that `renderTheme`
builds reads `paletteRange` at the index that is the number of breakpoints
`≤ v`; a value equal to the breakpoint of index `i` falls in bucket `i + 1`, the
higher one.  On the breakpoints `[750, 2000, 5000]` (theme `POP_DENSITY`) the
values 749, 750, 1999, 2000, 5000, 5001 fall in buckets 0, 1, 1, 2, 3, 3. -/
theorem classify_counts_breakpoints (d : ThemeDescriptor) (x : JSVal) (v : ℚ)
    (hinc : d.paletteDomain.Pairwise (· < ·))
    (hK : d.paletteRange.length = d.paletteDomain.length + 1)
    (hv : toNumber x = some v) :
    bucketIndex d x = d.paletteDomain.countP (fun b => decide (b ≤ v)) ∧
    pathcolor d x = d.paletteRange[d.paletteDomain.countP (fun b => decide (b ≤ v))]? ∧
    (∀ i, d.paletteDomain[i]? = some v → bucketIndex d x = i + 1) ∧
    (themeOf "POP_DENSITY").paletteDomain = [750, 2000, 5000] ∧
    [749, 750, 1999, 2000, 5000, 5001].map
        (fun n : ℚ => bucketIndex (themeOf "POP_DENSITY") (JSVal.number n)) =
      [0, 1, 1, 2, 3, 3] := by
  have hb := bucketIndex_eq_countP d x v hinc hK hv
  refine ⟨hb, ?_, ?_, by decide!, by decide!⟩
  · rw [pathcolor_eq_bucket d x v hv, hb]
  · intro i hi
    rw [hb]
    exact countP_le_breakpoint _ hinc i v hi

/-- Witness for C1: the CSV cell `"750"` under the `POP_DENSITY` descriptor. -/
theorem classify_counts_breakpoints_witness :
    (themeOf "POP_DENSITY").paletteDomain.Pairwise (· < ·) ∧
    (themeOf "POP_DENSITY").paletteRange.length = (themeOf "POP_DENSITY").paletteDomain.length + 1 ∧
    toNumber (JSVal.string "750") = some 750 ∧
    bucketIndex (themeOf "POP_DENSITY") (JSVal.string "750") =
      (themeOf "POP_DENSITY").paletteDomain.countP (fun b => decide (b ≤ 750)) :=
  ⟨by decide!, by decide!, by decide!,
    (classify_counts_breakpoints (themeOf "POP_DENSITY") (JSVal.string "750") 750
      (by decide!) (by decide!) (by decide!)).1⟩

/-- C2: for a theme descriptor with `K - 1` strictly increasing breakpoints and
`K` colours, the bucket index is monotone in the value and never exceeds
`K - 1` (it is a natural number, so it is at least 0). -/
theorem classify_monotone_bounded (d : ThemeDescriptor) (x y : JSVal) (v w : ℚ)
    (hinc : d.paletteDomain.Pairwise (· < ·))
    (hK : d.paletteRange.length = d.paletteDomain.length + 1)
    (hx : toNumber x = some v) (hy : toNumber y = some w) (hvw : v ≤ w) :
    bucketIndex d x ≤ bucketIndex d y ∧
    0 ≤ bucketIndex d x ∧ bucketIndex d x ≤ d.paletteRange.length - 1 ∧
    bucketIndex d y ≤ d.paletteRange.length - 1 := by
  rw [bucketIndex_eq_countP d x v hinc hK hx, bucketIndex_eq_countP d y w hinc hK hy, hK,
    Nat.add_sub_cancel]
  refine ⟨?_, Nat.zero_le _, List.countP_le_length _, List.countP_le_length _⟩
  apply List.countP_mono_left
  intro b _ hb
  simp only [decide_eq_true_eq] at hb ⊢
  exact le_trans hb hvw

/-- Witness for C2: the values 1999 and 2000 under the `POP_DENSITY` descriptor. -/
theorem classify_monotone_bounded_witness :
    (themeOf "POP_DENSITY").paletteDomain.Pairwise (· < ·) ∧
    (1999 : ℚ) ≤ 2000 ∧
    bucketIndex (themeOf "POP_DENSITY") (JSVal.string "1999") ≤
      bucketIndex (themeOf "POP_DENSITY") (JSVal.number 2000) :=
  ⟨by decide!, by decide!,
    (classify_monotone_bounded (themeOf "POP_DENSITY") (JSVal.string "1999") (JSVal.number 2000)
      1999 2000 (by decide!) (by decide!) (by decide!) (by decide!) (by decide!)).1⟩

/-- C3: `mapThemesDict` has 15 entries under pairwise distinct keys, and every
descriptor in it has strictly increasing breakpoints and exactly
`paletteDomain.length + 1` colours and legend labels. -/
theorem mapThemesDict_valid (iTheme : String) (d : ThemeDescriptor)
    (h : (iTheme, d) ∈ mapThemesDict) :
    mapThemesDict.length = 15 ∧ (mapThemesDict.map Prod.fst).Nodup ∧
    d.paletteDomain.Pairwise (· < ·) ∧
    d.paletteRange.length = d.paletteDomain.length + 1 ∧
    d.legendText.length = d.paletteDomain.length + 1 := by
  have hall : ∀ p ∈ mapThemesDict, p.2.Valid := by decide!
  exact ⟨by decide!, by decide!, hall _ h⟩

/-- Witness for C3: the entry `BIKE_LANE_MI`. -/
theorem mapThemesDict_valid_witness :
    ("BIKE_LANE_MI", themeOf "BIKE_LANE_MI") ∈ mapThemesDict ∧
    (themeOf "BIKE_LANE_MI").paletteDomain.Pairwise (· < ·) ∧
    (themeOf "BIKE_LANE_MI").paletteRange.length = 4 ∧
    (themeOf "BIKE_LANE_MI").legendText.length = 4 :=
  ⟨by decide!,
    (mapThemesDict_valid "BIKE_LANE_MI" (themeOf "BIKE_LANE_MI") (by decide!)).2.2.1,
    (mapThemesDict_valid "BIKE_LANE_MI" (themeOf "BIKE_LANE_MI") (by decide!)).2.2.2.1,
    (mapThemesDict_valid "BIKE_LANE_MI" (themeOf "BIKE_LANE_MI") (by decide!)).2.2.2.2⟩

/-! ### The load-time merge -/

theorem numEq_eq {a b : Option ℚ} (h : numEq a b = true) : a = b := by
  cases a <;> cases b <;> simp [numEq] at h
  simp [h]

theorem mergeRow_id (p row : Props) :
    toNumber ((mergeRow p row).get "TOWN_ID") = toNumber (p.get "TOWN_ID") := by
  unfold mergeRow
  split
  · rename_i h; exact (numEq_eq h).symm
  · rfl

theorem foldl_mergeRow_id (rows : List Props) :
    ∀ p : Props, toNumber ((rows.foldl mergeRow p).get "TOWN_ID") = toNumber (p.get "TOWN_ID") := by
  induction rows with
  | nil => intro p; rfl
  | cons r rs ih => intro p; rw [List.foldl_cons, ih, mergeRow_id]

theorem foldl_mergeRow_mem (rows : List Props) :
    ∀ p : Props, rows.foldl mergeRow p = p ∨ rows.foldl mergeRow p ∈ rows := by
  induction rows with
  | nil => intro p; left; rfl
  | cons r rs ih =>
    intro p
    rw [List.foldl_cons]
    rcases ih (mergeRow p r) with h | h
    · rw [h]
      unfold mergeRow
      split
      · right; simp
      · left; rfl
    · right; exact List.mem_cons_of_mem _ h

theorem foldl_mergeRow_unmatched (rows : List Props) :
    ∀ p : Props,
      (∀ row ∈ rows, numEq (toNumber (p.get "TOWN_ID")) (toNumber (row.get "TOWN_ID")) = false) →
      rows.foldl mergeRow p = p := by
  induction rows with
  | nil => intro p _; rfl
  | cons r rs ih =>
    intro p h
    have hr : mergeRow p r = p := by
      unfold mergeRow
      rw [h r (List.mem_cons_self _ _)]
      simp
    rw [List.foldl_cons, hr]
    exact ih p (fun row hrow => h row (List.mem_cons_of_mem _ hrow))

theorem foldl_mergeRow_matched (rows : List Props) :
    ∀ p : Props,
      (∃ row ∈ rows, numEq (toNumber (p.get "TOWN_ID")) (toNumber (row.get "TOWN_ID")) = true) →
      rows.foldl mergeRow p ∈ rows := by
  induction rows with
  | nil => intro p h; obtain ⟨row, hrow, _⟩ := h; simp at hrow
  | cons r rs ih =>
    intro p h
    rw [List.foldl_cons]
    obtain ⟨row, hrow, hm⟩ := h
    rcases List.mem_cons.mp hrow with heq | hmem
    · subst heq
      have hr : mergeRow p row = row := by
        unfold mergeRow; rw [hm]; simp
      rw [hr]
      rcases foldl_mergeRow_mem rs row with h' | h'
      · rw [h']; simp
      · exact List.mem_cons_of_mem _ h'
    · apply List.mem_cons_of_mem
      apply ih
      exact ⟨row, hmem, by rw [mergeRow_id]; exact hm⟩



theorem build_getElem? (towns : List Feature) (lcData : List Props) (i : Nat) :
    (build towns lcData)[i]? = (towns[i]?).map (mergeTown lcData) := by
  unfold build
  exact List.getElem?_map _ _ _

/-- C4: the merge returns a catalog of the same length whose `i`-th entity has
the geometry of the `i`-th geometry record (same order) and the same numeric
`TOWN_ID`; when some indicator row has a numerically equal `TOWN_ID`, the
entity's `properties` object is one of the indicator rows, one whose `TOWN_ID`
is numerically equal to that of the geometry record. -/
theorem build_joins (towns : List Feature) (lcData : List Props) (i : Nat) (g : Feature)
    (hg : towns[i]? = some g) :
    (build towns lcData).length = towns.length ∧
    ∃ e, (build towns lcData)[i]? = some e ∧ e.geometry = g.geometry ∧ townId e = townId g ∧
      ((∃ row ∈ lcData, numEq (townId g) (toNumber (row.get "TOWN_ID")) = true) →
        e.properties ∈ lcData ∧ numEq (townId g) (townId e) = true) := by
  refine ⟨by simp [build], mergeTown lcData g, ?_, rfl, ?_, ?_⟩
  · rw [build_getElem?, hg]; rfl
  · exact foldl_mergeRow_id lcData g.properties
  · intro hm
    refine ⟨foldl_mergeRow_matched lcData g.properties hm, ?_⟩
    obtain ⟨row, _, hrow⟩ := hm
    have hid : townId (mergeTown lcData g) = townId g := foldl_mergeRow_id lcData g.properties
    rw [hid]
    unfold townId at *
    cases hq : toNumber (g.properties.get "TOWN_ID") with
    | none => rw [hq] at hrow; simp [numEq] at hrow
    | some q => simp [numEq]

/-- Witness for C4: two geometry records and two CSV rows; the second record
(TOWN_ID 2) receives the row whose TOWN_ID is `"2"`. -/
theorem build_joins_witness :
    (build
      [⟨"g1", [("TOWN_ID", JSVal.number 1), ("TOWN", JSVal.string "ACTON")]⟩,
       ⟨"g2", [("TOWN_ID", JSVal.number 2), ("TOWN", JSVal.string "ARLINGTON")]⟩]
      [[("TOWN_ID", JSVal.string "2"), ("POP_DENSITY", JSVal.string "8000")],
       [("TOWN_ID", JSVal.string "7"), ("POP_DENSITY", JSVal.string "100")]]).length = 2 ∧
    ∃ e, (build
      [⟨"g1", [("TOWN_ID", JSVal.number 1), ("TOWN", JSVal.string "ACTON")]⟩,
       ⟨"g2", [("TOWN_ID", JSVal.number 2), ("TOWN", JSVal.string "ARLINGTON")]⟩]
      [[("TOWN_ID", JSVal.string "2"), ("POP_DENSITY", JSVal.string "8000")],
       [("TOWN_ID", JSVal.string "7"), ("POP_DENSITY", JSVal.string "100")]])[1]? = some e ∧
      e.properties ∈ [[("TOWN_ID", JSVal.string "2"), ("POP_DENSITY", JSVal.string "8000")],
        [("TOWN_ID", JSVal.string "7"), ("POP_DENSITY", JSVal.string "100")]] := by
  obtain ⟨hlen, e, he, _, _, hm⟩ := build_joins
    [⟨"g1", [("TOWN_ID", JSVal.number 1), ("TOWN", JSVal.string "ACTON")]⟩,
     ⟨"g2", [("TOWN_ID", JSVal.number 2), ("TOWN", JSVal.string "ARLINGTON")]⟩]
    [[("TOWN_ID", JSVal.string "2"), ("POP_DENSITY", JSVal.string "8000")],
     [("TOWN_ID", JSVal.string "7"), ("POP_DENSITY", JSVal.string "100")]]
    1 ⟨"g2", [("TOWN_ID", JSVal.number 2), ("TOWN", JSVal.string "ARLINGTON")]⟩ rfl
  exact ⟨hlen, e, he, (hm ⟨_, List.mem_cons_self _ _, by decide!⟩).1⟩

/-- C5: a geometry record whose `TOWN_ID` is numerically equal to that of no
indicator row yields an entity that is the geometry record itself, unchanged:
no indicator row is attached, and every property the geometry record lacks
(every indicator) is `undefined` on the entity. -/
theorem build_unmatched (towns : List Feature) (lcData : List Props) (i : Nat) (g : Feature)
    (hg : towns[i]? = some g)
    (hno : ∀ row ∈ lcData, numEq (townId g) (toNumber (row.get "TOWN_ID")) = false) :
    (build towns lcData)[i]? = some g ∧
    ∀ e, (build towns lcData)[i]? = some e →
      e.properties = g.properties ∧
      ∀ key, g.properties.get key = JSVal.undefined → e.properties.get key = JSVal.undefined := by
  have h : (build towns lcData)[i]? = some g := by
    rw [build_getElem?, hg]
    simp only [Option.map_some', mergeTown]
    rw [foldl_mergeRow_unmatched lcData g.properties hno]
  refine ⟨h, ?_⟩
  intro e he
  rw [h] at he
  cases he
  exact ⟨rfl, fun _ hk => hk⟩

/-- Witness for C5: the first geometry record (TOWN_ID 1) has no row. -/
theorem build_unmatched_witness :
    (build
      [⟨"g1", [("TOWN_ID", JSVal.number 1), ("TOWN", JSVal.string "ACTON")]⟩,
       ⟨"g2", [("TOWN_ID", JSVal.number 2), ("TOWN", JSVal.string "ARLINGTON")]⟩]
      [[("TOWN_ID", JSVal.string "2"), ("POP_DENSITY", JSVal.string "8000")]])[0]? =
      some ⟨"g1", [("TOWN_ID", JSVal.number 1), ("TOWN", JSVal.string "ACTON")]⟩ :=
  (build_unmatched
    [⟨"g1", [("TOWN_ID", JSVal.number 1), ("TOWN", JSVal.string "ACTON")]⟩,
     ⟨"g2", [("TOWN_ID", JSVal.number 2), ("TOWN", JSVal.string "ARLINGTON")]⟩]
    [[("TOWN_ID", JSVal.string "2"), ("POP_DENSITY", JSVal.string "8000")]]
    0 ⟨"g1", [("TOWN_ID", JSVal.number 1), ("TOWN", JSVal.string "ACTON")]⟩ rfl
    (by decide!)).1


/-! ### Theme selection -/

theorem mapThemesDict_keys : mapThemesDict.map Prod.fst = mapThemes := by decide!

theorem getTheme_eq_none_of_not_mem (v : String) (h : v ∉ mapThemes) : getTheme v = none := by
  unfold getTheme
  rw [List.lookup_eq_none_iff]
  intro p hp
  have hmem : p.1 ∈ mapThemes := by
    rw [← mapThemesDict_keys]
    exact List.mem_map_of_mem _ hp
  simp only [bne_iff_ne, ne_eq]
  intro heq
  exact h (heq ▸ hmem)

theorem getTheme_of_mem (t : String) (h : t ∈ mapThemes) :
    ∃ d, getTheme t = some d ∧ t.length ≠ 0 := by
  have hall : ∀ t ∈ mapThemes, (getTheme t).isSome = true ∧ t.length ≠ 0 := by decide!
  obtain ⟨h1, h2⟩ := hall t h
  obtain ⟨d, hd⟩ := Option.isSome_iff_exists.mp h1
  exact ⟨d, hd, h2⟩

theorem contains_mapThemes (t : String) : mapThemes.contains t = true ↔ t ∈ mapThemes := by
  simp

/-- C7: with a value that is not in `mapThemes` in the theme dropdown,
`renderTheme` shows its alert and returns with the state as it was (no
recolouring, no legend or highlight change); a click on a table row whose class
is not in `mapThemes` leaves the whole state, the active theme included,
unchanged; and choosing such a value in the theme dropdown changes nothing but
the value the dropdown shows (the handler alerts or stops before any render). -/
theorem unknown_theme_no_render (s : State) (scope className v : String)
    (hs : s.selected_theme ∉ mapThemes) (hc : className ∉ mapThemes) (hv : v ∉ mapThemes) :
    (∃ msg, renderTheme s = Outcome.alerted msg s) ∧
    tableClicked scope className s = Outcome.done s ∧
    (step (Action.clickTable scope className) s).state = s ∧
    (step (Action.selectTheme v) s).state = { s with selected_theme := v } ∧
    (∀ s', step (Action.selectTheme v) s ≠ Outcome.done s') := by
  have hs' : mapThemes.contains s.selected_theme = false := by
    rw [← Bool.not_eq_true, contains_mapThemes]; exact hs
  have hc' : mapThemes.contains className = false := by
    rw [← Bool.not_eq_true, contains_mapThemes]; exact hc
  have hclick : tableClicked scope className s = Outcome.done s := by
    unfold tableClicked
    rw [hc']
    simp
  refine ⟨?_, hclick, ?_, ?_, ?_⟩
  · unfold renderTheme
    simp only [hs']
    exact ⟨_, rfl⟩
  · simp only [step, hclick, Outcome.state]
  · simp only [step, themeChanged]
    split
    · rfl
    · simp only [getTheme_eq_none_of_not_mem v hv, Outcome.state]
  · intro s'
    simp only [step, themeChanged]
    split
    · simp
    · simp only [getTheme_eq_none_of_not_mem v hv]
      simp

theorem colorMap_idem (d : ThemeDescriptor) (iTheme : String) :
    ∀ (paths : List PathEl) (data : List Feature),
      colorMap d iTheme (colorMap d iTheme paths data) data = colorMap d iTheme paths data := by
  intro paths
  induction paths with
  | nil => intro data; cases data <;> rfl
  | cons el els ih =>
    intro data
    cases data with
    | nil => rfl
    | cons f fs => simp only [colorMap, ih]

theorem legendRects_idem (d : ThemeDescriptor) :
    ∀ (its : List LegendItem) (vs : List ℚ),
      legendRects d (legendRects d its vs) vs = legendRects d its vs := by
  intro its
  induction its with
  | nil => intro vs; cases vs <;> rfl
  | cons it its ih =>
    intro vs
    cases vs with
    | nil => rfl
    | cons v vs => simp only [legendRects, ih]

theorem legendTexts_idem :
    ∀ (its : List LegendItem) (ts : List String),
      legendTexts (legendTexts its ts) ts = legendTexts its ts := by
  intro its
  induction its with
  | nil => intro ts; cases ts <;> rfl
  | cons it its ih =>
    intro ts
    cases ts with
    | nil => rfl
    | cons t ts => simp only [legendTexts, ih]

theorem legendRects_legendTexts (d : ThemeDescriptor) :
    ∀ (its : List LegendItem) (vs : List ℚ) (ts : List String),
      legendRects d (legendTexts its ts) vs = legendTexts (legendRects d its vs) ts := by
  intro its
  induction its with
  | nil => intro vs ts; cases vs <;> cases ts <;> rfl
  | cons it its ih =>
    intro vs ts
    cases vs with
    | nil => cases ts <;> rfl
    | cons v vs =>
      cases ts with
      | nil => rfl
      | cons t ts => simp only [legendTexts, legendRects, ih]

theorem colorLegend_idem (d : ThemeDescriptor) (legend : List LegendItem) :
    colorLegend d (colorLegend d legend) = colorLegend d legend := by
  unfold colorLegend
  rw [legendRects_legendTexts, legendRects_idem, legendTexts_idem]

theorem setBold_nil (sel : String) (s : State) (h : s.bold = []) :
    (setBold sel s).bold = if rowExists s sel then [sel] else [] := by
  unfold setBold
  split <;> simp [h]

theorem applyTheme_idem (d : ThemeDescriptor) (iTheme : String) (s : State) :
    applyTheme d iTheme (applyTheme d iTheme s) = applyTheme d iTheme s := by
  simp only [applyTheme, setBold, rowExists, State.grids]
  split <;> simp [colorMap_idem, colorLegend_idem]

theorem step_selectTheme (s : State) (t : String) (d : ThemeDescriptor)
    (hd : getTheme t = some d) (hlen : t.length ≠ 0) (hc : mapThemes.contains t = true) :
    step (Action.selectTheme t) s =
      Outcome.done (applyTheme d t { s with selected_theme := t, activeTab := d.tabSwitchID }) := by
  simp only [step, themeChanged, renderTheme, hd, hc, if_neg hlen, if_true]

/-- C9: for a registered theme `t` shown in the theme dropdown, `renderTheme`
runs to its end, and running it again changes nothing: the second run ends in
the very state the first one produced (same fill of every path, same legend,
same bold row, same selection state).  The same holds for choosing `t` twice in
the theme dropdown. -/
theorem renderTheme_idempotent (s : State) (t : String) (ht : t ∈ mapThemes)
    (hs : s.selected_theme = t) :
    ∃ s1, renderTheme s = Outcome.done s1 ∧ renderTheme s1 = Outcome.done s1 ∧
      s1.selected_theme = t ∧ s1.selected_town = s.selected_town ∧
      s1.iSelectedTown = s.iSelectedTown ∧ s1.town_text = s.town_text ∧
      ∃ s2, step (Action.selectTheme t) s = Outcome.done s2 ∧
        step (Action.selectTheme t) s2 = Outcome.done s2 := by
  obtain ⟨d, hd, hlen⟩ := getTheme_of_mem t ht
  have hc : mapThemes.contains t = true := (contains_mapThemes t).mpr ht
  subst hs
  have hr : ∀ s' : State, s'.selected_theme = s.selected_theme →
      renderTheme s' = Outcome.done (applyTheme d s.selected_theme s') := by
    intro s' hs'
    simp only [renderTheme, hs', hc, hd, if_true]
  have hthm : ∀ s' : State, (applyTheme d s.selected_theme s').selected_theme = s'.selected_theme := by
    intro s'; simp only [applyTheme, setBold]; split <;> rfl
  refine ⟨applyTheme d s.selected_theme s, hr s rfl, ?_, hthm s, ?_, ?_, ?_, ?_⟩
  · rw [hr _ (hthm s), applyTheme_idem]
  · simp only [applyTheme, setBold]; split <;> rfl
  · simp only [applyTheme, setBold]; split <;> rfl
  · simp only [applyTheme, setBold]; split <;> rfl
  · refine ⟨_, step_selectTheme s _ d hd hlen hc, ?_⟩
    rw [step_selectTheme _ _ d hd hlen hc]
    congr 1
    simp only [applyTheme, setBold, rowExists, State.grids]
    split <;> simp [colorMap_idem, colorLegend_idem]


/-- Witness for C7: the sample page, whose theme dropdown shows the empty
option, and a click on a row whose class is no theme identifier. -/
theorem unknown_theme_no_render_witness :
    sampleState.selected_theme ∉ mapThemes ∧ "demog_header" ∉ mapThemes ∧
    tableClicked "row" "demog_header" sampleState = Outcome.done sampleState :=
  ⟨by decide!, by decide!,
    (unknown_theme_no_render sampleState "row" "demog_header" "" (by decide!) (by decide!)
      (by decide!)).2.1⟩

/-- Witness for C9: the theme `POP_DENSITY` on the sample page. -/
theorem renderTheme_idempotent_witness :
    "POP_DENSITY" ∈ mapThemes ∧
    ∃ s1, renderTheme { sampleState with selected_theme := "POP_DENSITY" } = Outcome.done s1 ∧
      renderTheme s1 = Outcome.done s1 :=
  ⟨by decide!,
    (renderTheme_idempotent { sampleState with selected_theme := "POP_DENSITY" } "POP_DENSITY"
      (by decide!) rfl).imp (fun _ h => ⟨h.1, h.2.1⟩)⟩


/-! ### Town selection -/

theorem setBold_eq (sel : String) (s : State) :
    setBold sel s = { s with bold := (setBold sel s).bold } := by
  unfold setBold
  split <;> rfl

theorem rehighlight_cases (s : State) :
    rehighlight s = Outcome.done s ∨ (∃ sel, rehighlight s = Outcome.done (setBold sel s)) ∨
      rehighlight s = Outcome.threw s := by
  unfold rehighlight
  split
  · split
    · right; left; exact ⟨_, rfl⟩
    · right; right; rfl
  · left; rfl

theorem getDataForTown_not_found (iTownId : JSVal) (s : State)
    (hno : s.data.find? (fun f => numEq (townId f) (toNumber iTownId)) = none) :
    getDataForTown iTownId s = rehighlight s := by
  simp only [getDataForTown, hno]

theorem post_not_found (X : State) (q : ℚ)
    (hno : X.data.find? (fun f => numEq (townId f) (some q)) = none) :
    ∃ b p dt, ((getDataForTown (JSVal.number q) X).andThen
        (fun s => Outcome.done (eachTown q s))).state =
      { X with bold := b, paths := p, data := dt } := by
  rw [getDataForTown_not_found (JSVal.number q) X hno]
  rcases rehighlight_cases X with h | ⟨sel, h⟩ | h
  · rw [h]; exact ⟨_, _, _, rfl⟩
  · rw [h, setBold_eq]; exact ⟨_, _, _, rfl⟩
  · rw [h]; exact ⟨_, _, _, rfl⟩

/-- What `renderMapAndDataForTown` leaves behind for an accepted number that
the lookup does not find. -/
theorem renderMap_not_found (s : State) (q : ℚ) (hq : q ≠ 0)
    (hno : s.data.find? (fun f => numEq (townId f) (some q)) = none) :
    ∃ b p dt, (renderMapAndDataForTown { s with selected_town := some q }).state =
      { s with selected_town := some q
               iSelectedTown := some q
               town_text := (match s.aMpoTowns.find? (fun t => t.1 == q) with
                 | some t => toTitleCase t.2
                 | none => s.town_text)
               bold := b, paths := p, data := dt } := by
  simp only [renderMapAndDataForTown, if_neg hq]
  cases hfind : s.aMpoTowns.find? (fun t => t.1 == q) with
  | none =>
    obtain ⟨b, p, dt, h⟩ := post_not_found
      { s with selected_town := some q, iSelectedTown := some q } q hno
    exact ⟨b, p, dt, h⟩
  | some t =>
    obtain ⟨b, p, dt, h⟩ := post_not_found
      { s with selected_town := some q, iSelectedTown := some q, town_text := toTitleCase t.2 }
      q hno
    exact ⟨b, p, dt, h⟩

/-- C6 (as amended): when the lookup finds no entry of `data` for the value
chosen in the town dropdown, the active theme, the six stores and the six grids
are left as they were (nothing is displayed).  A value that converts to `NaN`
or 0 is rejected with an alert and nothing but the dropdown changes; any other
number is stored in `iSelectedTown` before the lookup, and `town_text` becomes
the name `aMpoTowns` lists for it (it is kept when the number is not listed). -/
theorem selectTown_unknown (s : State) (v : Option ℚ)
    (hno : s.data.find? (fun f => numEq (townId f) v) = none) :
    (step (Action.selectTown v) s).state.selected_theme = s.selected_theme ∧
    (step (Action.selectTown v) s).state.stores = s.stores ∧
    (step (Action.selectTown v) s).state.grids = s.grids ∧
    ((v = none ∨ v = some 0) →
      ∃ msg, step (Action.selectTown v) s = Outcome.alerted msg { s with selected_town := v }) ∧
    (∀ q, v = some q → q ≠ 0 →
      (step (Action.selectTown v) s).state.iSelectedTown = some q ∧
      (step (Action.selectTown v) s).state.town_text =
        match s.aMpoTowns.find? (fun t => t.1 == q) with
        | some t => toTitleCase t.2
        | none => s.town_text) := by
  cases v with
  | none =>
    refine ⟨rfl, rfl, rfl, fun _ => ⟨_, rfl⟩, ?_⟩
    intro q hq; simp at hq
  | some q =>
    by_cases hq0 : q = 0
    · subst hq0
      refine ⟨rfl, rfl, rfl, fun _ => ⟨_, rfl⟩, ?_⟩
      intro q hq hne
      exact absurd (Option.some.inj hq).symm hne
    · obtain ⟨b, p, dt, h⟩ := renderMap_not_found s q hq0 hno
      simp only [step]
      rw [h]
      refine ⟨rfl, rfl, rfl, ?_, ?_⟩
      · intro hv
        rcases hv with hv | hv
        · simp at hv
        · exact absurd (Option.some.inj hv) hq0
      · intro q' hq' _
        cases Option.some.inj hq'
        exact ⟨rfl, rfl⟩

/-- Witness for C6 (as amended): town 1 chosen in the dropdown while the data
files have not arrived. -/
theorem selectTown_unknown_witness :
    (startState [(1, "ACTON")] (some 0) "").data.find?
        (fun f => numEq (townId f) (some 1)) = none ∧
    (step (Action.selectTown (some 1))
      (startState [(1, "ACTON")] (some 0) "")).state.selected_theme = "" ∧
    (step (Action.selectTown (some 1))
      (startState [(1, "ACTON")] (some 0) "")).state.stores =
        (startState [(1, "ACTON")] (some 0) "").stores :=
  ⟨by decide!,
   (selectTown_unknown (startState [(1, "ACTON")] (some 0) "") (some 1) (by decide!)).1,
   (selectTown_unknown (startState [(1, "ACTON")] (some 0) "") (some 1) (by decide!)).2.1⟩

/-- Counterexample to C6 as stated: the sample catalog (towns 1, 2, 3) under a
town dropdown that also offers town 4, `BOSTON`.  Town 1 is chosen and
displayed, then town 4, which the lookup does not find: `iSelectedTown` goes
from 1 to 4 and `town_text` from `Acton` to `Boston`.  The same happens while
the data files have not arrived: choosing town 1 then changes `iSelectedTown`
from unset to 1 and `town_text` from the empty string to `Acton`. -/
theorem selectTown_unknown_mutates :
    (run [Action.selectTown (some 1)]
      (loadedState [(1, "ACTON"), (4, "BOSTON")] sampleTowns sampleRows (some 0) "")).data.find?
        (fun f => numEq (townId f) (some 4)) = none ∧
    (run [Action.selectTown (some 1)]
      (loadedState [(1, "ACTON"), (4, "BOSTON")] sampleTowns sampleRows (some 0) "")).iSelectedTown
        = some 1 ∧
    (run [Action.selectTown (some 1)]
      (loadedState [(1, "ACTON"), (4, "BOSTON")] sampleTowns sampleRows (some 0) "")).town_text
        = "Acton" ∧
    (run [Action.selectTown (some 1), Action.selectTown (some 4)]
      (loadedState [(1, "ACTON"), (4, "BOSTON")] sampleTowns sampleRows (some 0) "")).iSelectedTown
        = some 4 ∧
    (run [Action.selectTown (some 1), Action.selectTown (some 4)]
      (loadedState [(1, "ACTON"), (4, "BOSTON")] sampleTowns sampleRows (some 0) "")).town_text
        = "Boston" ∧
    (startState [(1, "ACTON")] (some 0) "").data.find?
        (fun f => numEq (townId f) (some 1)) = none ∧
    (startState [(1, "ACTON")] (some 0) "").iSelectedTown = none ∧
    (startState [(1, "ACTON")] (some 0) "").town_text = "" ∧
    (step (Action.selectTown (some 1))
      (startState [(1, "ACTON")] (some 0) "")).state.iSelectedTown = some 1 ∧
    (step (Action.selectTown (some 1))
      (startState [(1, "ACTON")] (some 0) "")).state.town_text = "Acton" := by
  decide!


/-! ### Moving the selected town to the end of `data` -/

theorem move_to_last {α : Type} (pre post : List α) (x : α) :
    move (pre ++ x :: post) pre.length ((pre ++ x :: post).length - 1) = pre ++ post ++ [x] := by
  have hget : (pre ++ x :: post)[pre.length]? = some x := by
    rw [List.getElem?_append_right (le_refl _)]
    simp
  have hlen : (pre ++ x :: post).length - 1 = pre.length + post.length := by
    simp
  have herase : (pre ++ x :: post).eraseIdx pre.length = pre ++ post := by
    rw [List.eraseIdx_append_of_length_le (le_refl _)]
    simp
  unfold move
  rw [hget]
  simp only [herase, hlen]
  rw [if_pos (by simp)]
  have htake : (pre ++ post).take (pre.length + post.length) = pre ++ post := by
    apply List.take_of_length_le; simp
  have hdrop : (pre ++ post).drop (pre.length + post.length) = [] := by
    apply List.drop_of_length_le; simp
  rw [htake, hdrop]

theorem selectLoop_past_end (id : Option ℚ) (fuel i : Nat) (data : List Feature)
    (hi : data.length ≤ i) : selectLoop id fuel i data = data := by
  cases fuel with
  | zero => rfl
  | succ n =>
    simp only [selectLoop]
    rw [List.getElem?_eq_none hi]

/-- The loop changes nothing when, from the current position on, only the last
entry can match. -/
theorem selectLoop_noop (id : Option ℚ) :
    ∀ (fuel : Nat) (pre mid : List Feature) (x : Feature),
      (∀ f ∈ mid, numEq (townId f) id = false) →
      selectLoop id fuel pre.length (pre ++ mid ++ [x]) = pre ++ mid ++ [x] := by
  intro fuel
  induction fuel with
  | zero => intro pre mid x _; rfl
  | succ n ih =>
    intro pre mid x hmid
    cases mid with
    | nil =>
      simp only [selectLoop, List.append_nil]
      have hget : (pre ++ [x])[pre.length]? = some x := by
        rw [List.getElem?_append_right (le_refl _)]
        simp
      rw [hget]
      simp only
      have hmove : move (pre ++ [x]) pre.length ((pre ++ [x]).length - 1) = pre ++ [x] := by
        have := move_to_last pre [] x
        simpa using this
      have hsame : (if numEq (townId x) id = true then
          move (pre ++ [x]) pre.length ((pre ++ [x]).length - 1) else pre ++ [x]) = pre ++ [x] := by
        split
        · exact hmove
        · rfl
      rw [hsame]
      apply selectLoop_past_end
      simp
    | cons y ys =>
      simp only [selectLoop]
      have hget : (pre ++ y :: ys ++ [x])[pre.length]? = some y := by
        rw [List.append_assoc, List.getElem?_append_right (le_refl _)]
        simp
      rw [hget]
      simp only
      rw [hmid y (List.mem_cons_self _ _)]
      simp only [Bool.false_eq_true, if_false]
      have := ih (pre ++ [y]) ys x (fun f hf => hmid f (List.mem_cons_of_mem _ hf))
      simpa using this

/-- The loop, started with no match before the current position and at most
one match after it, moves that match to the end. -/
theorem selectLoop_partition (id : Option ℚ) :
    ∀ (fuel : Nat) (pre post : List Feature),
      post.length ≤ fuel →
      (post.filter (fun f => numEq (townId f) id)).length ≤ 1 →
      selectLoop id fuel pre.length (pre ++ post) =
        pre ++ (post.filter (fun f => !numEq (townId f) id) ++
          post.filter (fun f => numEq (townId f) id)) := by
  intro fuel
  induction fuel with
  | zero =>
    intro pre post hlen _
    have : post = [] := List.eq_nil_of_length_eq_zero (Nat.le_zero.mp hlen)
    subst this
    simp [selectLoop]
  | succ n ih =>
    intro pre post hlen huniq
    cases post with
    | nil => simp [selectLoop]
    | cons x xs =>
      simp only [selectLoop]
      have hget : (pre ++ x :: xs)[pre.length]? = some x := by
        rw [List.getElem?_append_right (le_refl _)]
        simp
      rw [hget]
      simp only
      by_cases hx : numEq (townId x) id = true
      · rw [if_pos hx, move_to_last]
        have hnone : ∀ f ∈ xs, numEq (townId f) id = false := by
          intro f hf
          by_contra hcon
          have hf' : numEq (townId f) id = true := by simpa using hcon
          have hmem : f ∈ xs.filter (fun f => numEq (townId f) id) :=
            List.mem_filter.mpr ⟨hf, hf'⟩
          have hpos : 0 < (xs.filter (fun f => numEq (townId f) id)).length :=
            List.length_pos_of_mem hmem
          simp only [List.filter_cons, hx, if_true, List.length_cons] at huniq
          omega
        have hf1 : xs.filter (fun f => !numEq (townId f) id) = xs := by
          rw [List.filter_eq_self]
          intro f hf
          simp [hnone f hf]
        have hf2 : xs.filter (fun f => numEq (townId f) id) = [] := by
          rw [List.filter_eq_nil_iff]
          intro f hf
          simp [hnone f hf]
        simp only [List.filter_cons, hx, Bool.not_true, Bool.false_eq_true, if_false, if_true,
          hf1, hf2]
        cases xs with
        | nil =>
          simp only [List.append_nil]
          apply selectLoop_past_end
          simp
        | cons y ys =>
          have := selectLoop_noop id n (pre ++ [y]) ys x
            (fun f hf => hnone f (List.mem_cons_of_mem _ hf))
          simpa using this
      · have hx' : numEq (townId x) id = false := by simpa using hx
        rw [if_neg hx]
        have hlen' : xs.length ≤ n := by simpa using hlen
        have huniq' : (xs.filter (fun f => numEq (townId f) id)).length ≤ 1 := by
          simpa [List.filter_cons, hx'] using huniq
        have := ih (pre ++ [x]) xs hlen' huniq'
        simp only [List.filter_cons, hx', Bool.not_false, if_true, Bool.false_eq_true, if_false]
        simpa using this

theorem moveToLast_partition (id : Option ℚ) (data : List Feature)
    (huniq : (data.filter (fun f => numEq (townId f) id)).length ≤ 1) :
    moveToLast id data =
      data.filter (fun f => !numEq (townId f) id) ++ data.filter (fun f => numEq (townId f) id) := by
  have := selectLoop_partition id data.length [] data (le_refl _) huniq
  simpa [moveToLast] using this

theorem numEq_true_iff (a b : Option ℚ) : numEq a b = true ↔ a = b ∧ a ≠ none := by
  cases a <;> cases b <;> simp [numEq]

theorem filter_numEq_length_le_one (id : Option ℚ) :
    ∀ data : List Feature, (data.map townId).Nodup →
      (data.filter (fun f => numEq (townId f) id)).length ≤ 1 := by
  intro data
  induction data with
  | nil => intro _; simp
  | cons x xs ih =>
    intro hnd
    rw [List.map_cons, List.nodup_cons] at hnd
    by_cases hx : numEq (townId x) id = true
    · have hnone : xs.filter (fun f => numEq (townId f) id) = [] := by
        rw [List.filter_eq_nil_iff]
        intro f hf hcon
        have h1 := ((numEq_true_iff _ _).mp hx).1
        have h2 := ((numEq_true_iff _ _).mp hcon).1
        apply hnd.1
        rw [h1, ← h2]
        exact List.mem_map_of_mem _ hf
      simp [List.filter_cons, hx, hnone]
    · have hx' : numEq (townId x) id = false := by simpa using hx
      simpa [List.filter_cons, hx'] using ih hnd.2


/-! ### The map invariant -/

theorem withTables_self (s : State) : withTables s s = s := rfl

theorem setBold_withTables (sel : String) (s : State) : setBold sel s = withTables s (setBold sel s) := by
  unfold setBold
  split <;> rfl

theorem rehighlight_frame (s : State) : ∃ t, (rehighlight s).state = withTables s t := by
  rcases rehighlight_cases s with h | ⟨sel, h⟩ | h
  · rw [h]; exact ⟨s, rfl⟩
  · rw [h]; exact ⟨_, setBold_withTables sel s⟩
  · rw [h]; exact ⟨s, rfl⟩

theorem populate_cases (a : Props) (s : State) :
    (∃ ct, commTypeStatsAt (toNumber (a.get "COMMUNITY_TYPE")) = some ct ∧
      populateDataStores a s = Outcome.done { s with
        lastaAttrs := some a
        demogStore := demogRows a ct
        walkStore := walkRows a ct (szAsterisk a)
        bikeStore := bikeRows a ct (szAsterisk a)
        autoStore := autoRows a ct
        phsStore := phsRows a ct
        msStore := msRows a ct }) ∨
    (commTypeStatsAt (toNumber (a.get "COMMUNITY_TYPE")) = none ∧
      populateDataStores a s = Outcome.threw { s with lastaAttrs := some a, demogStore := [] }) := by
  cases h : commTypeStatsAt (toNumber (a.get "COMMUNITY_TYPE")) with
  | none => right; exact ⟨rfl, by simp only [populateDataStores, h]⟩
  | some ct => left; exact ⟨ct, rfl, by simp only [populateDataStores, h]⟩

theorem display_frame (a : Props) (s : State) :
    (∃ t, displayDataForTown a s = Outcome.done (withTables s t)) ∨
    (∃ t, displayDataForTown a s = Outcome.threw (withTables s t)) := by
  rcases populate_cases a (initializeGrids { s with rowClass := [], bold := [] }) with
    ⟨ct, _, h⟩ | ⟨_, h⟩
  · left
    refine ⟨(displayDataForTown a s).state, ?_⟩
    simp only [displayDataForTown, h, Outcome.andThen, Outcome.state]
    rfl
  · right
    refine ⟨(displayDataForTown a s).state, ?_⟩
    simp only [displayDataForTown, h, Outcome.andThen, Outcome.state]
    rfl

theorem withTables_withTables (s t u : State) : withTables (withTables s t) u = withTables s u := rfl

theorem getDataForTown_frame (iTownId : JSVal) (s : State) :
    ∃ t, (getDataForTown iTownId s).state = withTables s t := by
  unfold getDataForTown
  split
  · rename_i f _
    rcases display_frame f.properties s with ⟨t, h⟩ | ⟨t, h⟩
    · rw [h]
      simp only [Outcome.andThen]
      obtain ⟨u, hu⟩ := rehighlight_frame (withTables s t)
      exact ⟨u, by rw [hu, withTables_withTables]⟩
    · rw [h]
      exact ⟨t, rfl⟩
  · exact rehighlight_frame s

theorem split_at_index {α : Type} (l : List α) (k : Nat) (x : α) (h : l[k]? = some x) :
    ∃ pre post, l = pre ++ x :: post ∧ pre.length = k := by
  obtain ⟨hk, hx⟩ := List.getElem?_eq_some.mp h
  refine ⟨l.take k, l.drop (k + 1), ?_, ?_⟩
  · rw [← hx]
    have : l.drop k = l[k] :: l.drop (k + 1) := List.drop_eq_getElem_cons hk
    rw [← this, List.take_append_drop]
  · exact List.length_take_of_le (le_of_lt hk)

theorem keyed_perm {data data' : List Feature} (hp : data'.Perm data) (hk : Keyed data) :
    Keyed data' := by
  refine ⟨fun f hf => hk.1 f (hp.mem_iff.mp hf), ?_⟩
  exact ((hp.map townId).nodup_iff).mpr hk.2

theorem hit_eq_of_synced (s : State) (hk : Keyed s.data) (hs : Synced s) (el : PathEl)
    (hel : el ∈ s.paths) : elementIdNumber el.id = townId el.datum := by
  have hmem : el.datum ∈ s.data := by
    rw [← hs.1]
    exact List.mem_map_of_mem _ hel
  have hne := hk.1 _ hmem
  have hid := (hs.2 el hel).1
  unfold townId at hne ⊢
  rw [hid]
  cases hv : el.datum.properties.get "TOWN_ID" with
  | undefined => rw [hv] at hne; simp [toNumber] at hne
  | number q => rfl
  | string str => rfl

theorem partition_perm (m : Feature → Bool) (data : List Feature) :
    (data.filter (fun f => !m f) ++ data.filter m).Perm data := by
  have h := List.filter_append_perm m data
  exact (List.perm_append_comm).trans h

theorem synced_eachTown (q : ℚ) (s : State) (hk : Keyed s.data) (hs : Synced s) :
    Synced (eachTown q s) ∧ (eachTown q s).data.Perm s.data := by
  have hhit : ∀ el ∈ s.paths, numEq (elementIdNumber el.id) (some q) =
      numEq (townId el.datum) (some q) := by
    intro el hel
    rw [hit_eq_of_synced s hk hs el hel]
  have hfilter : s.paths.filter (fun el => numEq (elementIdNumber el.id) (some q)) =
      s.paths.filter ((fun f => numEq (townId f) (some q)) ∘ (fun el => el.datum)) := by
    apply List.filter_congr
    intro el hel
    exact hhit el hel
  have hfilter' : s.paths.filter (fun el => !numEq (elementIdNumber el.id) (some q)) =
      s.paths.filter ((fun f => !numEq (townId f) (some q)) ∘ (fun el => el.datum)) := by
    apply List.filter_congr
    intro el hel
    simp only [Function.comp, hhit el hel]
  have hmapf : (s.paths.filter (fun el => numEq (elementIdNumber el.id) (some q))).map
      (fun el => el.datum) = s.data.filter (fun f => numEq (townId f) (some q)) := by
    rw [hfilter, ← List.filter_map, hs.1]
  have hmapf' : (s.paths.filter (fun el => !numEq (elementIdNumber el.id) (some q))).map
      (fun el => el.datum) = s.data.filter (fun f => !numEq (townId f) (some q)) := by
    rw [hfilter', ← List.filter_map, hs.1]
  have huniq := filter_numEq_length_le_one (some q) s.data hk.2
  have hdata : (eachTown q s).data =
      s.data.filter (fun f => !numEq (townId f) (some q)) ++
        s.data.filter (fun f => numEq (townId f) (some q)) := by
    simp only [eachTown]
    have hlen : (s.paths.filter (fun el => numEq (elementIdNumber el.id) (some q))).length ≤ 1 := by
      have := congrArg List.length hmapf
      rw [List.length_map] at this
      omega
    cases hh : s.paths.filter (fun el => numEq (elementIdNumber el.id) (some q)) with
    | nil =>
      rw [hh] at hmapf
      simp only [List.map_nil] at hmapf
      rw [← hmapf]
      simp only [List.foldl_nil, List.append_nil]
      symm
      rw [List.filter_eq_self]
      intro f hf
      have : f ∉ s.data.filter (fun f => numEq (townId f) (some q)) := by
        rw [← hmapf]; simp
      rw [List.mem_filter] at this
      simp only [not_and, Bool.not_eq_true] at this
      simp [this hf]
    | cons el rest =>
      rw [hh] at hlen
      have hrest : rest = [] := by
        cases rest with
        | nil => rfl
        | cons _ _ => simp at hlen
      subst hrest
      simp only [List.foldl_cons, List.foldl_nil]
      have helmem : el ∈ s.paths.filter (fun el => numEq (elementIdNumber el.id) (some q)) := by
        rw [hh]; simp
      have hel := List.mem_filter.mp helmem
      have hid : elementIdNumber el.id = some q := ((numEq_true_iff _ _).mp hel.2).1
      rw [hid]
      exact moveToLast_partition (some q) s.data huniq
  refine ⟨⟨?_, ?_⟩, ?_⟩
  · rw [hdata]
    simp only [eachTown, List.map_append, List.map_map]
    have h1 : ((fun el : PathEl => el.datum) ∘ resetStroke) = (fun el => el.datum) := rfl
    have h2 : ((fun el : PathEl => el.datum) ∘ highlight) = (fun el => el.datum) := rfl
    rw [h1, h2]
    rw [hmapf', hmapf]
  · intro el hel
    simp only [eachTown, List.mem_append, List.mem_map, List.mem_filter] at hel
    rcases hel with ⟨el0, ⟨h0, _⟩, rfl⟩ | ⟨el0, ⟨h0, _⟩, rfl⟩
    · exact hs.2 el0 h0
    · exact hs.2 el0 h0
  · rw [hdata]
    exact partition_perm _ _


theorem erase_eq_partition (m : Feature → Bool) (pre post : List Feature) (x : Feature)
    (hx : m x = true) (huniq : ((pre ++ x :: post).filter m).length ≤ 1) :
    pre ++ post ++ [x] =
      (pre ++ x :: post).filter (fun f => !m f) ++ (pre ++ x :: post).filter m := by
  have hpre : pre.filter m = [] ∧ post.filter m = [] := by
    simp only [List.filter_append, List.filter_cons, hx, if_true, List.length_append,
      List.length_cons] at huniq
    constructor
    · apply List.eq_nil_of_length_eq_zero; omega
    · apply List.eq_nil_of_length_eq_zero; omega
  have hpre' : pre.filter (fun f => !m f) = pre := by
    rw [List.filter_eq_self]
    intro f hf
    have := List.filter_eq_nil_iff.mp hpre.1 f hf
    simpa using this
  have hpost' : post.filter (fun f => !m f) = post := by
    rw [List.filter_eq_self]
    intro f hf
    have := List.filter_eq_nil_iff.mp hpre.2 f hf
    simpa using this
  simp [List.filter_append, List.filter_cons, hx, hpre.1, hpre.2, hpre', hpost']

theorem synced_click (k : Nat) (s : State) (el : PathEl) (hel : s.paths[k]? = some el)
    (hk : Keyed s.data) (hs : Synced s) :
    ((s.paths.map resetStroke).eraseIdx k ++ [highlight (resetStroke el)]).map (fun e => e.datum) =
        moveToLast (elementIdNumber el.id) s.data ∧
    (∀ e ∈ (s.paths.map resetStroke).eraseIdx k ++ [highlight (resetStroke el)],
        e.id = e.datum.properties.get "TOWN_ID" ∧ e.d = e.datum.geometry) ∧
    (moveToLast (elementIdNumber el.id) s.data).Perm s.data := by
  obtain ⟨pre, post, hsplit, hlen⟩ := split_at_index s.paths k el hel
  have hmem : el ∈ s.paths := by rw [hsplit]; simp
  have hid := hit_eq_of_synced s hk hs el hmem
  have hdat : el.datum ∈ s.data := by
    rw [← hs.1]; exact List.mem_map_of_mem _ hmem
  obtain ⟨q, hq⟩ := Option.ne_none_iff_exists'.mp (hk.1 _ hdat)
  have huniq := filter_numEq_length_le_one (some q) s.data hk.2
  have hdata : s.data = pre.map (fun e => e.datum) ++ el.datum :: post.map (fun e => e.datum) := by
    rw [← hs.1, hsplit]; simp
  have hmove : moveToLast (elementIdNumber el.id) s.data =
      pre.map (fun e => e.datum) ++ post.map (fun e => e.datum) ++ [el.datum] := by
    rw [hid, hq, moveToLast_partition (some q) s.data huniq]
    rw [hdata] at huniq ⊢
    symm
    apply erase_eq_partition (fun f => numEq (townId f) (some q)) _ _ _ _ huniq
    simp only [hq, numEq]
    simp
  have herase : (s.paths.map resetStroke).eraseIdx k = pre.map resetStroke ++ post.map resetStroke := by
    rw [hsplit, List.map_append, List.map_cons, ← hlen]
    have : (pre.map resetStroke).length ≤ pre.length := by simp
    rw [List.eraseIdx_append_of_length_le this]
    simp
  refine ⟨?_, ?_, ?_⟩
  · rw [hmove, herase]
    simp only [List.map_append, List.map_map, List.map_cons, List.map_nil]
    rfl
  · intro e he
    rw [herase] at he
    simp only [List.mem_append, List.mem_map, List.mem_singleton] at he
    rcases he with (⟨e0, h0, rfl⟩ | ⟨e0, h0, rfl⟩) | rfl
    · exact hs.2 e0 (by rw [hsplit]; simp [h0])
    · exact hs.2 e0 (by rw [hsplit]; simp [h0])
    · exact hs.2 el hmem
  · rw [hid, hq, moveToLast_partition (some q) s.data huniq]
    exact partition_perm _ _

theorem colorMap_map_datum (d : ThemeDescriptor) (iTheme : String) :
    ∀ paths : List PathEl,
      colorMap d iTheme paths (paths.map (fun el => el.datum)) =
        paths.map (fun el =>
          { el with fill := pathcolor d (el.datum.properties.get iTheme), opacity := some "0.7" }) := by
  intro paths
  induction paths with
  | nil => rfl
  | cons el els ih => simp only [List.map_cons, colorMap, ih]

theorem colorMap_synced (d : ThemeDescriptor) (iTheme : String) (s : State) (hs : Synced s) :
    colorMap d iTheme s.paths s.data =
      s.paths.map (fun el =>
        { el with fill := pathcolor d (el.datum.properties.get iTheme), opacity := some "0.7" }) := by
  rw [← hs.1]
  exact colorMap_map_datum d iTheme s.paths

/-- The invariant as carried along a run: the map is synced and `data` is a
rearrangement of the catalog. -/
theorem applyTheme_inv (d : ThemeDescriptor) (iTheme : String) (s : State) (hs : Synced s) :
    Synced (applyTheme d iTheme s) ∧ (applyTheme d iTheme s).data = s.data := by
  have hp : (applyTheme d iTheme s).paths = colorMap d iTheme s.paths s.data := by
    simp only [applyTheme, setBold]; split <;> rfl
  have hd : (applyTheme d iTheme s).data = s.data := by
    simp only [applyTheme, setBold]; split <;> rfl
  refine ⟨⟨?_, ?_⟩, hd⟩
  · rw [hp, hd, colorMap_synced d iTheme s hs, List.map_map]
    exact hs.1
  · intro el hel
    rw [hp, colorMap_synced d iTheme s hs] at hel
    obtain ⟨e0, h0, rfl⟩ := List.mem_map.mp hel
    exact hs.2 e0 h0

theorem renderTheme_inv (s : State) (hs : Synced s) :
    Synced (renderTheme s).state ∧ (renderTheme s).state.data = s.data := by
  unfold renderTheme
  simp only
  split
  · split
    · exact ⟨hs, rfl⟩
    · exact applyTheme_inv _ _ s hs
  · exact ⟨hs, rfl⟩

theorem perm_of_eq {a b c : List Feature} (h : a = b) (hp : b.Perm c) : a.Perm c :=
  h ▸ hp

theorem synced_of_paths_data {s s' : State} (hp : s'.paths = s.paths) (hd : s'.data = s.data)
    (hs : Synced s) : Synced s' := by
  unfold Synced at *
  rw [hp, hd]
  exact hs

theorem getDataForTown_inv (iTownId : JSVal) (s : State) (hs : Synced s) :
    Synced (getDataForTown iTownId s).state ∧ (getDataForTown iTownId s).state.data = s.data := by
  obtain ⟨t, ht⟩ := getDataForTown_frame iTownId s
  rw [ht]
  exact ⟨synced_of_paths_data rfl rfl hs, rfl⟩

theorem selectTown_tail_inv (q : ℚ) (X : State) (hk : Keyed X.data) (hs : Synced X) :
    Synced ((getDataForTown (JSVal.number q) X).andThen
        (fun s => Outcome.done (eachTown q s))).state ∧
    ((getDataForTown (JSVal.number q) X).andThen
        (fun s => Outcome.done (eachTown q s))).state.data.Perm X.data := by
  have hg := getDataForTown_inv (JSVal.number q) X hs
  cases ho : getDataForTown (JSVal.number q) X with
  | done s1 =>
    rw [ho] at hg
    simp only [Outcome.state] at hg
    simp only [Outcome.andThen, Outcome.state]
    have hk1 : Keyed s1.data := by rw [hg.2]; exact hk
    have := synced_eachTown q s1 hk1 hg.1
    refine ⟨this.1, ?_⟩
    have h2 := this.2
    rw [hg.2] at h2
    exact h2
  | alerted msg s1 =>
    rw [ho] at hg
    simp only [Outcome.state] at hg
    simp only [Outcome.andThen, Outcome.state]
    exact ⟨hg.1, by rw [hg.2]⟩
  | threw s1 =>
    rw [ho] at hg
    simp only [Outcome.state] at hg
    simp only [Outcome.andThen, Outcome.state]
    exact ⟨hg.1, by rw [hg.2]⟩

theorem step_inv (a : Action) (s : State) (hk : Keyed s.data) (hs : Synced s) :
    Synced (step a s).state ∧ (step a s).state.data.Perm s.data := by
  cases a with
  | selectTown v =>
    simp only [step, renderMapAndDataForTown]
    cases v with
    | none => exact ⟨synced_of_paths_data rfl rfl hs, List.Perm.refl _⟩
    | some q =>
      simp only
      split
      · exact ⟨synced_of_paths_data rfl rfl hs, List.Perm.refl _⟩
      · cases hfind : s.aMpoTowns.find? (fun t => t.1 == q) with
        | none =>
          have hX : Synced { s with selected_town := some q, iSelectedTown := some q } :=
            synced_of_paths_data rfl rfl hs
          exact selectTown_tail_inv q _ hk hX
        | some t =>
          have hX : Synced { s with selected_town := some q, iSelectedTown := some q, town_text := toTitleCase t.2 } :=
            synced_of_paths_data rfl rfl hs
          exact selectTown_tail_inv q _ hk hX
  | clickTown k =>
    simp only [step, clickTown]
    cases hel : s.paths[k]? with
    | none => exact ⟨hs, List.Perm.refl _⟩
    | some el =>
      simp only
      obtain ⟨h1, h2, h3⟩ := synced_click k s el hel hk hs
      split
      · rename_i town _
        have hg := getDataForTown_inv (el.datum.properties.get "TOWN_ID")
          { setSelectedTown s (toNumber (el.datum.properties.get "TOWN_ID")) with
            paths := (s.paths.map resetStroke).eraseIdx k ++ [highlight (resetStroke el)]
            town_text := toTitleCase town
            data := moveToLast (elementIdNumber el.id) s.data } ⟨h1, h2⟩
        exact ⟨hg.1, perm_of_eq hg.2 h3⟩
      · refine ⟨⟨?_, ?_⟩, List.Perm.refl _⟩
        · show (s.paths.map resetStroke).map (fun el => el.datum) = s.data
          rw [List.map_map]
          exact hs.1
        · intro e he
          obtain ⟨e0, h0, rfl⟩ := List.mem_map.mp he
          exact hs.2 e0 h0
  | selectTheme v =>
    simp only [step, themeChanged]
    split
    · exact ⟨synced_of_paths_data rfl rfl hs, List.Perm.refl _⟩
    · split
      · exact ⟨synced_of_paths_data rfl rfl hs, List.Perm.refl _⟩
      · rename_i d _
        have := renderTheme_inv { s with selected_theme := v, activeTab := d.tabSwitchID }
          (synced_of_paths_data rfl rfl hs)
        exact ⟨this.1, by rw [this.2]⟩
  | clickTable scope className =>
    simp only [step, tableClicked]
    split
    · split
      · have := renderTheme_inv { s with selected_theme := className }
          (synced_of_paths_data rfl rfl hs)
        exact ⟨this.1, by rw [this.2]⟩
      · exact ⟨hs, List.Perm.refl _⟩
    · exact ⟨hs, List.Perm.refl _⟩

theorem run_inv (actions : List Action) :
    ∀ s : State, Keyed s.data → Synced s →
      Synced (run actions s) ∧ (run actions s).data.Perm s.data := by
  induction actions with
  | nil => intro s _ hs; exact ⟨hs, List.Perm.refl _⟩
  | cons a as ih =>
    intro s hk hs
    have h1 := step_inv a s hk hs
    have h2 := ih (step a s).state (keyed_perm h1.2 hk) h1.1
    simp only [run, List.foldl_cons] at h2 ⊢
    exact ⟨h2.1, h2.2.trans h1.2⟩

theorem build_townId (towns : List Feature) (lcData : List Props) :
    (build towns lcData).map townId = towns.map townId := by
  simp only [build, List.map_map]
  apply List.map_congr_left
  intro g _
  exact foldl_mergeRow_id lcData g.properties

theorem loadedState_inv (aMpoTowns : List (ℚ × String)) (towns : List Feature)
    (lcData : List Props) (town0 : Option ℚ) (theme0 : String) :
    Synced (loadedState aMpoTowns towns lcData town0 theme0) ∧
    (loadedState aMpoTowns towns lcData town0 theme0).data = build towns lcData := by
  refine ⟨⟨?_, ?_⟩, rfl⟩
  · simp only [loadedState, initializeGrids, List.map_map]
    have : ((fun el : PathEl => el.datum) ∘ newPath) = id := rfl
    rw [this, List.map_id]
  · intro el hel
    simp only [loadedState, initializeGrids] at hel
    obtain ⟨f, _, rfl⟩ := List.mem_map.mp hel
    exact ⟨rfl, rfl⟩


/-! ### Recolouring -/

theorem keyed_build (towns : List Feature) (lcData : List Props) (hk : Keyed towns) :
    Keyed (build towns lcData) := by
  have hmap := build_townId towns lcData
  refine ⟨?_, by rw [hmap]; exact hk.2⟩
  intro f hf
  have : townId f ∈ (build towns lcData).map townId := List.mem_map_of_mem _ hf
  rw [hmap] at this
  obtain ⟨g, hg, hgf⟩ := List.mem_map.mp this
  rw [← hgf]
  exact hk.1 g hg

theorem themeOf_eq (t : String) (d : ThemeDescriptor) (hd : getTheme t = some d) : themeOf t = d := by
  simp only [themeOf, hd, Option.getD_some]

theorem valid_colour_exists (d : ThemeDescriptor) (hv : d.Valid) (v : ℚ) :
    ∃ c, d.paletteRange[d.paletteDomain.countP (fun b => decide (b ≤ v))]? = some c := by
  have hle := @List.countP_le_length ℚ (fun b => decide (b ≤ v)) d.paletteDomain
  have hlt : d.paletteDomain.countP (fun b => decide (b ≤ v)) < d.paletteRange.length := by
    rw [hv.2.1]; omega
  exact ⟨_, List.getElem?_eq_getElem hlt⟩

/-- C10 (as amended): whatever actions came before (selections by map click or
dropdown in any order, which reorder `data`), choosing a registered theme `t`
recolours the map so that every entity of the catalog has its own path (the one
that draws its geometry and carries its `TOWN_ID`), and the fill of that path
is what the scale gives for the entity's own value of indicator `t`; when that
value is numeric the fill is the colour `paletteRange[Classify(t, value)]`.
The catalog is keyed by `TOWN_ID`. -/
theorem recolour_every_entity (aMpoTowns : List (ℚ × String)) (towns : List Feature)
    (lcData : List Props) (town0 : Option ℚ) (theme0 : String) (actions : List Action)
    (t : String) (hkey : Keyed towns) (ht : t ∈ mapThemes) :
    ∃ s', step (Action.selectTheme t)
        (run actions (loadedState aMpoTowns towns lcData town0 theme0)) = Outcome.done s' ∧
      s'.paths.length = (build towns lcData).length ∧
      ∀ e ∈ build towns lcData, ∃ el ∈ s'.paths,
        el.d = e.geometry ∧ el.id = e.properties.get "TOWN_ID" ∧ el.datum = e ∧
        el.fill = pathcolor (themeOf t) (e.properties.get t) ∧
        ∀ v, toNumber (e.properties.get t) = some v →
          ∃ c, el.fill = some c ∧
            (themeOf t).paletteRange[(themeOf t).paletteDomain.countP
              (fun b => decide (b ≤ v))]? = some c := by
  obtain ⟨d, hd, hlen⟩ := getTheme_of_mem t ht
  have hc : mapThemes.contains t = true := (contains_mapThemes t).mpr ht
  have hvalid : d.Valid := getTheme_valid t d hd
  rw [themeOf_eq t d hd]
  obtain ⟨hs0, hd0⟩ := loadedState_inv aMpoTowns towns lcData town0 theme0
  have hk0 : Keyed (loadedState aMpoTowns towns lcData town0 theme0).data := by
    rw [hd0]; exact keyed_build towns lcData hkey
  obtain ⟨hs, hperm⟩ := run_inv actions _ hk0 hs0
  rw [hd0] at hperm
  generalize run actions (loadedState aMpoTowns towns lcData town0 theme0) = s at hs hperm
  have hsX : Synced { s with selected_theme := t, activeTab := d.tabSwitchID } :=
    synced_of_paths_data rfl rfl hs
  have hpaths : (applyTheme d t { s with selected_theme := t, activeTab := d.tabSwitchID }).paths =
      s.paths.map (fun el =>
        { el with fill := pathcolor d (el.datum.properties.get t), opacity := some "0.7" }) := by
    have hp : (applyTheme d t { s with selected_theme := t, activeTab := d.tabSwitchID }).paths =
        colorMap d t s.paths s.data := by
      simp only [applyTheme, setBold]; split <;> rfl
    rw [hp, colorMap_synced d t s hs]
  refine ⟨_, step_selectTheme s t d hd hlen hc, ?_, ?_⟩
  · rw [hpaths, List.length_map, ← hperm.length_eq, ← hs.1, List.length_map]
  · intro e he
    have he' : e ∈ s.data := hperm.mem_iff.mpr he
    rw [← hs.1] at he'
    obtain ⟨el, hel, hdat⟩ := List.mem_map.mp he'
    refine ⟨{ el with fill := pathcolor d (el.datum.properties.get t), opacity := some "0.7" },
      ?_, ?_, ?_, hdat, ?_, ?_⟩
    · rw [hpaths]
      exact List.mem_map_of_mem _ hel
    · rw [← hdat]; exact (hs.2 el hel).2
    · rw [← hdat]; exact (hs.2 el hel).1
    · rw [← hdat]
    · intro v hv
      obtain ⟨c, hcol⟩ := valid_colour_exists d hvalid v
      refine ⟨c, ?_, hcol⟩
      show pathcolor d (el.datum.properties.get t) = some c
      rw [hdat, pathcolor_eq_bucket d _ v hv,
        bucketIndex_eq_countP d _ v hvalid.1 hvalid.2.1 hv]
      exact hcol

/-- Witness for C10 (as amended): the sample catalog, town 1 chosen by a click
and town 2 from the dropdown before the theme is chosen. -/
theorem recolour_every_entity_witness :
    Keyed sampleTowns ∧ "POP_DENSITY" ∈ mapThemes ∧
    ∃ s', step (Action.selectTheme "POP_DENSITY")
        (run [Action.clickTown 0, Action.selectTown (some 2)] sampleState) = Outcome.done s' ∧
      s'.paths.length = (build sampleTowns sampleRows).length := by
  have hk : Keyed sampleTowns := by
    refine ⟨?_, ?_⟩
    · decide!
    · decide!
  obtain ⟨s', h1, h2, _⟩ := recolour_every_entity sampleMpoTowns sampleTowns sampleRows (some 0) ""
    [Action.clickTown 0, Action.selectTown (some 2)] "POP_DENSITY" hk (by decide!)
  exact ⟨hk, by decide!, s', h1, h2⟩

/-- Counterexample to C10 as stated: in the sample catalog town 3 has no
indicator row; after choosing `POP_DENSITY` its path has no fill (the scale
returns `undefined` for the missing value), while towns 1 and 2 are coloured. -/
theorem recolour_entity_without_value :
    (build sampleTowns sampleRows).map (fun e => e.geometry) =
      ["M0,0L1,0L1,1Z", "M1,0L2,0L2,1Z", "M2,0L3,0L3,1Z"] ∧
    (step (Action.selectTheme "POP_DENSITY") sampleState).state.paths.map
        (fun el => (el.d, el.datum.properties.get "TOWN_ID",
          el.datum.properties.get "POP_DENSITY", el.fill)) =
      [("M0,0L1,0L1,1Z", JSVal.string "1", JSVal.string "749", some "#e6e5fe"),
       ("M1,0L2,0L2,1Z", JSVal.string "2", JSVal.string "8000", some "#595691"),
       ("M2,0L3,0L3,1Z", JSVal.number 3, JSVal.undefined, none)] := by
  decide!


/-! ### Order of the two selections -/

theorem display_done (a ct : Props) (s : State)
    (hct : commTypeStatsAt (toNumber (a.get "COMMUNITY_TYPE")) = some ct) :
    ∃ s1, displayDataForTown a s = Outcome.done s1 ∧
      s1.stores = storesFor a ct ∧ s1.grids = gridsFor s.town_text a ct ∧ s1.bold = [] ∧
      s1.selected_theme = s.selected_theme := by
  refine ⟨(displayDataForTown a s).state, ?_, ?_, ?_, ?_, ?_⟩ <;>
    simp only [displayDataForTown, populateDataStores, hct, Outcome.andThen, Outcome.state] <;> rfl

theorem rehighlight_done (s : State) (hb : s.bold = [])
    (h0 : s.selected_theme = "" ∨ s.selected_theme ∈ mapThemes) :
    ∃ s1, rehighlight s = Outcome.done s1 ∧ s1.stores = s.stores ∧ s1.grids = s.grids ∧
      s1.bold = (if s.selected_theme = "" then []
        else if s.grids.any (fun g => (rowSelectors g).contains (themeOf s.selected_theme).gridRowID)
          then [(themeOf s.selected_theme).gridRowID] else []) := by
  rcases h0 with h0 | h0
  · refine ⟨s, ?_, rfl, rfl, ?_⟩
    · simp [rehighlight, h0]
    · simp [h0, hb]
  · obtain ⟨d, hd, hlen⟩ := getTheme_of_mem _ h0
    have hne : s.selected_theme ≠ "" := by
      intro h; rw [h] at hlen; exact hlen rfl
    refine ⟨setBold d.gridRowID s, ?_, ?_, ?_, ?_⟩
    · have : s.selected_theme.length > 0 := Nat.pos_of_ne_zero hlen
      simp only [rehighlight, this, hd, if_true]
    · rw [setBold_eq]; rfl
    · rw [setBold_eq]; rfl
    · rw [setBold_nil _ _ hb, themeOf_eq _ d hd, if_neg hne]
      rfl

theorem selectTown_done (s : State) (q : ℚ) (f : Feature) (ct : Props) (hq : q ≠ 0)
    (hfind : s.data.find? (fun g => numEq (townId g) (some q)) = some f)
    (hct : commTypeStatsAt (toNumber (f.properties.get "COMMUNITY_TYPE")) = some ct)
    (h0 : s.selected_theme = "" ∨ s.selected_theme ∈ mapThemes) :
    ∃ s1, step (Action.selectTown (some q)) s = Outcome.done s1 ∧
      s1.stores = storesFor f.properties ct ∧
      s1.grids = gridsFor (townTextFor s q) f.properties ct ∧
      s1.bold = (if s.selected_theme = "" then []
        else if (gridsFor (townTextFor s q) f.properties ct).any
            (fun g => (rowSelectors g).contains (themeOf s.selected_theme).gridRowID)
          then [(themeOf s.selected_theme).gridRowID] else []) := by
  have hnum : toNumber (JSVal.number q) = some q := rfl
  have key : ∀ X : State, X.data = s.data → X.selected_theme = s.selected_theme →
      ∃ s1, (getDataForTown (JSVal.number q) X).andThen
          (fun s => Outcome.done (eachTown q s)) = Outcome.done s1 ∧
        s1.stores = storesFor f.properties ct ∧
        s1.grids = gridsFor X.town_text f.properties ct ∧
        s1.bold = (if s.selected_theme = "" then []
          else if (gridsFor X.town_text f.properties ct).any
              (fun g => (rowSelectors g).contains (themeOf s.selected_theme).gridRowID)
            then [(themeOf s.selected_theme).gridRowID] else []) := by
    intro X hXd hXt
    obtain ⟨s1, h1, hst, hgr, hb, hth⟩ := display_done f.properties ct X hct
    obtain ⟨s2, h2, hst2, hgr2, hb2⟩ := rehighlight_done s1 hb (by rw [hth, hXt]; exact h0)
    refine ⟨eachTown q s2, ?_, ?_, ?_, ?_⟩
    · simp only [getDataForTown, hnum, hXd, hfind, h1, Outcome.andThen, h2]
    · show s2.stores = _
      rw [hst2, hst]
    · show s2.grids = _
      rw [hgr2, hgr]
    · show s2.bold = _
      rw [hb2, hth, hXt, hgr]
  simp only [step, renderMapAndDataForTown, if_neg hq, townTextFor]
  cases hf : s.aMpoTowns.find? (fun t => t.1 == q) with
  | none =>
    exact key { s with selected_town := some q, iSelectedTown := some q } rfl rfl
  | some t =>
    exact key { s with selected_town := some q, iSelectedTown := some q, town_text := toTitleCase t.2 } rfl rfl

theorem selectTheme_done (s : State) (t : String) (ht : t ∈ mapThemes) :
    ∃ s1, step (Action.selectTheme t) s = Outcome.done s1 ∧
      s1.stores = s.stores ∧ s1.grids = s.grids ∧
      s1.bold = (if s.grids.any (fun g => (rowSelectors g).contains (themeOf t).gridRowID)
        then [(themeOf t).gridRowID] else []) ∧
      s1.data = s.data ∧ s1.aMpoTowns = s.aMpoTowns ∧ s1.town_text = s.town_text ∧
      s1.selected_theme = t := by
  obtain ⟨d, hd, hlen⟩ := getTheme_of_mem t ht
  have hc : mapThemes.contains t = true := (contains_mapThemes t).mpr ht
  refine ⟨_, step_selectTheme s t d hd hlen hc, ?_, ?_, ?_, ?_, ?_, ?_, ?_⟩
  · simp only [applyTheme]; rw [setBold_eq]; rfl
  · simp only [applyTheme]; rw [setBold_eq]; rfl
  · simp only [applyTheme]
    rw [setBold_nil _ _ rfl, themeOf_eq t d hd]
    rfl
  · simp only [applyTheme]; rw [setBold_eq]
  · simp only [applyTheme]; rw [setBold_eq]
  · simp only [applyTheme]; rw [setBold_eq]
  · simp only [applyTheme]; rw [setBold_eq]

theorem selectTown_tables (s : State) (q : ℚ) (f : Feature) (ct : Props) (hq : q ≠ 0)
    (hfind : s.data.find? (fun g => numEq (townId g) (some q)) = some f)
    (hct : commTypeStatsAt (toNumber (f.properties.get "COMMUNITY_TYPE")) = some ct) :
    (step (Action.selectTown (some q)) s).state.stores = storesFor f.properties ct ∧
    (step (Action.selectTown (some q)) s).state.grids =
      gridsFor (townTextFor s q) f.properties ct := by
  have hnum : toNumber (JSVal.number q) = some q := rfl
  have key : ∀ X : State, X.data = s.data →
      ((getDataForTown (JSVal.number q) X).andThen
          (fun s => Outcome.done (eachTown q s))).state.stores = storesFor f.properties ct ∧
      ((getDataForTown (JSVal.number q) X).andThen
          (fun s => Outcome.done (eachTown q s))).state.grids =
        gridsFor X.town_text f.properties ct := by
    intro X hXd
    obtain ⟨s1, h1, hst, hgr, _, _⟩ := display_done f.properties ct X hct
    have hg : getDataForTown (JSVal.number q) X = rehighlight s1 := by
      simp only [getDataForTown, hnum, hXd, hfind, h1, Outcome.andThen]
    rw [hg]
    rcases rehighlight_cases s1 with h | ⟨sel, h⟩ | h
    · rw [h]; exact ⟨hst, hgr⟩
    · rw [h, setBold_eq]; exact ⟨hst, hgr⟩
    · rw [h]; exact ⟨hst, hgr⟩
  simp only [step, renderMapAndDataForTown, if_neg hq, townTextFor]
  cases hf : s.aMpoTowns.find? (fun t => t.1 == q) with
  | none =>
    exact key { s with selected_town := some q, iSelectedTown := some q } rfl
  | some t =>
    exact key { s with selected_town := some q, iSelectedTown := some q, town_text := toTitleCase t.2 } rfl

theorem selectTown_zero (s : State) :
    (step (Action.selectTown (some 0)) s).state = { s with selected_town := some 0 } := by
  simp only [step, renderMapAndDataForTown, if_true, Outcome.state]

theorem find_moveToLast (q : ℚ) (data : List Feature) (f : Feature) (hk : Keyed data)
    (hf : f ∈ data) (hq : townId f = some q) :
    (moveToLast (some q) data).find? (fun g => numEq (townId g) (some q)) = some f := by
  have huniq := filter_numEq_length_le_one (some q) data hk.2
  have hm : numEq (townId f) (some q) = true := by rw [hq]; simp [numEq]
  have hmem : f ∈ data.filter (fun g => numEq (townId g) (some q)) :=
    List.mem_filter.mpr ⟨hf, hm⟩
  have hone : data.filter (fun g => numEq (townId g) (some q)) = [f] := by
    cases hl : data.filter (fun g => numEq (townId g) (some q)) with
    | nil => rw [hl] at hmem; simp at hmem
    | cons x xs =>
      rw [hl] at huniq hmem
      cases xs with
      | nil =>
        simp only [List.mem_singleton] at hmem
        rw [hmem]
      | cons _ _ => simp at huniq
  rw [moveToLast_partition (some q) data huniq, hone, List.find?_append]
  have hnone : (data.filter (fun g => !numEq (townId g) (some q))).find?
      (fun g => numEq (townId g) (some q)) = none := by
    rw [List.find?_eq_none]
    intro x hx
    have := (List.mem_filter.mp hx).2
    simpa using this
  rw [hnone]
  simp [List.find?, hm]

theorem getDataForTown_tables (iTownId : JSVal) (X : State) (f : Feature) (ct : Props)
    (hfind : X.data.find? (fun g => numEq (townId g) (toNumber iTownId)) = some f)
    (hct : commTypeStatsAt (toNumber (f.properties.get "COMMUNITY_TYPE")) = some ct) :
    (getDataForTown iTownId X).state.stores = storesFor f.properties ct ∧
    (getDataForTown iTownId X).state.grids = gridsFor X.town_text f.properties ct := by
  obtain ⟨s1, h1, hst, hgr, _, _⟩ := display_done f.properties ct X hct
  have hg : getDataForTown iTownId X = rehighlight s1 := by
    simp only [getDataForTown, hfind, h1, Outcome.andThen]
  rw [hg]
  rcases rehighlight_cases s1 with h | ⟨sel, h⟩ | h
  · rw [h]; exact ⟨hst, hgr⟩
  · rw [h, setBold_eq]; exact ⟨hst, hgr⟩
  · rw [h]; exact ⟨hst, hgr⟩

theorem getDataForTown_done (iTownId : JSVal) (X : State) (f : Feature) (ct : Props)
    (hfind : X.data.find? (fun g => numEq (townId g) (toNumber iTownId)) = some f)
    (hct : commTypeStatsAt (toNumber (f.properties.get "COMMUNITY_TYPE")) = some ct)
    (h0 : X.selected_theme = "" ∨ X.selected_theme ∈ mapThemes) :
    ∃ s1, getDataForTown iTownId X = Outcome.done s1 ∧
      s1.bold = (if X.selected_theme = "" then []
        else if (gridsFor X.town_text f.properties ct).any
            (fun g => (rowSelectors g).contains (themeOf X.selected_theme).gridRowID)
          then [(themeOf X.selected_theme).gridRowID] else []) := by
  obtain ⟨s1, h1, _, hgr, hb, hth⟩ := display_done f.properties ct X hct
  obtain ⟨s2, h2, _, _, hb2⟩ := rehighlight_done s1 hb (by rw [hth]; exact h0)
  refine ⟨s2, ?_, ?_⟩
  · simp only [getDataForTown, hfind, h1, Outcome.andThen, h2]
  · rw [hb2, hth, hgr]

theorem clickTown_unfold (X : State) (k : Nat) (el : PathEl) (town : String)
    (hel : X.paths[k]? = some el)
    (htown : el.datum.properties.get "TOWN" = JSVal.string town) :
    ∃ X5 : State, step (Action.clickTown k) X =
        getDataForTown (el.datum.properties.get "TOWN_ID") X5 ∧
      X5.data = moveToLast (elementIdNumber el.id) X.data ∧
      X5.town_text = toTitleCase town ∧ X5.selected_theme = X.selected_theme := by
  refine ⟨{ setSelectedTown { X with paths := X.paths.map resetStroke }
      (toNumber (el.datum.properties.get "TOWN_ID")) with
      town_text := toTitleCase town
      paths := (X.paths.map resetStroke).eraseIdx k ++ [highlight (resetStroke el)]
      data := moveToLast (elementIdNumber el.id) X.data }, ?_, rfl, rfl, rfl⟩
  simp only [step, clickTown, hel, htown]
  rfl

/-- What a click on the path of entity `f` leaves in the tables. -/
theorem clickTown_tables (X : State) (k : Nat) (el : PathEl) (town : String) (ct : Props)
    (hk : Keyed X.data) (hs : Synced X)
    (hel : X.paths[k]? = some el)
    (htown : el.datum.properties.get "TOWN" = JSVal.string town)
    (hct : commTypeStatsAt (toNumber (el.datum.properties.get "COMMUNITY_TYPE")) = some ct) :
    (step (Action.clickTown k) X).state.stores = storesFor el.datum.properties ct ∧
    (step (Action.clickTown k) X).state.grids =
      gridsFor (toTitleCase town) el.datum.properties ct ∧
    ((X.selected_theme = "" ∨ X.selected_theme ∈ mapThemes) →
      ∃ s1, step (Action.clickTown k) X = Outcome.done s1 ∧
        s1.bold = (if X.selected_theme = "" then []
          else if (gridsFor (toTitleCase town) el.datum.properties ct).any
              (fun g => (rowSelectors g).contains (themeOf X.selected_theme).gridRowID)
            then [(themeOf X.selected_theme).gridRowID] else [])) := by
  obtain ⟨X5, hstep, hdata, htext, htheme⟩ := clickTown_unfold X k el town hel htown
  have hmem : el ∈ X.paths := List.getElem?_mem hel
  have hdat : el.datum ∈ X.data := by
    rw [← hs.1]; exact List.mem_map_of_mem _ hmem
  have hid := hit_eq_of_synced X hk hs el hmem
  obtain ⟨q, hq⟩ := Option.ne_none_iff_exists'.mp (hk.1 _ hdat)
  have hfind : X5.data.find?
      (fun g => numEq (townId g) (toNumber (el.datum.properties.get "TOWN_ID"))) =
      some el.datum := by
    rw [hdata, hid]
    have : toNumber (el.datum.properties.get "TOWN_ID") = some q := hq
    rw [this, hq]
    exact find_moveToLast q X.data el.datum hk hdat hq
  rw [hstep]
  obtain ⟨h1, h2⟩ := getDataForTown_tables _ X5 el.datum ct hfind hct
  rw [htext] at h2
  refine ⟨h1, h2, ?_⟩
  intro h0
  obtain ⟨s1, hd, hb⟩ := getDataForTown_done _ X5 el.datum ct hfind hct (by rw [htheme]; exact h0)
  rw [htext, htheme] at hb
  exact ⟨s1, hd, hb⟩

/-- A click on the path of an entity and the choice of a theme, in both
orders. -/
theorem click_commutes (s : State) (k : Nat) (el : PathEl) (town : String) (ct : Props)
    (t : String) (hk : Keyed s.data) (hs : Synced s)
    (hel : s.paths[k]? = some el)
    (htown : el.datum.properties.get "TOWN" = JSVal.string town)
    (hct : commTypeStatsAt (toNumber (el.datum.properties.get "COMMUNITY_TYPE")) = some ct)
    (ht : t ∈ mapThemes) :
    (run [Action.clickTown k, Action.selectTheme t] s).stores =
      (run [Action.selectTheme t, Action.clickTown k] s).stores ∧
    (run [Action.clickTown k, Action.selectTheme t] s).grids =
      (run [Action.selectTheme t, Action.clickTown k] s).grids ∧
    (run [Action.clickTown k, Action.selectTheme t] s).bold =
      (run [Action.selectTheme t, Action.clickTown k] s).bold ∧
    (run [Action.clickTown k, Action.selectTheme t] s).stores =
      storesFor el.datum.properties ct ∧
    (run [Action.clickTown k, Action.selectTheme t] s).grids =
      gridsFor (toTitleCase town) el.datum.properties ct := by
  obtain ⟨d, hd, hlen⟩ := getTheme_of_mem t ht
  have hc : mapThemes.contains t = true := (contains_mapThemes t).mpr ht
  have hne : t ≠ "" := by
    intro h; rw [h] at hlen; exact hlen rfl
  -- the theme first
  have hT := step_selectTheme s t d hd hlen hc
  obtain ⟨sT, hT', _, _, _, hTd, _, _, hTth⟩ := selectTheme_done s t ht
  have hsX : Synced { s with selected_theme := t, activeTab := d.tabSwitchID } :=
    synced_of_paths_data rfl rfl hs
  have hinv := applyTheme_inv d t _ hsX
  rw [hT] at hT'
  cases hT'
  have hpaths : (applyTheme d t { s with selected_theme := t, activeTab := d.tabSwitchID }).paths =
      s.paths.map (fun el =>
        { el with fill := pathcolor d (el.datum.properties.get t), opacity := some "0.7" }) := by
    have hp : (applyTheme d t { s with selected_theme := t, activeTab := d.tabSwitchID }).paths =
        colorMap d t s.paths s.data := by
      simp only [applyTheme, setBold]; split <;> rfl
    rw [hp, colorMap_synced d t s hs]
  have hel' : (applyTheme d t { s with selected_theme := t, activeTab := d.tabSwitchID }).paths[k]? =
      some { el with fill := pathcolor d (el.datum.properties.get t), opacity := some "0.7" } := by
    rw [hpaths, List.getElem?_map, hel]
    rfl
  have hkT : Keyed (applyTheme d t { s with selected_theme := t, activeTab := d.tabSwitchID }).data := by
    rw [hTd]; exact hk
  obtain ⟨hTEst, hTEgr, hTEb⟩ := clickTown_tables _ k _ town ct hkT hinv.1 hel' htown hct
  obtain ⟨sTE, hTE, hTEbold⟩ := hTEb (by rw [hTth]; exact Or.inr ht)
  rw [hTth, if_neg hne] at hTEbold
  -- the click first
  obtain ⟨hEst, hEgr, _⟩ := clickTown_tables s k el town ct hk hs hel htown hct
  obtain ⟨sET, hET, hETst, hETgr, hETb, _⟩ :=
    selectTheme_done (step (Action.clickTown k) s).state t ht
  rw [hEst] at hETst
  rw [hEgr] at hETgr hETb
  have hrunET : run [Action.clickTown k, Action.selectTheme t] s = sET := by
    have h : run [Action.clickTown k, Action.selectTheme t] s =
        (step (Action.selectTheme t) (step (Action.clickTown k) s).state).state := rfl
    rw [h, hET]; rfl
  have hrunTE : run [Action.selectTheme t, Action.clickTown k] s = sTE := by
    simp only [run, List.foldl_cons, List.foldl_nil, hT, hTE, Outcome.state]
  rw [hTE] at hTEst hTEgr
  simp only [Outcome.state] at hTEst hTEgr
  rw [hrunET, hrunTE]
  refine ⟨?_, ?_, ?_, hETst, hETgr⟩
  · rw [hETst, hTEst]
  · rw [hETgr, hTEgr]
  · rw [hETb, hTEbold]

/-- The town dropdown and the theme dropdown, in both orders, for a town the
lookup finds and whose community type has a profile. -/
theorem dropdowns_commute (s : State) (q : ℚ) (f : Feature) (ct : Props) (t : String)
    (hfind : s.data.find? (fun g => numEq (townId g) (some q)) = some f)
    (hct : commTypeStatsAt (toNumber (f.properties.get "COMMUNITY_TYPE")) = some ct)
    (ht : t ∈ mapThemes) :
    (run [Action.selectTown (some q), Action.selectTheme t] s).stores =
      (run [Action.selectTheme t, Action.selectTown (some q)] s).stores ∧
    (run [Action.selectTown (some q), Action.selectTheme t] s).grids =
      (run [Action.selectTheme t, Action.selectTown (some q)] s).grids ∧
    (run [Action.selectTown (some q), Action.selectTheme t] s).bold =
      (run [Action.selectTheme t, Action.selectTown (some q)] s).bold ∧
    (q ≠ 0 → (s.selected_theme = "" ∨ s.selected_theme ∈ mapThemes) →
      ∃ sE sET sT sTE,
        step (Action.selectTown (some q)) s = Outcome.done sE ∧
        step (Action.selectTheme t) sE = Outcome.done sET ∧
        step (Action.selectTheme t) s = Outcome.done sT ∧
        step (Action.selectTown (some q)) sT = Outcome.done sTE ∧
        sET.stores = storesFor f.properties ct ∧
        sET.grids = gridsFor (townTextFor s q) f.properties ct ∧
        sET.bold = (if sET.grids.any (fun g => (rowSelectors g).contains (themeOf t).gridRowID)
          then [(themeOf t).gridRowID] else []) ∧
        sTE.stores = sET.stores ∧ sTE.grids = sET.grids ∧ sTE.bold = sET.bold) := by
  have hne : t ≠ "" := by
    obtain ⟨_, _, hlen⟩ := getTheme_of_mem t ht
    intro h; rw [h] at hlen; exact hlen rfl
  obtain ⟨sT, hT, hTst, hTgr, hTb, hTd, hTm, hTt, hTth⟩ := selectTheme_done s t ht
  have hfind' : sT.data.find? (fun g => numEq (townId g) (some q)) = some f := by
    rw [hTd]; exact hfind
  have htext : townTextFor sT q = townTextFor s q := by
    simp only [townTextFor, hTm, hTt]
  have hrunET : run [Action.selectTown (some q), Action.selectTheme t] s =
      (step (Action.selectTheme t) (step (Action.selectTown (some q)) s).state).state := rfl
  have hrunTE : run [Action.selectTheme t, Action.selectTown (some q)] s =
      (step (Action.selectTown (some q)) sT).state := by
    simp only [run, List.foldl_cons, List.foldl_nil, hT, Outcome.state]
  by_cases hq : q = 0
  · subst hq
    obtain ⟨sET, hET, hETst, hETgr, hETb, _⟩ :=
      selectTheme_done (step (Action.selectTown (some 0)) s).state t ht
    rw [hrunET, hrunTE, hET, selectTown_zero sT]
    rw [selectTown_zero s] at hETst hETgr hETb
    simp only [Outcome.state]
    refine ⟨?_, ?_, ?_, fun h => absurd rfl h⟩
    · rw [hETst]; exact hTst.symm
    · rw [hETgr]; exact hTgr.symm
    · rw [hETb]; exact hTb.symm
  · obtain ⟨hEst, hEgr⟩ := selectTown_tables s q f ct hq hfind hct
    obtain ⟨sET, hET, hETst, hETgr, hETb, _⟩ :=
      selectTheme_done (step (Action.selectTown (some q)) s).state t ht
    obtain ⟨sTE, hTE, hTEst, hTEgr, hTEb⟩ :=
      selectTown_done sT q f ct hq hfind' hct (by rw [hTth]; exact Or.inr ht)
    rw [htext] at hTEgr hTEb
    rw [hTth, if_neg hne] at hTEb
    rw [hEst] at hETst
    rw [hEgr] at hETgr hETb
    rw [hrunET, hrunTE, hET, hTE]
    simp only [Outcome.state]
    refine ⟨?_, ?_, ?_, ?_⟩
    · rw [hETst, hTEst]
    · rw [hETgr, hTEgr]
    · rw [hETb, hTEb]
    · intro _ h0
      obtain ⟨sE, hE, _⟩ := selectTown_done s q f ct hq hfind hct h0
      rw [hE] at hET
      simp only [Outcome.state] at hET
      refine ⟨sE, sET, sT, sTE, hE, hET, hT, hTE, hETst, hETgr, ?_, ?_, ?_, ?_⟩
      · rw [hETb, hETgr]
      · rw [hETst, hTEst]
      · rw [hETgr, hTEgr]
      · rw [hETb, hTEb]

/-- C8 (as amended): for a town number `q` that the lookup finds and whose
record names a community type with a profile in `commTypeStats`, and a
registered theme `t`: choosing the town and then the theme leaves the same six
stores, the same six grids (captions and rows) and the same bold row as
choosing the theme and then the town, from any state.  When `q` is not 0 and
the theme dropdown shows one of its options, all four handler runs reach their
end, the stores are those built from the town's record and the bold row is the
row `gridRowID` of `t` when the tables have it.  The same holds when the town
is chosen by a click on its path instead of the dropdown, on a map whose paths
are bound to the catalog in its current order and whose `TOWN_ID`s are numbers,
all different, for a town whose `TOWN` is a string. -/
theorem selections_commute (s : State) (q : ℚ) (f : Feature) (ct : Props) (t : String)
    (hfind : s.data.find? (fun g => numEq (townId g) (some q)) = some f)
    (hct : commTypeStatsAt (toNumber (f.properties.get "COMMUNITY_TYPE")) = some ct)
    (ht : t ∈ mapThemes) :
    (run [Action.selectTown (some q), Action.selectTheme t] s).stores =
      (run [Action.selectTheme t, Action.selectTown (some q)] s).stores ∧
    (run [Action.selectTown (some q), Action.selectTheme t] s).grids =
      (run [Action.selectTheme t, Action.selectTown (some q)] s).grids ∧
    (run [Action.selectTown (some q), Action.selectTheme t] s).bold =
      (run [Action.selectTheme t, Action.selectTown (some q)] s).bold ∧
    (q ≠ 0 → (s.selected_theme = "" ∨ s.selected_theme ∈ mapThemes) →
      ∃ sE sET sT sTE,
        step (Action.selectTown (some q)) s = Outcome.done sE ∧
        step (Action.selectTheme t) sE = Outcome.done sET ∧
        step (Action.selectTheme t) s = Outcome.done sT ∧
        step (Action.selectTown (some q)) sT = Outcome.done sTE ∧
        sET.stores = storesFor f.properties ct ∧
        sET.grids = gridsFor (townTextFor s q) f.properties ct ∧
        sET.bold = (if sET.grids.any (fun g => (rowSelectors g).contains (themeOf t).gridRowID)
          then [(themeOf t).gridRowID] else []) ∧
        sTE.stores = sET.stores ∧ sTE.grids = sET.grids ∧ sTE.bold = sET.bold) ∧
    (∀ (k : Nat) (el : PathEl) (town : String),
      Keyed s.data → Synced s → s.paths[k]? = some el → el.datum = f →
      f.properties.get "TOWN" = JSVal.string town →
        (run [Action.clickTown k, Action.selectTheme t] s).stores =
          (run [Action.selectTheme t, Action.clickTown k] s).stores ∧
        (run [Action.clickTown k, Action.selectTheme t] s).grids =
          (run [Action.selectTheme t, Action.clickTown k] s).grids ∧
        (run [Action.clickTown k, Action.selectTheme t] s).bold =
          (run [Action.selectTheme t, Action.clickTown k] s).bold ∧
        (run [Action.clickTown k, Action.selectTheme t] s).stores = storesFor f.properties ct ∧
        (run [Action.clickTown k, Action.selectTheme t] s).grids =
          gridsFor (toTitleCase town) f.properties ct) := by
  obtain ⟨h1, h2, h3, h4⟩ := dropdowns_commute s q f ct t hfind hct ht
  refine ⟨h1, h2, h3, h4, ?_⟩
  intro k el town hk hs hel hdat htown
  subst hdat
  exact click_commutes s k el town ct t hk hs hel htown hct ht

/-- Witness for C8 (as amended): town 1 and theme `POP_DENSITY` on the sample
page, the town chosen in the dropdown or by a click on its path (the first
one). -/
theorem selections_commute_witness :
    sampleState.data.find? (fun g => numEq (townId g) (some 1)) =
      some ⟨"M0,0L1,0L1,1Z", sampleRows.getD 0 []⟩ ∧
    "POP_DENSITY" ∈ mapThemes ∧
    (run [Action.selectTown (some 1), Action.selectTheme "POP_DENSITY"] sampleState).bold =
      (run [Action.selectTheme "POP_DENSITY", Action.selectTown (some 1)] sampleState).bold ∧
    (run [Action.clickTown 0, Action.selectTheme "POP_DENSITY"] sampleState).bold =
      (run [Action.selectTheme "POP_DENSITY", Action.clickTown 0] sampleState).bold ∧
    (run [Action.selectTheme "POP_DENSITY", Action.clickTown 0] sampleState).bold =
      ["#demog_table_r_2"] :=
  ⟨by decide!, by decide!,
    (selections_commute sampleState 1 ⟨"M0,0L1,0L1,1Z", sampleRows.getD 0 []⟩
      (commTypeStats.getD 3 []) "POP_DENSITY" (by decide!) (by decide!) (by decide!)).2.2.1,
    ((selections_commute sampleState 1 ⟨"M0,0L1,0L1,1Z", sampleRows.getD 0 []⟩
      (commTypeStats.getD 3 []) "POP_DENSITY" (by decide!) (by decide!) (by decide!)).2.2.2.2
      0 (newPath ⟨"M0,0L1,0L1,1Z", sampleRows.getD 0 []⟩) "ACTON"
      (by unfold Keyed; decide!) (loadedState_inv _ _ _ _ _).1 (by decide!) rfl
      (by decide!)).2.2.1,
    by decide!⟩

/-- Counterexample to C8 as stated: on the sample page with town 1 displayed,
town 3 is in the catalog (the lookup finds it) but has no indicator row, so
`populateDataStores` throws on its missing community type.  Choosing town 3 and
then `POP_DENSITY` leaves the row `#demog_table_r_2` bold; choosing
`POP_DENSITY` and then town 3 leaves no row bold. -/
theorem selections_order_matters :
    ((run [Action.selectTown (some 1)] sampleState).data.find?
        (fun g => numEq (townId g) (some 3))).isSome = true ∧
    (run [Action.selectTown (some 3), Action.selectTheme "POP_DENSITY"]
        (run [Action.selectTown (some 1)] sampleState)).bold = ["#demog_table_r_2"] ∧
    (run [Action.selectTheme "POP_DENSITY", Action.selectTown (some 3)]
        (run [Action.selectTown (some 1)] sampleState)).bold = [] := by
  decide!

/-! ### The legend -/

theorem legendRects_length (d : ThemeDescriptor) :
    ∀ (its : List LegendItem) (vs : List ℚ), (legendRects d its vs).length = its.length := by
  intro its
  induction its with
  | nil => intro vs; cases vs <;> rfl
  | cons it its ih =>
    intro vs
    cases vs with
    | nil => rfl
    | cons v vs => simp only [legendRects, List.length_cons, ih]

theorem legendTexts_length :
    ∀ (its : List LegendItem) (ts : List String), (legendTexts its ts).length = its.length := by
  intro its
  induction its with
  | nil => intro ts; cases ts <;> rfl
  | cons it its ih =>
    intro ts
    cases ts with
    | nil => rfl
    | cons t ts => simp only [legendTexts, List.length_cons, ih]

theorem colorLegend_length (d : ThemeDescriptor) (legend : List LegendItem) :
    (colorLegend d legend).length = legend.length := by
  unfold colorLegend
  rw [legendTexts_length, legendRects_length]

theorem legendRects_fill (d : ThemeDescriptor) :
    ∀ (its : List LegendItem) (vs : List ℚ), its.length = vs.length →
      (legendRects d its vs).map (fun it => it.fill) =
        vs.map (fun v => pathcolor d (JSVal.number v)) := by
  intro its
  induction its with
  | nil => intro vs h; cases vs with
    | nil => rfl
    | cons _ _ => simp at h
  | cons it its ih =>
    intro vs h
    cases vs with
    | nil => simp at h
    | cons v vs =>
      simp only [legendRects, List.map_cons, ih vs (by simpa using h)]

theorem legendTexts_fill :
    ∀ (its : List LegendItem) (ts : List String),
      (legendTexts its ts).map (fun it => it.fill) = its.map (fun it => it.fill) := by
  intro its
  induction its with
  | nil => intro ts; cases ts <;> rfl
  | cons it its ih =>
    intro ts
    cases ts with
    | nil => rfl
    | cons t ts => simp only [legendTexts, List.map_cons, ih]

theorem legendTexts_text :
    ∀ (its : List LegendItem) (ts : List String), its.length = ts.length →
      (legendTexts its ts).map (fun it => it.text) = ts := by
  intro its
  induction its with
  | nil => intro ts h; cases ts with
    | nil => rfl
    | cons _ _ => simp at h
  | cons it its ih =>
    intro ts h
    cases ts with
    | nil => simp at h
    | cons t ts =>
      simp only [legendTexts, List.map_cons, ih ts (by simpa using h)]

/-- The legend `colorLegend` draws on as many entries as the descriptor has
buckets: the swatches are the colours of the sample values `0, b0, b1, ...` and
the texts are the labels. -/
theorem colorLegend_entries (d : ThemeDescriptor) (legend : List LegendItem)
    (hlen : legend.length = d.paletteDomain.length + 1)
    (hlab : d.legendText.length = d.paletteDomain.length + 1) :
    (colorLegend d legend).map (fun it => it.fill) =
      (0 :: d.paletteDomain).map (fun v => pathcolor d (JSVal.number v)) ∧
    (colorLegend d legend).map (fun it => it.text) = d.legendText := by
  unfold colorLegend
  constructor
  · rw [legendTexts_fill, legendRects_fill d legend _ (by simpa using hlen)]
  · rw [legendTexts_text _ _ (by rw [legendRects_length, hlen, hlab])]

theorem applyTheme_legend (d : ThemeDescriptor) (t : String) (s : State) :
    (applyTheme d t s).legend = colorLegend d s.legend := by
  simp only [applyTheme, setBold]; split <;> rfl

theorem withTables_legend (s t : State) : (withTables s t).legend = s.legend := rfl

theorem renderTheme_legend_length (s : State) :
    (renderTheme s).state.legend.length = s.legend.length := by
  unfold renderTheme
  simp only
  split
  · split
    · rfl
    · simp only [Outcome.state, applyTheme_legend, colorLegend_length]
  · rfl

/-- No handler adds or removes a legend entry. -/
theorem step_legend_length (a : Action) (s : State) :
    (step a s).state.legend.length = s.legend.length := by
  cases a with
  | selectTown v =>
    simp only [step, renderMapAndDataForTown]
    cases v with
    | none => rfl
    | some q =>
      simp only
      split
      · rfl
      · have key : ∀ X : State, X.legend = s.legend →
            ((getDataForTown (JSVal.number q) X).andThen
              (fun s => Outcome.done (eachTown q s))).state.legend.length = s.legend.length := by
          intro X hX
          obtain ⟨u, hu⟩ := getDataForTown_frame (JSVal.number q) X
          cases hg : getDataForTown (JSVal.number q) X with
          | done s1 =>
            rw [hg] at hu
            simp only [Outcome.state] at hu
            simp only [Outcome.andThen, Outcome.state, eachTown, hu, withTables_legend, hX]
          | alerted msg s1 =>
            rw [hg] at hu
            simp only [Outcome.state] at hu
            simp only [Outcome.andThen, Outcome.state, hu, withTables_legend, hX]
          | threw s1 =>
            rw [hg] at hu
            simp only [Outcome.state] at hu
            simp only [Outcome.andThen, Outcome.state, hu, withTables_legend, hX]
        cases hf : s.aMpoTowns.find? (fun t => t.1 == q) with
        | none => exact key _ rfl
        | some t => exact key _ rfl
  | clickTown k =>
    simp only [step, clickTown]
    cases hel : s.paths[k]? with
    | none => rfl
    | some el =>
      simp only
      split
      · rename_i town _
        obtain ⟨u, hu⟩ := getDataForTown_frame (el.datum.properties.get "TOWN_ID")
          { setSelectedTown { s with paths := s.paths.map resetStroke }
              (toNumber (el.datum.properties.get "TOWN_ID")) with
            town_text := toTitleCase town
            paths := (s.paths.map resetStroke).eraseIdx k ++ [highlight (resetStroke el)]
            data := moveToLast (elementIdNumber el.id) s.data }
        exact (congrArg (fun x => x.legend.length) hu).trans rfl
      · rfl
  | selectTheme v =>
    simp only [step, themeChanged]
    split
    · rfl
    · split
      · rfl
      · exact renderTheme_legend_length _
  | clickTable scope className =>
    simp only [step, tableClicked]
    split
    · split
      · exact renderTheme_legend_length _
      · rfl
    · rfl

theorem run_legend_length (actions : List Action) (s : State) :
    (run actions s).legend.length = s.legend.length := by
  induction actions generalizing s with
  | nil => rfl
  | cons a as ih =>
    have h : run (a :: as) s = run as (step a s).state := rfl
    rw [h, ih, step_legend_length]

/-- C11: for each of the 15 registered themes `t` and after any sequence of
actions on the loaded page, choosing `t` leaves a legend of exactly
`paletteDomain.length + 1 = 4` entries; the swatch of entry `i` is the colour the
scale gives the `i`-th of the sample values `0, b0, b1, b2`, which is
`paletteRange[i]`, and its text is `legendText[i]`. -/
theorem legend_matches_palette (aMpoTowns : List (ℚ × String)) (towns : List Feature)
    (lcData : List Props) (town0 : Option ℚ) (theme0 : String) (actions : List Action)
    (t : String) (ht : t ∈ mapThemes) :
    ∃ s', step (Action.selectTheme t)
        (run actions (loadedState aMpoTowns towns lcData town0 theme0)) = Outcome.done s' ∧
      s'.legend.length = (themeOf t).paletteDomain.length + 1 ∧ s'.legend.length = 4 ∧
      s'.legend.map (fun it => it.fill) =
        (0 :: (themeOf t).paletteDomain).map (fun v => pathcolor (themeOf t) (JSVal.number v)) ∧
      s'.legend.map (fun it => (it.fill, it.text)) =
        List.zipWith (fun c l => (some c, l)) (themeOf t).paletteRange (themeOf t).legendText := by
  obtain ⟨d, hd, hlen⟩ := getTheme_of_mem t ht
  have hc : mapThemes.contains t = true := (contains_mapThemes t).mpr ht
  have hvalid : d.Valid := getTheme_valid t d hd
  have hall : ∀ u ∈ mapThemes, (themeOf u).paletteDomain.length = 3 ∧
      (0 :: (themeOf u).paletteDomain).map (fun v => pathcolor (themeOf u) (JSVal.number v)) =
        (themeOf u).paletteRange.map some := by decide!
  obtain ⟨h3, hcol⟩ := hall t ht
  rw [themeOf_eq t d hd] at h3 hcol ⊢
  have hleg : (run actions (loadedState aMpoTowns towns lcData town0 theme0)).legend.length = 4 := by
    rw [run_legend_length]; rfl
  generalize run actions (loadedState aMpoTowns towns lcData town0 theme0) = s at hleg
  refine ⟨_, step_selectTheme s t d hd hlen hc, ?_⟩
  rw [applyTheme_legend]
  obtain ⟨hf, ht'⟩ := colorLegend_entries d s.legend (by rw [h3]; exact hleg)
    hvalid.2.2
  refine ⟨by rw [colorLegend_length, h3, hleg], by rw [colorLegend_length, hleg], hf, ?_⟩
  have hzip : ∀ (l : List LegendItem) (cs : List String) (ts : List String),
      l.map (fun it => it.fill) = cs.map some → l.map (fun it => it.text) = ts →
      l.map (fun it => (it.fill, it.text)) = List.zipWith (fun c l => (some c, l)) cs ts := by
    intro l
    induction l with
    | nil =>
      intro cs ts h1 h2
      cases cs with
      | nil => rfl
      | cons _ _ => simp at h1
    | cons it l ih =>
      intro cs ts h1 h2
      cases cs with
      | nil => simp at h1
      | cons c cs =>
        cases ts with
        | nil => simp at h2
        | cons u ts =>
          simp only [List.map_cons, List.cons.injEq] at h1 h2
          simp only [List.map_cons, List.zipWith_cons_cons, h1.1, h2.1, ih cs ts h1.2 h2.2]
  exact hzip _ _ _ (hf.trans hcol) ht'

/-- Witness for C11: the theme `BIKE_LANE_MI` chosen on the sample page after a
click on the first town. -/
theorem legend_matches_palette_witness :
    "BIKE_LANE_MI" ∈ mapThemes ∧
    ∃ s', step (Action.selectTheme "BIKE_LANE_MI")
        (run [Action.clickTown 0] sampleState) = Outcome.done s' ∧
      s'.legend.map (fun it => (it.fill, it.text)) =
        [(some "#FFD6F7", "< 2.5 miles"), (some "#DE8CAD", "2.5-5 miles"),
         (some "#B5526B", "5-10 miles"), (some "#8C1039", "> 10 miles")] := by
  obtain ⟨s', h1, _, _, _, h5⟩ := legend_matches_palette sampleMpoTowns sampleTowns sampleRows
    (some 0) "" [Action.clickTown 0] "BIKE_LANE_MI" (by decide!)
  refine ⟨by decide!, s', h1, ?_⟩
  rw [h5]
  decide!

/-! ### The wording of the legend -/

/-- C12 (defect in the code): the labels of `BIKE_LANE_MI` name the bounds 2.5,
5 and 10 while its breakpoints are 1, 2.5 and 10.  A town with 1.5 miles of
bicycle lanes is put in bucket 1 and drawn in the colour whose label reads
`2.5-5 miles`.  The labels are those of `BIKE_TRAIL_MI`, whose breakpoints they
name; of the 15 themes only `COMMUNITY_TYPE` (whose labels name no number) and
`BIKE_LANE_MI` have labels that do not name the breakpoints. -/
theorem legend_wording_bike_lanes :
    (themeOf "BIKE_LANE_MI").paletteDomain = [1, 2.5, 10] ∧
    (themeOf "BIKE_LANE_MI").legendText.map legendBound =
      [some 2.5, some 2.5, some 5, some 10] ∧
    bucketIndex (themeOf "BIKE_LANE_MI") (JSVal.string "1.5") = 1 ∧
    pathcolor (themeOf "BIKE_LANE_MI") (JSVal.string "1.5") = some "#DE8CAD" ∧
    (themeOf "BIKE_LANE_MI").paletteRange[1]? = some "#DE8CAD" ∧
    (themeOf "BIKE_LANE_MI").legendText[1]? = some "2.5-5 miles" ∧
    (themeOf "BIKE_LANE_MI").legendText = (themeOf "BIKE_TRAIL_MI").legendText ∧
    (themeOf "BIKE_TRAIL_MI").paletteDomain = [2.5, 5, 10] ∧
    (themeOf "COMMUNITY_TYPE").legendText.map legendBound = [none, none, none, none] ∧
    mapThemes.filter (fun t => !legendNamesBreakpoints (themeOf t)) =
      ["COMMUNITY_TYPE", "BIKE_LANE_MI"] := by
  decide!

/-! ### The six tables -/

theorem storesFor_eq_layout (aAttrs ct : Props) :
    storesFor aAttrs ct = layoutStores aAttrs ct := rfl

theorem layout_keys :
    ∀ t ∈ tableLayout, ∀ c ∈ t.cells, c.avgKey = lowerKey c.key := by decide!

theorem populate_of_profile (a ct : Props) (s : State)
    (hct : commTypeStatsAt (toNumber (a.get "COMMUNITY_TYPE")) = some ct) :
    ∃ s', populateDataStores a s = Outcome.done s' ∧ s'.stores = storesFor a ct ∧
      s'.walkStore = walkRows a ct (szAsterisk a) ∧ s'.bikeStore = bikeRows a ct (szAsterisk a) ∧
      s'.msStore = msRows a ct := by
  rcases populate_cases a s with ⟨ct', h1, h2⟩ | ⟨h1, _⟩
  · rw [hct] at h1
    cases h1
    exact ⟨_, h2, rfl, rfl, rfl, rfl⟩
  · rw [hct] at h1; cases h1

theorem populate_stores (a : Props) (s s' : State)
    (h : populateDataStores a s = Outcome.done s') :
    ∃ ct, commTypeStatsAt (toNumber (a.get "COMMUNITY_TYPE")) = some ct ∧
      s'.stores = storesFor a ct := by
  rcases populate_cases a s with ⟨ct, h1, h2⟩ | ⟨_, h2⟩
  · rw [h2] at h
    cases h
    exact ⟨ct, h1, rfl⟩
  · rw [h2] at h; cases h

theorem display_rows (a ct : Props) (s : State)
    (hct : commTypeStatsAt (toNumber (a.get "COMMUNITY_TYPE")) = some ct) :
    ∃ s1, displayDataForTown a s = Outcome.done s1 ∧
      s1.grids.map (fun g => g.rows) = storesFor a ct := by
  obtain ⟨s1, h1, _, h2, _⟩ := display_done a ct s hct
  exact ⟨s1, h1, by rw [h2]; rfl⟩

/-- C13 (as amended): for a record whose community type has a profile, the
municipality cell of the row `Resident Worker Walk Share` of the walk table and
of the row `Resident Worker Bicycle Share` of the bike table is the rounded
percentage followed by `" *"` when `SMALL_SAMPLE_SIZE` is `"Y"`, and without
that suffix for any other flag; the rows `Walk` and `Bicycle` of the mode-share
table show the same two values without the suffix whatever the flag.  The grids
display the stores as they are. -/
theorem small_sample_suffix (a ct : Props) (s : State)
    (hct : commTypeStatsAt (toNumber (a.get "COMMUNITY_TYPE")) = some ct) :
    ∃ s' w b mw mb, populateDataStores a s = Outcome.done s' ∧
      s'.walkStore[2]? = some w ∧ s'.bikeStore[3]? = some b ∧
      s'.msStore[4]? = some mw ∧ s'.msStore[3]? = some mb ∧
      w.ind = "Resident Worker Walk Share" ∧ b.ind = "Resident Worker Bicycle Share" ∧
      mw.ind = "Walk" ∧ mb.ind = "Bicycle" ∧
      mw.muni = fmtFixed 1 (a.get "WALK_SHARE_PCT") ++ "%" ∧
      mb.muni = fmtFixed 1 (a.get "BIKE_SHARE_PCT") ++ "%" ∧
      (a.get "SMALL_SAMPLE_SIZE" = JSVal.string "Y" →
        w.muni = mw.muni ++ " *" ∧ b.muni = mb.muni ++ " *") ∧
      (a.get "SMALL_SAMPLE_SIZE" ≠ JSVal.string "Y" → w.muni = mw.muni ∧ b.muni = mb.muni) ∧
      ∃ s1, displayDataForTown a s = Outcome.done s1 ∧
        s1.grids.map (fun g => g.rows) = s'.stores := by
  obtain ⟨s', h1, h2, hw, hb, hm⟩ := populate_of_profile a ct s hct
  obtain ⟨s1, hd, hg⟩ := display_rows a ct s hct
  refine ⟨s', _, _, _, _, h1, by rw [hw]; rfl, by rw [hb]; rfl, by rw [hm]; rfl, by rw [hm]; rfl,
    rfl, rfl, rfl, rfl, rfl, rfl, ?_, ?_, s1, hd, by rw [hg, h2]⟩
  · intro hy
    simp only [szAsterisk, hy, if_true]
    exact ⟨rfl, rfl⟩
  · intro hy
    show fmtFixed 1 (a.get "WALK_SHARE_PCT") ++ "%" ++ szAsterisk a =
        fmtFixed 1 (a.get "WALK_SHARE_PCT") ++ "%" ∧
      fmtFixed 1 (a.get "BIKE_SHARE_PCT") ++ "%" ++ szAsterisk a =
        fmtFixed 1 (a.get "BIKE_SHARE_PCT") ++ "%"
    simp only [szAsterisk, if_neg hy, String.append_empty, and_self]

/-- Witness for C13 (as amended): the record of town 1 of the sample catalog,
whose walk share is 19.83 with the small-sample flag set. -/
theorem small_sample_suffix_witness :
    commTypeStatsAt (toNumber ((sampleRows.getD 0 []).get "COMMUNITY_TYPE")) =
      some (commTypeStats.getD 3 []) ∧
    ∃ s' w, populateDataStores (sampleRows.getD 0 []) sampleState = Outcome.done s' ∧
      s'.walkStore[2]? = some w ∧ w.muni = "19.8% *" := by
  obtain ⟨s', w, b, mw, mb, h1, h2, _, _, _, _, _, _, _, h10, _, h12, _⟩ :=
    small_sample_suffix (sampleRows.getD 0 []) (commTypeStats.getD 3 []) sampleState (by decide!)
  refine ⟨by decide!, s', w, h1, h2, ?_⟩
  rw [(h12 (by decide!)).1, h10]
  decide!

/-- Counterexample to C13 as stated: town 1 of the sample catalog has walk
share 19.83 and bike share 0.44 with the small-sample flag `"Y"`.  Once it is
displayed, the walk and bike tables show `19.8% *` and `0.4% *`, and the
mode-share table shows the same two values as `19.8%` and `0.4%`, without the
suffix. -/
theorem mode_share_rows_without_suffix :
    (sampleRows.getD 0 []).get "SMALL_SAMPLE_SIZE" = JSVal.string "Y" ∧
    (sampleRows.getD 0 []).get "WALK_SHARE_PCT" = JSVal.string "19.83" ∧
    (sampleRows.getD 0 []).get "BIKE_SHARE_PCT" = JSVal.string "0.44" ∧
    (run [Action.selectTown (some 1)] sampleState).walkGrid.rows.map (fun r => (r.ind, r.muni)) =
      [("Miles of Sidewalk", "48.1"), ("Sidewalk Coverage", "25%"),
       ("Resident Worker Walk Share", "19.8% *")] ∧
    (run [Action.selectTown (some 1)] sampleState).bikeGrid.rows.map (fun r => (r.ind, r.muni)) =
      [("Miles of Trails", "2.5"), ("Miles Bicycle Lanes", "1.5"), ("Bicycle Coverage", "1.2%"),
       ("Resident Worker Bicycle Share", "0.4% *")] ∧
    (run [Action.selectTown (some 1)] sampleState).msGrid.rows.map (fun r => (r.ind, r.muni)) =
      [("Drive Alone", "80.1%"), ("Carpool", "6%"), ("Transit", "5.5%"), ("Bicycle", "0.4%"),
       ("Walk", "19.8%"), ("Work at Home", "4.2%"), ("Other", "0.9%")] := by
  decide!

theorem rows_congr (a a' ct : Props) (z : String)
    (h : ∀ k, k ≠ "SMALL_SAMPLE_SIZE" → a.get k = a'.get k) :
    demogRows a ct = demogRows a' ct ∧ walkRows a ct z = walkRows a' ct z ∧
    bikeRows a ct z = bikeRows a' ct z ∧ autoRows a ct = autoRows a' ct ∧
    phsRows a ct = phsRows a' ct ∧ msRows a ct = msRows a' ct := by
  refine ⟨?_, ?_, ?_, ?_, ?_, ?_⟩
  · simp only [demogRows, h "POP_2009" (by decide), h "POP_DENSITY" (by decide),
      h "EMP_2009" (by decide), h "EMP_DENSITY" (by decide), h "ELDERLY_POP_PCT" (by decide)]
  · simp only [walkRows, h "SIDEWALK_MI" (by decide), h "SIDEWALK_COV_PCT" (by decide),
      h "WALK_SHARE_PCT" (by decide)]
  · simp only [bikeRows, h "BIKE_TRAIL_MI" (by decide), h "BIKE_LANE_MI" (by decide),
      h "BIKE_COV_PCT" (by decide), h "BIKE_SHARE_PCT" (by decide)]
  · simp only [autoRows, h "AUTOS_PER_HH" (by decide), h "VMT_PER_HH" (by decide),
      h "DROVE_ALONE_SHARE_PCT" (by decide), h "CARPOOL_SHARE_PCT" (by decide)]
  · simp only [phsRows, h "PED_CRASH_RATE" (by decide), h "BIKE_CRASH_RATE" (by decide)]
  · simp only [msRows, h "DROVE_ALONE_SHARE_PCT" (by decide), h "CARPOOL_SHARE_PCT" (by decide),
      h "TRANSIT_SHARE_PCT" (by decide), h "BIKE_SHARE_PCT" (by decide),
      h "WALK_SHARE_PCT" (by decide), h "WAH_SHARE_PCT" (by decide),
      h "OTHER_SHARE_PCT" (by decide)]

/-- C14: two records that differ only in `SMALL_SAMPLE_SIZE` make
`populateDataStores` end the same way, and the six stores it leaves are equal
once the municipality cells of `walkStore[2]` (resident walk share) and
`bikeStore[3]` (resident bike share) are blanked: every other cell holds the
same string.  A percentage 19.83 printed with one decimal is `19.8%` whether or
not the flag is set. -/
theorem flag_affects_two_cells (a a' : Props) (s : State)
    (h : ∀ k, k ≠ "SMALL_SAMPLE_SIZE" → a.get k = a'.get k) :
    maskFlagged (populateDataStores a s).state.stores =
      maskFlagged (populateDataStores a' s).state.stores ∧
    ((∃ s1, populateDataStores a s = Outcome.done s1) ↔
      (∃ s1, populateDataStores a' s = Outcome.done s1)) ∧
    (∀ s1 s1', populateDataStores a s = Outcome.done s1 →
      populateDataStores a' s = Outcome.done s1' →
      s1.stores.map (fun rows => rows.map (fun r => (r.ind, r.commtype, r.reg))) =
        s1'.stores.map (fun rows => rows.map (fun r => (r.ind, r.commtype, r.reg))) ∧
      s1.msStore = s1'.msStore) ∧
    fmtFixed 1 (JSVal.string "19.83") ++ "%" = "19.8%" := by
  have hct : toNumber (a.get "COMMUNITY_TYPE") = toNumber (a'.get "COMMUNITY_TYPE") := by
    rw [h "COMMUNITY_TYPE" (by decide)]
  have hmask : ∀ ct, maskFlagged (storesFor a ct) = maskFlagged (storesFor a' ct) := by
    intro ct
    obtain ⟨e1, e2, e3, e4, e5, e6⟩ := rows_congr a a' ct (szAsterisk a) h
    unfold storesFor
    rw [e1, e2, e3, e4, e5, e6]
    rfl
  have hcols : ∀ ct,
      (storesFor a ct).map (fun rows => rows.map (fun r => (r.ind, r.commtype, r.reg))) =
        (storesFor a' ct).map (fun rows => rows.map (fun r => (r.ind, r.commtype, r.reg))) := by
    intro ct; rfl
  rcases populate_cases a s with ⟨ct, h1, h2⟩ | ⟨h1, h2⟩
  · have h1' : commTypeStatsAt (toNumber (a'.get "COMMUNITY_TYPE")) = some ct := by
      rw [← hct]; exact h1
    obtain ⟨t1, g1, g2, _, _, g5⟩ := populate_of_profile a ct s h1
    obtain ⟨t1', g1', g2', _, _, g5'⟩ := populate_of_profile a' ct s h1'
    refine ⟨?_, ⟨fun _ => ⟨t1', g1'⟩, fun _ => ⟨t1, g1⟩⟩, ?_, by decide!⟩
    · rw [g1, g1']
      simp only [Outcome.state]
      rw [g2, g2']
      exact hmask ct
    · intro s1 s1' k k'
      rw [g1] at k
      rw [g1'] at k'
      cases k
      cases k'
      rw [g2, g2', g5, g5']
      exact ⟨hcols ct, (rows_congr a a' ct "" h).2.2.2.2.2⟩
  · have h1' : commTypeStatsAt (toNumber (a'.get "COMMUNITY_TYPE")) = none := by
      rw [← hct]; exact h1
    rcases populate_cases a' s with ⟨ct, k1, _⟩ | ⟨_, k2⟩
    · rw [h1'] at k1; cases k1
    · refine ⟨?_, ⟨?_, ?_⟩, ?_, by decide!⟩
      · rw [h2, k2]; rfl
      · rintro ⟨s1, hs1⟩; rw [h2] at hs1; cases hs1
      · rintro ⟨s1, hs1⟩; rw [k2] at hs1; cases hs1
      · intro s1 s1' k _
        rw [h2] at k; cases k

theorem get_congr_last (pre : Props) (k : String) (x y : JSVal)
    (hk : k ≠ "SMALL_SAMPLE_SIZE") :
    Props.get (pre ++ [("SMALL_SAMPLE_SIZE", x)]) k =
      Props.get (pre ++ [("SMALL_SAMPLE_SIZE", y)]) k := by
  unfold Props.get
  induction pre with
  | nil =>
    have : (k == "SMALL_SAMPLE_SIZE") = false := by simpa using hk
    simp [List.lookup, this]
  | cons p pre ih =>
    simp only [List.cons_append, List.lookup]
    split
    · rfl
    · exact ih

/-- Witness for C14: the record of town 1 of the sample catalog with the flag
`"Y"` and with the flag `"N"`. -/
theorem flag_affects_two_cells_witness :
    (sampleRows.getD 0 []).dropLast ++ [("SMALL_SAMPLE_SIZE", JSVal.string "Y")] =
      sampleRows.getD 0 [] ∧
    maskFlagged (populateDataStores
        ((sampleRows.getD 0 []).dropLast ++ [("SMALL_SAMPLE_SIZE", JSVal.string "Y")])
        sampleState).state.stores =
      maskFlagged (populateDataStores
        ((sampleRows.getD 0 []).dropLast ++ [("SMALL_SAMPLE_SIZE", JSVal.string "N")])
        sampleState).state.stores ∧
    (populateDataStores
        ((sampleRows.getD 0 []).dropLast ++ [("SMALL_SAMPLE_SIZE", JSVal.string "Y")])
        sampleState).state.walkStore.map (fun r => r.muni) = ["48.1", "25%", "19.8% *"] ∧
    (populateDataStores
        ((sampleRows.getD 0 []).dropLast ++ [("SMALL_SAMPLE_SIZE", JSVal.string "N")])
        sampleState).state.walkStore.map (fun r => r.muni) = ["48.1", "25%", "19.8%"] :=
  ⟨by decide!,
    (flag_affects_two_cells _ _ sampleState
      (fun k hk => get_congr_last (sampleRows.getD 0 []).dropLast k _ _ hk)).1,
    by decide!, by decide!⟩

/-- The cell of the stores a position of the layout describes. -/
theorem layout_cell (a ct : Props) (j i : Nat) (t : TableSpec) (c : CellSpec)
    (ht : tableLayout[j]? = some t) (hc : t.cells[i]? = some c) :
    ∃ rows, (storesFor a ct)[j]? = some rows ∧ rows.length = t.cells.length ∧
      rows[i]? = some (layoutRow t a ct i c) := by
  refine ⟨layoutRows t a ct, ?_, ?_, ?_⟩
  · rw [storesFor_eq_layout]
    unfold layoutStores
    rw [List.getElem?_map, ht]
    rfl
  · simp [layoutRows]
  · unfold layoutRows
    rw [List.getElem?_map, List.getElem?_enum, hc]
    rfl

/-- C15: every municipality cell `populateDataStores` writes is the expression
`(+(+v).toFixed(f)).toLocaleString()` of its attribute `v`, followed by `%` on
a percentage row (and by the small-sample mark on the two rows that carry it),
where the number of decimals `f` handed to `toFixed` depends on the kind of the
indicator only: 0 for population, population density, employment, employment
density and daily VMT per household, 1 (and the `%`) for every percentage,
which are exactly the attributes named `..._PCT`, and 2 for the two crash
rates.  Each of these attributes has its row in the tables.  On a percentage
row the two averages are printed the same way for every profile of the
reference data (the empty profile 0 included).  Which digits `toFixed` prints
for a given binary floating-point number is left to the engine and is not
asserted. -/
theorem cells_rounded (a : Props) (s s' : State) (j i : Nat) (t : TableSpec) (c : CellSpec)
    (hp : populateDataStores a s = Outcome.done s')
    (ht : tableLayout[j]? = some t) (hc : t.cells[i]? = some c) :
    ∃ rows r, s'.stores[j]? = some rows ∧ rows[i]? = some r ∧
      r.muni = withStar c a (withPercent c (fmtFixed c.digits (a.get c.key))) ∧
      (c.key ∈ ["POP_2009", "POP_DENSITY", "EMP_2009", "EMP_DENSITY", "VMT_PER_HH"] →
        c.digits = 0 ∧ c.percent = false ∧ r.muni = fmtFixed 0 (a.get c.key)) ∧
      (c.percent = true ↔ "_PCT".toList.isSuffixOf c.key.toList = true) ∧
      (c.percent = true →
        c.digits = 1 ∧ r.muni = withStar c a (fmtFixed 1 (a.get c.key) ++ "%")) ∧
      (c.key ∈ ["PED_CRASH_RATE", "BIKE_CRASH_RATE"] →
        c.digits = 2 ∧ c.percent = false ∧ r.muni = fmtFixed 2 (a.get c.key)) ∧
      (c.percent = true → ∀ p ∈ regionStats :: commTypeStats,
        avgCell c (p.get c.avgKey) = fmtFixed 1 (p.get c.avgKey) ++ "%") ∧
      (∀ k ∈ ["POP_2009", "POP_DENSITY", "EMP_2009", "EMP_DENSITY", "VMT_PER_HH",
          "PED_CRASH_RATE", "BIKE_CRASH_RATE", "ELDERLY_POP_PCT", "SIDEWALK_COV_PCT",
          "WALK_SHARE_PCT", "BIKE_COV_PCT", "BIKE_SHARE_PCT", "DROVE_ALONE_SHARE_PCT",
          "CARPOOL_SHARE_PCT", "TRANSIT_SHARE_PCT", "WAH_SHARE_PCT", "OTHER_SHARE_PCT"],
        ∃ t ∈ tableLayout, ∃ c ∈ t.cells, c.key = k) := by
  obtain ⟨ct', _, hst⟩ := populate_stores a s s' hp
  obtain ⟨rows, h1, _, h2⟩ := layout_cell a ct' j i t c ht hc
  have hmem : t ∈ tableLayout := List.getElem?_mem ht
  have hcm : c ∈ t.cells := List.getElem?_mem hc
  have hall : ∀ t ∈ tableLayout, ∀ c ∈ t.cells,
      (c.key ∈ ["POP_2009", "POP_DENSITY", "EMP_2009", "EMP_DENSITY", "VMT_PER_HH"] →
        c.digits = 0 ∧ c.percent = false ∧ c.starred = false) ∧
      (c.percent = true ↔ "_PCT".toList.isSuffixOf c.key.toList = true) ∧
      (c.percent = true → c.digits = 1) ∧
      (c.key ∈ ["PED_CRASH_RATE", "BIKE_CRASH_RATE"] →
        c.digits = 2 ∧ c.percent = false ∧ c.starred = false) ∧
      (c.percent = true → ∀ p ∈ regionStats :: commTypeStats,
        avgCell c (p.get c.avgKey) = fmtFixed 1 (p.get c.avgKey) ++ "%") := by
    decide!
  obtain ⟨g1, g2, g3, g4, g5⟩ := hall t hmem c hcm
  have hmuni : (layoutRow t a ct' i c).muni =
      withStar c a (withPercent c (fmtFixed c.digits (a.get c.key))) := rfl
  refine ⟨rows, _, by rw [hst]; exact h1, h2, hmuni, ?_, g2, ?_, ?_, g5, by decide!⟩
  · intro hk
    obtain ⟨d0, p0, s0⟩ := g1 hk
    refine ⟨d0, p0, ?_⟩
    rw [hmuni]
    simp only [withStar, withPercent, d0, p0, s0, Bool.false_eq_true, if_false]
  · intro hpc
    refine ⟨g3 hpc, ?_⟩
    rw [hmuni]
    simp only [withPercent, g3 hpc, hpc, if_true]
  · intro hk
    obtain ⟨d0, p0, s0⟩ := g4 hk
    refine ⟨d0, p0, ?_⟩
    rw [hmuni]
    simp only [withStar, withPercent, d0, p0, s0, Bool.false_eq_true, if_false]

/-- Witness for C15: the record of town 1 of the sample catalog.  Its
employment `"9876.4"` is shown as `9,876`, its share of elderly population
`"7.25"` as `7.3%`, its pedestrian crash rate `"0.125"` as `0.13`. -/
theorem cells_rounded_witness :
    populateDataStores (sampleRows.getD 0 []) sampleState =
      Outcome.done (populateDataStores (sampleRows.getD 0 []) sampleState).state ∧
    (sampleRows.getD 0 []).get "EMP_2009" = JSVal.string "9876.4" ∧
    (∃ rows r, (populateDataStores (sampleRows.getD 0 []) sampleState).state.stores[0]? =
        some rows ∧ rows[2]? = some r ∧ r.muni = fmtFixed 0 (JSVal.string "9876.4") ∧
        r.muni = "9,876") ∧
    (populateDataStores (sampleRows.getD 0 []) sampleState).state.stores.map
        (fun rows => rows.map (fun r => r.muni)) =
      [["20,331", "749", "9,876", "1,000", "7.3%"], ["48.1", "25%", "19.8% *"],
       ["2.5", "1.5", "1.2%", "0.4% *"], ["1.9", "62", "80.1%", "6%"], ["0.13", "0.1"],
       ["80.1%", "6%", "5.5%", "0.4%", "19.8%", "4.2%", "0.9%"]] := by
  obtain ⟨rows, r, h1, h2, _, h4, _⟩ := cells_rounded (sampleRows.getD 0 []) sampleState
    (populateDataStores (sampleRows.getD 0 []) sampleState).state 0 2
    ⟨"demog_table", demogRowNames,
      [ ⟨"POP_2009", "pop_2009", 0, false, false, true⟩,
        ⟨"POP_DENSITY", "pop_density", 0, false, false, true⟩,
        ⟨"EMP_2009", "emp_2009", 0, false, false, true⟩,
        ⟨"EMP_DENSITY", "emp_density", 0, false, false, true⟩,
        ⟨"ELDERLY_POP_PCT", "elderly_pop_pct", 1, true, false, true⟩ ]⟩
    ⟨"EMP_2009", "emp_2009", 0, false, false, true⟩ (by decide!) (by decide!) (by decide!)
  have h5 := (h4 (by decide!)).2.2
  refine ⟨by decide!, by decide!, ⟨rows, r, h1, h2, h5, ?_⟩, by decide!⟩
  rw [h5]
  decide!

theorem commTypeStatsAt_isSome (q : ℚ) :
    (commTypeStatsAt (some q)).isSome = true ↔ q ∈ [(0 : ℚ), 1, 2, 3, 4] := by
  constructor
  · intro h
    have h : ((if q.den = 1 ∧ 0 ≤ q.num then some q.num.toNat else none).bind
        (fun i => commTypeStats[i]?)).isSome = true := h
    by_cases hq : q.den = 1 ∧ 0 ≤ q.num
    · rw [if_pos hq] at h
      simp only [Option.some_bind] at h
      have hlt : q.num.toNat < commTypeStats.length := by
        by_contra hge
        rw [List.getElem?_eq_none (Nat.le_of_not_lt hge)] at h
        simp at h
      have hlen : commTypeStats.length = 5 := rfl
      rw [hlen] at hlt
      have hnum : q.num < 5 := by omega
      have hqe : q = (q.num : ℚ) := by
        have := Rat.num_div_den q
        rw [hq.1] at this
        simpa using this.symm
      have h0 := hq.2
      have : q.num = 0 ∨ q.num = 1 ∨ q.num = 2 ∨ q.num = 3 ∨ q.num = 4 := by omega
      rcases this with h | h | h | h | h <;> rw [hqe, h] <;> simp
    · rw [if_neg hq] at h
      simp at h
  · intro h
    simp only [List.mem_cons, List.mem_singleton, List.not_mem_nil, or_false] at h
    rcases h with h | h | h | h | h <;> subst h <;> decide!

/-- C16 (as amended): for a record whose `COMMUNITY_TYPE` converts to one of
the indices 0 to 4 of `commTypeStats`, `populateDataStores` runs to its end and
leaves six stores with 5, 3, 4, 4, 2 and 7 rows (demographic, walk, bike, auto,
public health and safety, mode share); the label `ind` of row `i` of a store is
entry `i` of the row-name list of its table, and a row is a record of the four
fields `ind`, `muni`, `commtype`, `reg`.  For any other record it throws. -/
theorem six_stores (a : Props) (s : State) (q : ℚ)
    (hq : toNumber (a.get "COMMUNITY_TYPE") = some q) (hmem : q ∈ [(0 : ℚ), 1, 2, 3, 4]) :
    (∃ s', populateDataStores a s = Outcome.done s' ∧
      s'.stores.length = 6 ∧ s'.stores.map List.length = [5, 3, 4, 4, 2, 7] ∧
      s'.stores.map (fun rows => rows.map (fun r => r.ind)) =
        [demogRowNames, walkRowNames, bikeRowNames, autoRowNames, phsRowNames, msRowNames] ∧
      s'.stores = [s'.demogStore, s'.walkStore, s'.bikeStore, s'.autoStore, s'.phsStore,
        s'.msStore]) ∧
    (∀ (b : Props) (s1 : State),
      (∃ s', populateDataStores b s1 = Outcome.done s') ↔
        ∃ p, toNumber (b.get "COMMUNITY_TYPE") = some p ∧ p ∈ [(0 : ℚ), 1, 2, 3, 4]) := by
  constructor
  · have hsome := (commTypeStatsAt_isSome q).mpr hmem
    obtain ⟨ct, hct⟩ := Option.isSome_iff_exists.mp hsome
    obtain ⟨s', h1, h2, _⟩ := populate_of_profile a ct s (by rw [hq]; exact hct)
    refine ⟨s', h1, rfl, ?_, ?_, rfl⟩
    · rw [h2]; rfl
    · rw [h2]; rfl
  · intro b s1
    constructor
    · rintro ⟨s', h⟩
      obtain ⟨ct, hct, _⟩ := populate_stores b s1 s' h
      cases hp : toNumber (b.get "COMMUNITY_TYPE") with
      | none => rw [hp] at hct; simp [commTypeStatsAt, arrayIndex] at hct
      | some p =>
        refine ⟨p, rfl, (commTypeStatsAt_isSome p).mp ?_⟩
        rw [hp] at hct
        rw [hct]; rfl
    · rintro ⟨p, hp, hmem⟩
      have hsome := (commTypeStatsAt_isSome p).mpr hmem
      obtain ⟨ct, hct⟩ := Option.isSome_iff_exists.mp hsome
      obtain ⟨s', h1, _⟩ := populate_of_profile b ct s1 (by rw [hp]; exact hct)
      exact ⟨s', h1⟩

/-- Witness for C16 (as amended): the record of town 2 of the sample catalog,
of community type 1. -/
theorem six_stores_witness :
    toNumber ((sampleRows.getD 1 []).get "COMMUNITY_TYPE") = some 1 ∧
    ∃ s', populateDataStores (sampleRows.getD 1 []) sampleState = Outcome.done s' ∧
      s'.stores.map List.length = [5, 3, 4, 4, 2, 7] := by
  obtain ⟨⟨s', h1, _, h3, _⟩, _⟩ := six_stores (sampleRows.getD 1 []) sampleState 1
    (by decide!) (by decide!)
  exact ⟨by decide!, s', h1, h3⟩

/-- Counterexample to C16 as stated: town 3 of the sample catalog has no
indicator row, hence no `COMMUNITY_TYPE`.  For its record `populateDataStores`
throws; it leaves no row in any store on the page just loaded, and on the page
that shows town 1 it leaves the demographic store empty and the other five as
they were. -/
theorem no_stores_without_community_type :
    (sampleState.data.map (fun f => f.properties))[2]? =
      some [("TOWN_ID", JSVal.number 3), ("TOWN", JSVal.string "BEDFORD")] ∧
    populateDataStores [("TOWN_ID", JSVal.number 3), ("TOWN", JSVal.string "BEDFORD")]
        sampleState =
      Outcome.threw { sampleState with
        lastaAttrs := some [("TOWN_ID", JSVal.number 3), ("TOWN", JSVal.string "BEDFORD")] } ∧
    (populateDataStores [("TOWN_ID", JSVal.number 3), ("TOWN", JSVal.string "BEDFORD")]
        sampleState).state.stores.map List.length = [0, 0, 0, 0, 0, 0] ∧
    (populateDataStores [("TOWN_ID", JSVal.number 3), ("TOWN", JSVal.string "BEDFORD")]
        (run [Action.selectTown (some 1)] sampleState)).state.stores.map List.length =
      [0, 3, 4, 4, 2, 7] := by
  decide!

/-- Every row of the stores is the row the layout describes at its position. -/
theorem stores_row (a ct : Props) (j i : Nat) (rows : List StoreRow) (r : StoreRow)
    (h1 : (storesFor a ct)[j]? = some rows) (h2 : rows[i]? = some r) :
    ∃ t c, tableLayout[j]? = some t ∧ t.cells[i]? = some c ∧ r = layoutRow t a ct i c := by
  rw [storesFor_eq_layout] at h1
  unfold layoutStores at h1
  rw [List.getElem?_map] at h1
  obtain ⟨t, ht, hrows⟩ := Option.map_eq_some'.mp h1
  subst hrows
  unfold layoutRows at h2
  rw [List.getElem?_map, List.getElem?_enum] at h2
  obtain ⟨p, hp, hr⟩ := Option.map_eq_some'.mp h2
  obtain ⟨c, hc, hpc⟩ := Option.map_eq_some'.mp hp
  subst hpc
  exact ⟨t, c, ht, hc, hr.symm⟩

/-- C17: in every row of the six stores `populateDataStores` leaves, the
municipality cell prints an attribute `key` of the town record, the `commtype`
cell prints the property `avgKey` of the profile `commTypeStats[iCommType]` of
the record's own `COMMUNITY_TYPE`, and the `reg` cell prints the same property
of `regionStats`; `avgKey` is `key` in lower case.  The `reg` column is the same
for every record, and the `commtype` column is the same for any two records
whose `COMMUNITY_TYPE` converts to the same number. -/
theorem averages_from_profiles (a : Props) (s s' : State) (j i : Nat) (rows : List StoreRow)
    (r : StoreRow) (hp : populateDataStores a s = Outcome.done s')
    (h1 : s'.stores[j]? = some rows) (h2 : rows[i]? = some r) :
    ∃ ct t c, commTypeStatsAt (toNumber (a.get "COMMUNITY_TYPE")) = some ct ∧
      tableLayout[j]? = some t ∧ t.cells[i]? = some c ∧
      r.muni = withStar c a (withPercent c (fmtFixed c.digits (a.get c.key))) ∧
      r.commtype = avgCell c (ct.get c.avgKey) ∧
      r.reg = avgCell c (regionStats.get c.avgKey) ∧
      c.avgKey = lowerKey c.key ∧
      ∀ (a2 : Props) (s2 s2' : State), populateDataStores a2 s2 = Outcome.done s2' →
        s2'.stores.map (fun rows => rows.map (fun r => r.reg)) =
          s'.stores.map (fun rows => rows.map (fun r => r.reg)) ∧
        (toNumber (a2.get "COMMUNITY_TYPE") = toNumber (a.get "COMMUNITY_TYPE") →
          s2'.stores.map (fun rows => rows.map (fun r => r.commtype)) =
            s'.stores.map (fun rows => rows.map (fun r => r.commtype))) := by
  obtain ⟨ct, hct, hst⟩ := populate_stores a s s' hp
  rw [hst] at h1
  obtain ⟨t, c, ht, hc, hr⟩ := stores_row a ct j i rows r h1 h2
  refine ⟨ct, t, c, hct, ht, hc, by rw [hr]; rfl, by rw [hr]; rfl, by rw [hr]; rfl,
    layout_keys t (List.getElem?_mem ht) c (List.getElem?_mem hc), ?_⟩
  intro a2 s2 s2' hp2
  obtain ⟨ct2, hct2, hst2⟩ := populate_stores a2 s2 s2' hp2
  rw [hst, hst2]
  refine ⟨rfl, ?_⟩
  intro he
  rw [he, hct] at hct2
  cases hct2
  rfl

/-- Witness for C17: the walk-share row of town 1 of the sample catalog, of
community type 3. -/
theorem averages_from_profiles_witness :
    populateDataStores (sampleRows.getD 0 []) sampleState =
      Outcome.done (populateDataStores (sampleRows.getD 0 []) sampleState).state ∧
    (populateDataStores (sampleRows.getD 0 []) sampleState).state.stores[1]? =
      some (walkRows (sampleRows.getD 0 []) (commTypeStats.getD 3 []) " *") ∧
    (walkRows (sampleRows.getD 0 []) (commTypeStats.getD 3 []) " *")[2]? =
      some ⟨"Resident Worker Walk Share", "19.8% *", "7.7%", "14.8%"⟩ ∧
    ∃ ct c, commTypeStatsAt (toNumber ((sampleRows.getD 0 []).get "COMMUNITY_TYPE")) = some ct ∧
      "7.7%" = avgCell c (ct.get c.avgKey) ∧ "14.8%" = avgCell c (regionStats.get c.avgKey) := by
  obtain ⟨ct, _, c, h1, _, _, _, h5, h6, _⟩ := averages_from_profiles (sampleRows.getD 0 [])
    sampleState (populateDataStores (sampleRows.getD 0 []) sampleState).state 1 2
    (walkRows (sampleRows.getD 0 []) (commTypeStats.getD 3 []) " *")
    ⟨"Resident Worker Walk Share", "19.8% *", "7.7%", "14.8%"⟩
    (by decide!) (by decide!) (by decide!)
  exact ⟨by decide!, by decide!, by decide!, ct, c, h1, h5, h6⟩

/-! ### The emphasised row -/

theorem selector_ne_empty (g : Grid) : "" ∉ rowSelectors g := by
  intro h
  unfold rowSelectors at h
  obtain ⟨i, _, hi⟩ := List.mem_map.mp h
  have := congrArg String.length hi
  simp only [String.length_append] at this
  have h1 : "#".length = 1 := rfl
  have h0 : "".length = 0 := rfl
  omega

theorem rowExists_empty (s : State) : rowExists s "" = false := by
  unfold rowExists
  rw [Bool.eq_false_iff]
  intro h
  obtain ⟨g, _, hg⟩ := List.any_eq_true.mp h
  exact selector_ne_empty g (by simpa using hg)

/-- C19: choosing a registered theme `t`, in the dropdown or by a click on a
table row of class `t`, leaves at most one emphasised row: the font weights are
all reset and then the row `gridRowID` of `t` is made bold when the page has
it, so that the bold rows are that row alone or none.  For a theme whose
`gridRowID` is empty, as for `COMMUNITY_TYPE`, no row is emphasised. -/
theorem one_row_emphasised (s : State) (t : String) (ht : t ∈ mapThemes) :
    ∃ s', step (Action.selectTheme t) s = Outcome.done s' ∧
      step (Action.clickTable "row" t) s = Outcome.done { s' with activeTab := s.activeTab } ∧
      s'.bold.length ≤ 1 ∧
      s'.bold = (if rowExists s (themeOf t).gridRowID then [(themeOf t).gridRowID] else []) ∧
      (∀ sel ∈ s'.bold, sel = (themeOf t).gridRowID ∧ rowExists s' sel = true) ∧
      ((themeOf t).gridRowID = "" → s'.bold = []) ∧
      (themeOf "COMMUNITY_TYPE").gridRowID = "" ∧
      mapThemes.filter (fun u => (themeOf u).gridRowID == "") = ["COMMUNITY_TYPE"] := by
  obtain ⟨d, hd, hlen⟩ := getTheme_of_mem t ht
  have hc : mapThemes.contains t = true := (contains_mapThemes t).mpr ht
  have hbold : (applyTheme d t { s with selected_theme := t, activeTab := d.tabSwitchID }).bold =
      (if rowExists s d.gridRowID then [d.gridRowID] else []) := by
    simp only [applyTheme]
    rw [setBold_nil _ _ rfl]
    rfl
  have hgrids : (applyTheme d t { s with selected_theme := t, activeTab := d.tabSwitchID }).grids =
      s.grids := by
    simp only [applyTheme]; rw [setBold_eq]; rfl
  rw [themeOf_eq t d hd]
  refine ⟨_, step_selectTheme s t d hd hlen hc, ?_, ?_, hbold, ?_, ?_, by decide!, by decide!⟩
  · simp only [step, tableClicked, if_true, hc, renderTheme, hd]
    congr 1
    simp only [applyTheme, setBold, rowExists, State.grids]
    split <;> rfl
  · rw [hbold]; split <;> simp
  · intro sel hsel
    rw [hbold] at hsel
    split at hsel
    · rename_i hex
      rw [List.mem_singleton] at hsel
      subst hsel
      refine ⟨rfl, ?_⟩
      unfold rowExists at hex ⊢
      rw [hgrids]; exact hex
    · simp at hsel
  · intro he
    rw [hbold, he, rowExists_empty]
    rfl

/-- Witness for C19: the theme `POP_DENSITY` chosen while town 1 of the sample
catalog is displayed and the row of `EMP_DENSITY` is bold. -/
theorem one_row_emphasised_witness :
    "POP_DENSITY" ∈ mapThemes ∧
    (run [Action.selectTown (some 1), Action.selectTheme "EMP_DENSITY"] sampleState).bold =
      ["#demog_table_r_4"] ∧
    ∃ s', step (Action.selectTheme "POP_DENSITY")
        (run [Action.selectTown (some 1), Action.selectTheme "EMP_DENSITY"] sampleState) =
          Outcome.done s' ∧
      s'.bold = ["#demog_table_r_2"] := by
  obtain ⟨s', h1, _, _, h4, _⟩ := one_row_emphasised
    (run [Action.selectTown (some 1), Action.selectTheme "EMP_DENSITY"] sampleState)
    "POP_DENSITY" (by decide!)
  refine ⟨by decide!, by decide!, s', h1, ?_⟩
  rw [h4]
  decide!

/-! ### Rows and themes -/

theorem display_rowClass (a ct : Props) (s : State)
    (hct : commTypeStatsAt (toNumber (a.get "COMMUNITY_TYPE")) = some ct) :
    ∃ s1, displayDataForTown a s = Outcome.done s1 ∧
      s1.grids = gridsFor s.town_text a ct ∧
      s1.rowClass = (mapThemes.filter (fun t => rowExists s1 (themeOf t).gridRowID)).map
        (fun t => ((themeOf t).gridRowID, t)) := by
  refine ⟨(displayDataForTown a s).state, ?_, ?_, ?_⟩ <;>
    simp only [displayDataForTown, populateDataStores, hct, Outcome.andThen, Outcome.state] <;> rfl

theorem gridsFor_layout (town_text : String) (a ct : Props) :
    (gridsFor town_text a ct).map (fun g => (g.tableId, g.rows)) =
      tableLayout.map (fun t => (t.tableId, layoutRows t a ct)) := rfl

/-- The grid shown for a table of the layout and its row at a position of the
layout. -/
theorem gridsFor_cell (town_text : String) (a ct : Props) (j i : Nat) (t : TableSpec)
    (c : CellSpec) (ht : tableLayout[j]? = some t) (hc : t.cells[i]? = some c) :
    ∃ g, (gridsFor town_text a ct)[j]? = some g ∧ g.tableId = t.tableId ∧
      g.rows[i]? = some (layoutRow t a ct i c) ∧
      (rowSelectors g)[i]? = some ("#" ++ t.tableId ++ "_r_" ++ toString (i + 1)) := by
  have h := congrArg (fun l => l[j]?) (gridsFor_layout town_text a ct)
  simp only [List.getElem?_map, ht, Option.map_some'] at h
  obtain ⟨g, hg, hpair⟩ := Option.map_eq_some'.mp h
  have hid : g.tableId = t.tableId := congrArg Prod.fst hpair
  have hrows : g.rows = layoutRows t a ct := congrArg Prod.snd hpair
  have hrow : g.rows[i]? = some (layoutRow t a ct i c) := by
    rw [hrows]
    unfold layoutRows
    rw [List.getElem?_map, List.getElem?_enum, hc]
    rfl
  have hi : i < g.rows.length := (List.getElem?_eq_some.mp hrow).1
  refine ⟨g, hg, hid, hrow, ?_⟩
  unfold rowSelectors
  rw [List.getElem?_map, List.getElem?_range hi, hid]
  rfl

/-- C18: the 14 themes that name a row name pairwise different rows.  For such
a theme `t`, `gridRowID` is the selector of row `i + 1` of a table of the layout
whose municipality cell prints the attribute `t` of the town record; once a
town is displayed that row is in the grid of that table, it carries the class
`t` and no other class, and its municipality cell is the print of the town's
attribute `t`.  Two themes name rows of the same table exactly when they have
the same `tabSwitchID`. -/
theorem rows_map_to_themes (t : String) (a ct : Props) (s : State) (ht : t ∈ mapThemes)
    (hrow : (themeOf t).gridRowID ≠ "")
    (hct : commTypeStatsAt (toNumber (a.get "COMMUNITY_TYPE")) = some ct) :
    ∃ (j i : Nat) (tb : TableSpec) (c : CellSpec) (s1 : State) (g : Grid) (r : StoreRow),
      tableLayout[j]? = some tb ∧ tb.cells[i]? = some c ∧ c.key = t ∧
      (themeOf t).gridRowID = "#" ++ tb.tableId ++ "_r_" ++ toString (i + 1) ∧
      displayDataForTown a s = Outcome.done s1 ∧
      s1.grids[j]? = some g ∧ g.tableId = tb.tableId ∧
      (rowSelectors g)[i]? = some (themeOf t).gridRowID ∧ g.rows[i]? = some r ∧
      r.muni = withStar c a (withPercent c (fmtFixed c.digits (a.get t))) ∧
      ((themeOf t).gridRowID, t) ∈ s1.rowClass ∧
      (∀ u, ((themeOf t).gridRowID, u) ∈ s1.rowClass → u = t) ∧
      themesWithRow.length = 14 ∧ (themesWithRow.map (fun u => (themeOf u).gridRowID)).Nodup ∧
      (∀ u ∈ themesWithRow, ∀ v ∈ themesWithRow,
        (selectorTable (themeOf u).gridRowID = selectorTable (themeOf v).gridRowID ↔
          (themeOf u).tabSwitchID = (themeOf v).tabSwitchID)) ∧
      (themesWithRow.map
          (fun u => (selectorTable (themeOf u).gridRowID, (themeOf u).tabSwitchID))).dedup =
        [(some "demog_table", "#demog"), (some "walk_table", "#walk"),
         (some "bike_table", "#bike"), (some "auto_table", "#auto"),
         (some "phs_table", "#health")] := by
  have hall : ∀ u ∈ mapThemes, (themeOf u).gridRowID ≠ "" →
      ∃ j, j < 6 ∧ ∃ i, i < 7 ∧ selectorAt j i = some (themeOf u).gridRowID ∧
        keyAt j i = some u := by decide!
  obtain ⟨j, _, i, _, hsel, hkey⟩ := hall t ht hrow
  have hinj : ∀ u ∈ mapThemes, ∀ v ∈ mapThemes, (themeOf u).gridRowID ≠ "" →
      (themeOf u).gridRowID = (themeOf v).gridRowID → u = v := by decide!
  unfold selectorAt at hsel
  unfold keyAt at hkey
  cases htb : tableLayout[j]? with
  | none => rw [htb] at hsel; simp at hsel
  | some tb =>
    rw [htb] at hsel hkey
    simp only [Option.some_bind] at hsel hkey
    obtain ⟨c, hc, hck⟩ := Option.map_eq_some'.mp hkey
    have hselEq : (themeOf t).gridRowID = "#" ++ tb.tableId ++ "_r_" ++ toString (i + 1) := by
      split at hsel
      · exact (Option.some.inj hsel).symm
      · cases hsel
    obtain ⟨s1, hd, hgr, hrc⟩ := display_rowClass a ct s hct
    obtain ⟨g, hg, hid, hrowi, hseli⟩ := gridsFor_cell s.town_text a ct j i tb c htb hc
    have hex : rowExists s1 (themeOf t).gridRowID = true := by
      unfold rowExists
      rw [List.any_eq_true]
      refine ⟨g, ?_, ?_⟩
      · show g ∈ s1.grids
        rw [hgr]; exact List.getElem?_mem hg
      · rw [hselEq]
        simpa using List.getElem?_mem hseli
    refine ⟨j, i, tb, c, s1, g, _, htb, hc, hck, hselEq, hd, by rw [hgr]; exact hg, hid,
      by rw [hselEq]; exact hseli, hrowi, by rw [← hck]; rfl, ?_, ?_, by decide!, by decide!,
      by decide!, by decide!⟩
    · rw [hrc]
      exact List.mem_map.mpr ⟨t, List.mem_filter.mpr ⟨ht, by simpa using hex⟩, rfl⟩
    · intro u hu
      rw [hrc] at hu
      obtain ⟨v, hv, hpair⟩ := List.mem_map.mp hu
      have hv' := (List.mem_filter.mp hv).1
      have h1 : (themeOf v).gridRowID = (themeOf t).gridRowID := congrArg Prod.fst hpair
      have h2 : v = u := congrArg Prod.snd hpair
      rw [← h2]
      exact (hinj t ht v hv' hrow h1.symm).symm

/-- Witness for C18: the theme `WALK_SHARE_PCT` and town 1 of the sample
catalog. -/
theorem rows_map_to_themes_witness :
    "WALK_SHARE_PCT" ∈ mapThemes ∧ (themeOf "WALK_SHARE_PCT").gridRowID = "#walk_table_r_3" ∧
    ∃ s1, displayDataForTown (sampleRows.getD 0 []) sampleState = Outcome.done s1 ∧
      ("#walk_table_r_3", "WALK_SHARE_PCT") ∈ s1.rowClass := by
  obtain ⟨_, _, _, _, s1, _, _, _, _, _, _, h5, _, _, _, _, _, h11, _⟩ :=
    rows_map_to_themes "WALK_SHARE_PCT" (sampleRows.getD 0 []) (commTypeStats.getD 3 [])
      sampleState (by decide!) (by decide!) (by decide!)
  exact ⟨by decide!, by decide!, s1, h5, h11⟩

/-! ### Map click and town dropdown -/

/-- Displaying a record and re-highlighting the theme row writes tables that
depend on the page only through the cached town name and the theme shown. -/
theorem tables_transfer (a ct : Props) (X1 X2 : State)
    (htt : X2.town_text = X1.town_text) (hth : X2.selected_theme = X1.selected_theme)
    (hct : commTypeStatsAt (toNumber (a.get "COMMUNITY_TYPE")) = some ct)
    (h0 : X1.selected_theme = "" ∨ X1.selected_theme ∈ mapThemes) :
    ∃ s1, (displayDataForTown a X1).andThen rehighlight = Outcome.done s1 ∧
      (displayDataForTown a X2).andThen rehighlight = Outcome.done (withTables X2 s1) ∧
      s1 = withTables X1 s1 := by
  rcases h0 with h0 | h0
  · have hlen1 : ¬ (X1.selected_theme.length > 0) := by rw [h0]; decide
    have hlen2 : ¬ (X2.selected_theme.length > 0) := by rw [hth, h0]; decide
    refine ⟨linkRows (loadStores
          { initializeGrids { X1 with rowClass := [], bold := [] } with
            lastaAttrs := some a
            demogStore := demogRows a ct
            walkStore := walkRows a ct (szAsterisk a)
            bikeStore := bikeRows a ct (szAsterisk a)
            autoStore := autoRows a ct
            phsStore := phsRows a ct
            msStore := msRows a ct }), ?_, ?_, rfl⟩
    · simp only [displayDataForTown, populateDataStores, hct, Outcome.andThen, rehighlight]
      simp only [linkRows, loadStores, initializeGrids]
      simp only [hlen1, if_false]
    · simp only [displayDataForTown, populateDataStores, hct, Outcome.andThen, rehighlight]
      simp only [linkRows, loadStores, initializeGrids]
      simp only [hlen2, if_false, withTables, rowExists, State.grids, htt]
  · obtain ⟨d, hd, hlen⟩ := getTheme_of_mem _ h0
    have hpos : X1.selected_theme.length > 0 := Nat.pos_of_ne_zero hlen
    have e1 : (displayDataForTown a X1).andThen rehighlight =
        Outcome.done (setBold d.gridRowID (linkRows (loadStores
          { initializeGrids { X1 with rowClass := [], bold := [] } with
            lastaAttrs := some a
            demogStore := demogRows a ct
            walkStore := walkRows a ct (szAsterisk a)
            bikeStore := bikeRows a ct (szAsterisk a)
            autoStore := autoRows a ct
            phsStore := phsRows a ct
            msStore := msRows a ct }))) := by
      simp only [displayDataForTown, populateDataStores, hct, Outcome.andThen, rehighlight]
      have : (linkRows (loadStores
          { initializeGrids { X1 with rowClass := [], bold := [] } with
            lastaAttrs := some a
            demogStore := demogRows a ct
            walkStore := walkRows a ct (szAsterisk a)
            bikeStore := bikeRows a ct (szAsterisk a)
            autoStore := autoRows a ct
            phsStore := phsRows a ct
            msStore := msRows a ct })).selected_theme = X1.selected_theme := rfl
      simp only [linkRows, loadStores, initializeGrids] at this ⊢
      simp only [hpos, hd, if_true]
    have e2 : (displayDataForTown a X2).andThen rehighlight =
        Outcome.done (setBold d.gridRowID (linkRows (loadStores
          { initializeGrids { X2 with rowClass := [], bold := [] } with
            lastaAttrs := some a
            demogStore := demogRows a ct
            walkStore := walkRows a ct (szAsterisk a)
            bikeStore := bikeRows a ct (szAsterisk a)
            autoStore := autoRows a ct
            phsStore := phsRows a ct
            msStore := msRows a ct }))) := by
      simp only [displayDataForTown, populateDataStores, hct, Outcome.andThen, rehighlight]
      simp only [linkRows, loadStores, initializeGrids]
      simp only [hth, hpos, hd, if_true]
    refine ⟨_, e1, ?_, ?_⟩
    · rw [e2]
      congr 1
      simp only [setBold, linkRows, loadStores, initializeGrids, rowExists, State.grids, htt,
        withTables]
      split <;> rfl
    · simp only [setBold, linkRows, loadStores, initializeGrids, rowExists, State.grids,
        withTables]
      split <;> rfl

theorem unique_hit {α : Type} (m : α → Bool) (pre post : List α) (x : α) (hx : m x = true)
    (hpre : ∀ y ∈ pre, m y = false) (hpost : ∀ y ∈ post, m y = false) :
    (pre ++ x :: post).filter m = [x] ∧
    (pre ++ x :: post).filter (fun y => !m y) = pre ++ post ∧
    (pre ++ x :: post).eraseIdx pre.length = pre ++ post := by
  have h1 : pre.filter m = [] := List.filter_eq_nil_iff.mpr (fun y hy => by simp [hpre y hy])
  have h2 : post.filter m = [] := List.filter_eq_nil_iff.mpr (fun y hy => by simp [hpost y hy])
  have h3 : pre.filter (fun y => !m y) = pre :=
    List.filter_eq_self.mpr (fun y hy => by simp [hpre y hy])
  have h4 : post.filter (fun y => !m y) = post :=
    List.filter_eq_self.mpr (fun y hy => by simp [hpost y hy])
  refine ⟨?_, ?_, ?_⟩
  · simp [List.filter_append, List.filter_cons, hx, h1, h2]
  · simp [List.filter_append, List.filter_cons, hx, h3, h4]
  · rw [List.eraseIdx_append_of_length_le (le_refl _)]
    simp

/-- On a map bound to a catalog keyed by town number, the path of a town is
the only one whose id is the number of the town. -/
theorem only_hit (s : State) (k : Nat) (el : PathEl) (q : ℚ) (hk : Keyed s.data)
    (hs : Synced s) (hel : s.paths[k]? = some el) (hq : townId el.datum = some q) :
    s.paths.filter (fun e => numEq (elementIdNumber e.id) (some q)) = [el] ∧
    s.paths.filter (fun e => !numEq (elementIdNumber e.id) (some q)) = s.paths.eraseIdx k := by
  obtain ⟨pre, post, hsplit, hlen⟩ := split_at_index s.paths k el hel
  have hmem : el ∈ s.paths := List.getElem?_mem hel
  have hnd : ((pre ++ el :: post).map (fun e => townId e.datum)).Nodup := by
    have := hk.2
    rw [← hs.1, List.map_map, hsplit] at this
    exact this
  rw [List.map_append, List.map_cons] at hnd
  have hnotpre : ∀ e ∈ pre, townId e.datum ≠ some q := by
    intro e he hcon
    have h1 := (List.nodup_append.mp hnd).2.2
    exact h1 (List.mem_map.mpr ⟨e, he, hcon⟩) (by rw [hq]; exact List.mem_cons_self _ _)
  have hnotpost : ∀ e ∈ post, townId e.datum ≠ some q := by
    intro e he hcon
    have h1 := (List.nodup_cons.mp (List.nodup_append.mp hnd).2.1).1
    exact h1 (by rw [hq]; exact List.mem_map.mpr ⟨e, he, hcon⟩)
  have hid : ∀ e ∈ s.paths, elementIdNumber e.id = townId e.datum :=
    fun e he => hit_eq_of_synced s hk hs e he
  have hx : numEq (elementIdNumber el.id) (some q) = true := by
    rw [hid el hmem, hq]; simp [numEq]
  have hpre : ∀ e ∈ pre, numEq (elementIdNumber e.id) (some q) = false := by
    intro e he
    rw [hid e (by rw [hsplit]; exact List.mem_append_left _ he)]
    rw [Bool.eq_false_iff]
    intro hcon
    exact hnotpre e he ((numEq_true_iff _ _).mp hcon).1
  have hpost : ∀ e ∈ post, numEq (elementIdNumber e.id) (some q) = false := by
    intro e he
    rw [hid e (by rw [hsplit]; exact List.mem_append_right _ (List.mem_cons_of_mem _ he))]
    rw [Bool.eq_false_iff]
    intro hcon
    exact hnotpost e he ((numEq_true_iff _ _).mp hcon).1
  obtain ⟨u1, u2, u3⟩ := unique_hit (fun e => numEq (elementIdNumber e.id) (some q)) pre post el
    hx hpre hpost
  rw [hsplit, ← hlen]
  exact ⟨u1, u2.trans u3.symm⟩

theorem find_of_keyed (q : ℚ) (data : List Feature) (f : Feature) (hk : Keyed data)
    (hf : f ∈ data) (hq : townId f = some q) :
    data.find? (fun g => numEq (townId g) (some q)) = some f := by
  obtain ⟨pre, post, hsplit⟩ := List.append_of_mem hf
  have hnd := hk.2
  rw [hsplit, List.map_append, List.map_cons] at hnd
  have hnotpre : ∀ e ∈ pre, numEq (townId e) (some q) = false := by
    intro e he
    rw [Bool.eq_false_iff]
    intro hcon
    have h1 := (List.nodup_append.mp hnd).2.2
    exact h1 (List.mem_map.mpr ⟨e, he, ((numEq_true_iff _ _).mp hcon).1⟩)
      (by rw [hq]; exact List.mem_cons_self _ _)
  have hm : numEq (townId f) (some q) = true := by rw [hq]; simp [numEq]
  rw [hsplit, List.find?_append]
  have : pre.find? (fun g => numEq (townId g) (some q)) = none := by
    rw [List.find?_eq_none]
    intro x hx
    simp [hnotpre x hx]
  rw [this]
  simp [List.find?, hm]

theorem eraseIdx_map {α β : Type} (f : α → β) :
    ∀ (l : List α) (k : Nat), (l.map f).eraseIdx k = (l.eraseIdx k).map f := by
  intro l
  induction l with
  | nil => intro k; rfl
  | cons x xs ih =>
    intro k
    cases k with
    | zero => rfl
    | succ k => simp only [List.map_cons, List.eraseIdx_cons_succ, ih]

/-- C20 (as amended): on a map bound to a catalog keyed by town number, for a
town whose record names a community type with a profile, whose number is not 0
and is offered by the town dropdown, whose `TOWN` is a string and whose two
names agree in title case: a click on the path of the town and the choice of
the town in the dropdown both run to their end, and they leave the same page
but for the field `iSelectedTown`: the same dropdown value, cached town name,
stores, grids, emphasised row, outlines and order of the paths, and order of
`data`. -/
theorem click_equals_dropdown (s : State) (k : Nat) (el : PathEl) (q : ℚ) (town : String)
    (ct : Props) (hk : Keyed s.data) (hs : Synced s) (hel : s.paths[k]? = some el)
    (hq : townId el.datum = some q) (hq0 : q ≠ 0)
    (hopt : s.aMpoTowns.any (fun t => t.1 == q) = true)
    (htown : el.datum.properties.get "TOWN" = JSVal.string town)
    (hname : townTextFor s q = toTitleCase town)
    (hct : commTypeStatsAt (toNumber (el.datum.properties.get "COMMUNITY_TYPE")) = some ct)
    (h0 : s.selected_theme = "" ∨ s.selected_theme ∈ mapThemes) :
    ∃ sC sD, step (Action.clickTown k) s = Outcome.done sC ∧
      step (Action.selectTown (some q)) s = Outcome.done sD ∧
      sD = { sC with iSelectedTown := some q } ∧
      sC.selected_town = some q ∧ sC.town_text = toTitleCase town ∧
      sC.stores = storesFor el.datum.properties ct ∧
      sC.paths = (s.paths.eraseIdx k).map resetStroke ++ [highlight el] ∧
      sC.data = s.data.filter (fun f => !numEq (townId f) (some q)) ++ [el.datum] := by
  have hmem : el ∈ s.paths := List.getElem?_mem hel
  have hdat : el.datum ∈ s.data := by
    rw [← hs.1]; exact List.mem_map_of_mem _ hmem
  have hid : elementIdNumber el.id = some q := by
    rw [hit_eq_of_synced s hk hs el hmem, hq]
  have hnum : toNumber (el.datum.properties.get "TOWN_ID") = some q := hq
  obtain ⟨hit1, hit2⟩ := only_hit s k el q hk hs hel hq
  -- the three pages the handlers work on
  have hsel : setSelectedTown { s with paths := s.paths.map resetStroke } (some q) =
      { s with paths := s.paths.map resetStroke, selected_town := some q } := by
    simp only [setSelectedTown, Option.some_bind, hopt, if_true]
  have hclick : step (Action.clickTown k) s =
      getDataForTown (el.datum.properties.get "TOWN_ID")
        { s with
          selected_town := some q
          town_text := toTitleCase town
          paths := (s.paths.map resetStroke).eraseIdx k ++ [highlight (resetStroke el)]
          data := moveToLast (some q) s.data } := by
    simp only [step, clickTown, hel, htown, hnum, hsel, hid]
  have hdrop : step (Action.selectTown (some q)) s =
      (getDataForTown (JSVal.number q)
        { s with selected_town := some q, iSelectedTown := some q,
                 town_text := toTitleCase town }).andThen
        (fun s => Outcome.done (eachTown q s)) := by
    simp only [step, renderMapAndDataForTown, if_neg hq0]
    unfold townTextFor at hname
    cases hf : s.aMpoTowns.find? (fun t => t.1 == q) with
    | none =>
      rw [hf] at hname
      have hname' : s.town_text = toTitleCase town := hname
      simp only
      rw [← hname']
    | some t =>
      rw [hf] at hname
      have hname' : toTitleCase t.2 = toTitleCase town := hname
      simp only
      rw [hname']
  -- the record both handlers display
  have hfindD : s.data.find? (fun g => numEq (townId g) (some q)) = some el.datum :=
    find_of_keyed q s.data el.datum hk hdat hq
  have hfindC : (moveToLast (some q) s.data).find? (fun g => numEq (townId g) (some q)) =
      some el.datum := find_moveToLast q s.data el.datum hk hdat hq
  obtain ⟨s1, hD, hC, hs1⟩ := tables_transfer el.datum.properties ct
    { s with selected_town := some q, iSelectedTown := some q, town_text := toTitleCase town }
    { s with
      selected_town := some q
      town_text := toTitleCase town
      paths := (s.paths.map resetStroke).eraseIdx k ++ [highlight (resetStroke el)]
      data := moveToLast (some q) s.data } rfl rfl hct h0
  have hgC : step (Action.clickTown k) s = Outcome.done (withTables
      { s with
        selected_town := some q
        town_text := toTitleCase town
        paths := (s.paths.map resetStroke).eraseIdx k ++ [highlight (resetStroke el)]
        data := moveToLast (some q) s.data } s1) := by
    rw [hclick, ← hC]
    simp only [getDataForTown, hnum, hfindC]
  have hgD : step (Action.selectTown (some q)) s = Outcome.done (eachTown q s1) := by
    rw [hdrop]
    have : getDataForTown (JSVal.number q)
        { s with selected_town := some q, iSelectedTown := some q,
                 town_text := toTitleCase town } = Outcome.done s1 := by
      rw [← hD]
      have hn : toNumber (JSVal.number q) = some q := rfl
      simp only [getDataForTown, hn, hfindD]
    rw [this]
    rfl
  have hmove : moveToLast (some q) s.data =
      s.data.filter (fun f => !numEq (townId f) (some q)) ++ [el.datum] := by
    rw [moveToLast_partition (some q) s.data (filter_numEq_length_le_one (some q) s.data hk.2)]
    congr 1
    have hlen := filter_numEq_length_le_one (some q) s.data hk.2
    have hin : el.datum ∈ s.data.filter (fun f => numEq (townId f) (some q)) :=
      List.mem_filter.mpr ⟨hdat, by rw [hq]; simp [numEq]⟩
    cases hl : s.data.filter (fun f => numEq (townId f) (some q)) with
    | nil => rw [hl] at hin; simp at hin
    | cons x xs =>
      rw [hl] at hlen hin
      cases xs with
      | nil => rw [List.mem_singleton.mp hin]
      | cons _ _ => simp at hlen
  have hpathsC : (s.paths.map resetStroke).eraseIdx k ++ [highlight (resetStroke el)] =
      (s.paths.eraseIdx k).map resetStroke ++ [highlight el] := by
    rw [eraseIdx_map]
    rfl
  have heach : eachTown q s1 =
      { withTables
          { s with
            selected_town := some q
            town_text := toTitleCase town
            paths := (s.paths.map resetStroke).eraseIdx k ++ [highlight (resetStroke el)]
            data := moveToLast (some q) s.data } s1 with iSelectedTown := some q } := by
    have e1 : eachTown q s1 = eachTown q (withTables
        { s with selected_town := some q, iSelectedTown := some q,
                 town_text := toTitleCase town } s1) := congrArg (eachTown q) hs1
    rw [e1]
    simp only [eachTown, withTables, hit1, hit2, List.map_cons, List.map_nil, List.foldl_cons,
      List.foldl_nil, hid, hpathsC]
  refine ⟨_, _, hgC, hgD, heach, rfl, rfl, ?_, hpathsC, hmove⟩
  have hst := congrArg State.stores hs1
  obtain ⟨s1', hd1, hst1, _⟩ := display_done el.datum.properties ct
    { s with selected_town := some q, iSelectedTown := some q, town_text := toTitleCase town } hct
  rw [hd1] at hD
  simp only [Outcome.andThen] at hD
  rcases rehighlight_cases s1' with h | ⟨sel, h⟩ | h
  · rw [h] at hD; cases hD; exact hst1
  · rw [h] at hD; cases hD; rw [← hst1, setBold_eq]; rfl
  · rw [h] at hD; cases hD

/-- Witness for C20 (as amended): town 1 of the sample catalog, clicked on the
map or chosen in the dropdown. -/
theorem click_equals_dropdown_witness :
    sampleState.paths[0]? = some (newPath ⟨"M0,0L1,0L1,1Z", sampleRows.getD 0 []⟩) ∧
    townTextFor sampleState 1 = toTitleCase "ACTON" ∧
    ∃ sC sD, step (Action.clickTown 0) sampleState = Outcome.done sC ∧
      step (Action.selectTown (some 1)) sampleState = Outcome.done sD ∧
      sD = { sC with iSelectedTown := some 1 } ∧
      sC.paths.map (fun e => (e.d, e.stroke, e.strokeWidth)) =
        [("M1,0L2,0L2,1Z", "#000", "1px"), ("M2,0L3,0L3,1Z", "#000", "1px"),
         ("M0,0L1,0L1,1Z", "#ff0000", "4px")] := by
  obtain ⟨sC, sD, h1, h2, h3, _, _, _, h7, _⟩ := click_equals_dropdown sampleState 0
    (newPath ⟨"M0,0L1,0L1,1Z", sampleRows.getD 0 []⟩) 1 "ACTON" (commTypeStats.getD 3 [])
    (by unfold Keyed; decide!) (loadedState_inv _ _ _ _ _).1 (by decide!) (by decide!)
    (by decide!) (by decide!) (by decide!) (by decide!) (by decide!) (by decide!)
  refine ⟨by decide!, by decide!, sC, sD, h1, h2, h3, ?_⟩
  rw [h7]
  decide!

/-- Counterexample to C20 as stated, on the sample page.  A click on the path
of town 1 leaves `iSelectedTown` unset while the choice of town 1 in the
dropdown sets it to 1.  Town 3 has no indicator row, so that displaying it
throws: a click on its path has outlined it and moved it to the end of `data`
by then, while the choice of town 3 in the dropdown leaves every outline and
the order of `data` as they were. -/
theorem click_differs_from_dropdown :
    (step (Action.clickTown 0) sampleState).state.iSelectedTown = none ∧
    (step (Action.selectTown (some 1)) sampleState).state.iSelectedTown = some 1 ∧
    (run [Action.clickTown 0] sampleState).paths.map (fun e => (e.d, e.strokeWidth)) =
      [("M1,0L2,0L2,1Z", "1px"), ("M2,0L3,0L3,1Z", "1px"), ("M0,0L1,0L1,1Z", "4px")] ∧
    (step (Action.clickTown 1) (run [Action.clickTown 0] sampleState)).state.paths.map
        (fun e => (e.d, e.strokeWidth)) =
      [("M1,0L2,0L2,1Z", "1px"), ("M0,0L1,0L1,1Z", "1px"), ("M2,0L3,0L3,1Z", "4px")] ∧
    (step (Action.selectTown (some 3)) (run [Action.clickTown 0] sampleState)).state.paths.map
        (fun e => (e.d, e.strokeWidth)) =
      [("M1,0L2,0L2,1Z", "1px"), ("M2,0L3,0L3,1Z", "1px"), ("M0,0L1,0L1,1Z", "4px")] ∧
    (step (Action.clickTown 1) (run [Action.clickTown 0] sampleState)).state.data.map townId =
      [some 2, some 1, some 3] ∧
    (step (Action.selectTown (some 3)) (run [Action.clickTown 0] sampleState)).state.data.map
        townId = [some 2, some 3, some 1] := by
  decide!

/-! ### Registry, reference data and the two guards -/

theorem getDataForTown_not_alerted (iTownId : JSVal) (s : State) (msg : String) (s' : State) :
    getDataForTown iTownId s ≠ Outcome.alerted msg s' := by
  unfold getDataForTown
  cases s.data.find? (fun f => numEq (townId f) (toNumber iTownId)) with
  | none =>
    simp only
    rcases rehighlight_cases s with h | ⟨sel, h⟩ | h <;> rw [h] <;> simp
  | some f =>
    simp only
    rcases display_frame f.properties s with ⟨t, h⟩ | ⟨t, h⟩
    · rw [h]
      simp only [Outcome.andThen]
      rcases rehighlight_cases (withTables s t) with h | ⟨sel, h⟩ | h <;> rw [h] <;> simp
    · rw [h]
      simp [Outcome.andThen]

theorem andThen_eachTown_frame (o : Outcome) (q : ℚ) :
    (o.andThen (fun s => Outcome.done (eachTown q s))).state.iSelectedTown =
      o.state.iSelectedTown ∧
    (∀ msg s', o.andThen (fun s => Outcome.done (eachTown q s)) = Outcome.alerted msg s' →
      o = Outcome.alerted msg s') := by
  cases o with
  | done s => exact ⟨rfl, fun msg s' h => by simp [Outcome.andThen] at h⟩
  | alerted m s => exact ⟨rfl, fun msg s' h => h⟩
  | threw s => exact ⟨rfl, fun msg s' h => by simp [Outcome.andThen] at h⟩

theorem renderMap_accepts (s : State) (q : ℚ) (hq : q ≠ 0) (hsel : s.selected_town = some q) :
    (renderMapAndDataForTown s).state.iSelectedTown = some q ∧
    ∀ msg s', renderMapAndDataForTown s ≠ Outcome.alerted msg s' := by
  have key : ∀ X : State, X.iSelectedTown = some q →
      ((getDataForTown (JSVal.number q) X).andThen
        (fun s => Outcome.done (eachTown q s))).state.iSelectedTown = some q ∧
      ∀ msg s', (getDataForTown (JSVal.number q) X).andThen
        (fun s => Outcome.done (eachTown q s)) ≠ Outcome.alerted msg s' := by
    intro X hX
    obtain ⟨h1, h2⟩ := andThen_eachTown_frame (getDataForTown (JSVal.number q) X) q
    obtain ⟨t, ht⟩ := getDataForTown_frame (JSVal.number q) X
    refine ⟨?_, fun msg s' h => getDataForTown_not_alerted _ _ _ _ (h2 msg s' h)⟩
    rw [h1, ht]
    exact hX
  unfold renderMapAndDataForTown
  rw [hsel]
  simp only [if_neg hq]
  cases s.aMpoTowns.find? (fun t => t.1 == q) with
  | none => exact key _ rfl
  | some t => exact key _ rfl

/-- C26: `renderMapAndDataForTown` shows its alert exactly when the number the
town dropdown converts to is `NaN` or 0, and it then returns with the page as
it was (`iSelectedTown`, `town_text`, the tables and the outlines included);
for every other number `q`, a negative one included, no alert is shown and
`iSelectedTown` is `q` when the handler stops. -/
theorem rejects_iff_zero_or_nan (s : State) :
    ((∃ msg s', renderMapAndDataForTown s = Outcome.alerted msg s') ↔
      (s.selected_town = none ∨ s.selected_town = some 0)) ∧
    (∀ msg s', renderMapAndDataForTown s = Outcome.alerted msg s' → s' = s) ∧
    (∀ q, s.selected_town = some q → q ≠ 0 →
      (renderMapAndDataForTown s).state.iSelectedTown = some q) := by
  cases hsel : s.selected_town with
  | none =>
    have h : renderMapAndDataForTown s = Outcome.alerted
        "No city or town selected. Please try selecting a theme again from either the dropdown or the map." s := by
      unfold renderMapAndDataForTown; rw [hsel]
    refine ⟨⟨fun _ => Or.inl rfl, fun _ => ⟨_, _, h⟩⟩, ?_, ?_⟩
    · intro msg s' h'
      rw [h] at h'
      cases h'; rfl
    · intro q hq; cases hq
  | some q =>
    by_cases hq : q = 0
    · have h : renderMapAndDataForTown s = Outcome.alerted
          "No city or town selected. Please try selecting a theme again from either the dropdown or the map." s := by
        unfold renderMapAndDataForTown; rw [hsel]; simp only [if_pos hq]
      refine ⟨⟨fun _ => Or.inr (by rw [hq]), fun _ => ⟨_, _, h⟩⟩, ?_, ?_⟩
      · intro msg s' h'
        rw [h] at h'
        cases h'; rfl
      · intro q' hq' hne
        cases hq'
        exact absurd hq hne
    · obtain ⟨h1, h2⟩ := renderMap_accepts s q hq hsel
      refine ⟨⟨fun ⟨msg, s', h⟩ => absurd h (h2 msg s'), ?_⟩, ?_, ?_⟩
      · rintro (h | h)
        · cases h
        · cases h; exact absurd rfl hq
      · intro msg s' h
        exact absurd h (h2 msg s')
      · intro q' hq' _
        cases hq'
        exact h1

/-- Witness for C26: the values `NaN`, 0 and -5 in the town dropdown of the
sample page. -/
theorem rejects_iff_zero_or_nan_witness :
    (∃ msg, renderMapAndDataForTown { sampleState with selected_town := none } =
      Outcome.alerted msg { sampleState with selected_town := none }) ∧
    (∃ msg, renderMapAndDataForTown sampleState = Outcome.alerted msg sampleState) ∧
    (renderMapAndDataForTown { sampleState with selected_town := some (-5) }).state.iSelectedTown =
      some (-5) := by
  obtain ⟨⟨_, a1⟩, a2, _⟩ := rejects_iff_zero_or_nan { sampleState with selected_town := none }
  obtain ⟨⟨_, b1⟩, b2, _⟩ := rejects_iff_zero_or_nan sampleState
  obtain ⟨_, _, c3⟩ := rejects_iff_zero_or_nan { sampleState with selected_town := some (-5) }
  refine ⟨?_, ?_, c3 (-5) rfl (by decide!)⟩
  · obtain ⟨msg, s', h⟩ := a1 (Or.inl rfl)
    have := a2 msg s' h
    exact ⟨msg, by rw [h, this]⟩
  · obtain ⟨msg, s', h⟩ := b1 (Or.inr (by decide!))
    have := b2 msg s' h
    exact ⟨msg, by rw [h, this]⟩

theorem renderTheme_not_threw (s s' : State) : renderTheme s ≠ Outcome.threw s' := by
  unfold renderTheme
  by_cases hc : mapThemes.contains s.selected_theme = true
  · obtain ⟨d, hd, _⟩ := getTheme_of_mem _ ((contains_mapThemes _).mp hc)
    simp only [hc, if_true, hd]
    intro h; cases h
  · simp only [hc]
    intro h; cases h

/-- C28: `mapThemes` lists 15 identifiers without repetition, they are the keys
of `mapThemesDict` (in the same order), so that an identifier is in the list
exactly when the registry has a descriptor for it; hence neither `renderTheme`
nor the click handler of the tables, which read the descriptor after their
membership check, ever stops on a missing descriptor. -/
theorem themes_agree_with_registry :
    mapThemes.length = 15 ∧ mapThemes.Nodup ∧ mapThemesDict.map Prod.fst = mapThemes ∧
    (∀ t, mapThemes.contains t = true ↔ (getTheme t).isSome = true) ∧
    (∀ s s', renderTheme s ≠ Outcome.threw s') ∧
    (∀ scope className s s', tableClicked scope className s ≠ Outcome.threw s') := by
  refine ⟨by decide!, by decide!, mapThemesDict_keys, ?_, renderTheme_not_threw, ?_⟩
  · intro t
    constructor
    · intro h
      obtain ⟨d, hd, _⟩ := getTheme_of_mem t ((contains_mapThemes t).mp h)
      rw [hd]; rfl
    · intro h
      by_contra hc
      have hn : t ∉ mapThemes := fun hm => hc ((contains_mapThemes t).mpr hm)
      rw [getTheme_eq_none_of_not_mem t hn] at h
      cases h
  · intro scope className s s'
    unfold tableClicked
    split
    · split
      · exact renderTheme_not_threw _ _
      · intro h; cases h
    · intro h; cases h

/-- Witness for C28: the identifier `VMT_PER_HH` passes the membership check and
has its descriptor; `renderTheme` runs to its end for it. -/
theorem themes_agree_with_registry_witness :
    mapThemes.contains "VMT_PER_HH" = true ∧
    (getTheme "VMT_PER_HH").map (fun d => d.gridRowID) = some "#auto_table_r_2" ∧
    ∃ s', renderTheme { sampleState with selected_theme := "VMT_PER_HH" } = Outcome.done s' := by
  obtain ⟨_, _, _, h4, h5, _⟩ := themes_agree_with_registry
  have hsome := (h4 "VMT_PER_HH").mp (by decide!)
  refine ⟨by decide!, by decide!, ?_⟩
  have hne := h5 { sampleState with selected_theme := "VMT_PER_HH" }
  cases hr : renderTheme { sampleState with selected_theme := "VMT_PER_HH" } with
  | done s' => exact ⟨s', rfl⟩
  | alerted msg s' =>
    exfalso
    have : mapThemes.contains "VMT_PER_HH" = true := by decide!
    simp only [renderTheme, this, if_true] at hr
    split at hr <;> cases hr
  | threw s' => exact absurd hr (hne s')

theorem profiles_numeric :
    ∀ p ∈ regionStats :: commTypeStats.tail, ∀ t ∈ tableLayout, ∀ c ∈ t.cells,
      (match p.get c.avgKey with
        | JSVal.number _ => true
        | _ => false) = true := by
  decide!

theorem number_of_match (v : JSVal)
    (h : (match v with
      | JSVal.number _ => true
      | _ => false) = true) : ∃ x, v = JSVal.number x := by
  cases v with
  | number x => exact ⟨x, rfl⟩
  | undefined => cases h
  | string _ => cases h

theorem commTypeStatsAt_profile (q : ℚ) (hq : q ∈ [(1 : ℚ), 2, 3, 4]) :
    ∃ ct, commTypeStatsAt (some q) = some ct ∧ ct ∈ commTypeStats.tail := by
  simp only [List.mem_cons, List.mem_singleton, List.not_mem_nil, or_false] at hq
  rcases hq with h | h | h | h <;> subst h
  · exact ⟨commTypeStats.getD 1 [], by decide!, by decide!⟩
  · exact ⟨commTypeStats.getD 2 [], by decide!, by decide!⟩
  · exact ⟨commTypeStats.getD 3 [], by decide!, by decide!⟩
  · exact ⟨commTypeStats.getD 4 [], by decide!, by decide!⟩

/-- C27: the rows of the six tables read 21 different keys of the profiles; the
regional profile and the community-type profiles 1 to 4 hold a number under each
of them, and profile 0 is the empty object.  Hence for a record whose
`COMMUNITY_TYPE` converts to 1, 2, 3 or 4, `populateDataStores` finds the
profile, runs to its end, and the community-type and regional cells of every
row are printed from a number. -/
theorem reference_data_complete :
    ((tableLayout.flatMap (fun t => t.cells)).map (fun c => c.avgKey)).dedup.length = 21 ∧
    commTypeStats.length = 5 ∧ commTypeStats[0]? = some [] ∧
    (∀ p ∈ regionStats :: commTypeStats.tail, ∀ t ∈ tableLayout, ∀ c ∈ t.cells,
      ∃ x, p.get c.avgKey = JSVal.number x) ∧
    (∀ (a : Props) (s : State) (q : ℚ), toNumber (a.get "COMMUNITY_TYPE") = some q →
      q ∈ [(1 : ℚ), 2, 3, 4] →
      ∃ ct s', commTypeStatsAt (some q) = some ct ∧
        populateDataStores a s = Outcome.done s' ∧ s'.stores = layoutStores a ct ∧
        ∀ t ∈ tableLayout, ∀ c ∈ t.cells,
          ∃ x y, ct.get c.avgKey = JSVal.number x ∧ regionStats.get c.avgKey = JSVal.number y) := by
  have hnum : ∀ p ∈ regionStats :: commTypeStats.tail, ∀ t ∈ tableLayout, ∀ c ∈ t.cells,
      ∃ x, p.get c.avgKey = JSVal.number x :=
    fun p hp t ht c hc => number_of_match _ (profiles_numeric p hp t ht c hc)
  refine ⟨by decide!, by decide!, by decide!, hnum, ?_⟩
  intro a s q hq hmem
  obtain ⟨ct, hct, hin⟩ := commTypeStatsAt_profile q hmem
  obtain ⟨s', hdone, hst, _⟩ := populate_of_profile a ct s (by rw [hq]; exact hct)
  refine ⟨ct, s', hct, hdone, ?_, ?_⟩
  · rw [hst, storesFor_eq_layout]
  · intro t ht c hc
    obtain ⟨x, hx⟩ := hnum ct (List.mem_cons_of_mem _ hin) t ht c hc
    obtain ⟨y, hy⟩ := hnum regionStats (List.mem_cons_self _ _) t ht c hc
    exact ⟨x, y, hx, hy⟩

/-- Witness for C27: the record of town 1 of the sample catalog, of community
type 3; the rows of the walking table show the averages of profile 3 and of
the region. -/
theorem reference_data_complete_witness :
    toNumber ((sampleRows.getD 0 []).get "COMMUNITY_TYPE") = some 3 ∧
    ∃ ct s', populateDataStores (sampleRows.getD 0 []) sampleState = Outcome.done s' ∧
      s'.stores = layoutStores (sampleRows.getD 0 []) ct ∧
      ((layoutStores (sampleRows.getD 0 []) ct).getD 1 []).map (fun r => (r.commtype, r.reg)) =
        [("41.5", "55.4"), ("40%", "50%"), ("7.7%", "14.8%")] := by
  obtain ⟨_, _, _, _, h⟩ := reference_data_complete
  obtain ⟨ct, s', hct, hdone, hst, _⟩ := h (sampleRows.getD 0 []) sampleState 3 (by decide!)
    (by decide!)
  refine ⟨by decide!, ct, s', hdone, hst, ?_⟩
  have : ct = commTypeStats.getD 3 [] := by
    have h3 : commTypeStatsAt (some 3) = some (commTypeStats.getD 3 []) := by decide!
    rw [h3] at hct
    cases hct; rfl
  rw [this]
  decide!

/-- C21: for a registered theme `t`, a click on a table row of class `t` and the
choice of `t` in the theme dropdown both run to their end and leave the theme
dropdown on `t`, the same paths (each filled by the scale of `t` from the datum
bound to it), the same legend entries, title, pointer text and alternative
texts, and the same bold row; the two pages differ only in the tab the dropdown
handler opens. -/
theorem table_click_equals_selectTheme (s : State) (t : String) (ht : t ∈ mapThemes) :
    ∃ sC sD, step (Action.clickTable "row" t) s = Outcome.done sC ∧
      step (Action.selectTheme t) s = Outcome.done sD ∧
      sD = { sC with activeTab := (themeOf t).tabSwitchID } ∧
      sC.activeTab = s.activeTab ∧
      sC.selected_theme = t ∧ sD.selected_theme = t ∧
      sC.paths = colorMap (themeOf t) t s.paths s.data ∧ sD.paths = sC.paths ∧
      sC.legend = colorLegend (themeOf t) s.legend ∧ sD.legend = sC.legend ∧
      sC.legendTitle = (themeOf t).themeName ∧ sD.legendTitle = sC.legendTitle ∧
      sC.bold = (if rowExists s (themeOf t).gridRowID then [(themeOf t).gridRowID] else []) ∧
      sD.bold = sC.bold := by
  obtain ⟨d, hd, hlen⟩ := getTheme_of_mem t ht
  have hc : mapThemes.contains t = true := (contains_mapThemes t).mpr ht
  have hC : step (Action.clickTable "row" t) s =
      Outcome.done (applyTheme d t { s with selected_theme := t }) := by
    simp only [step, tableClicked, if_true, hc, renderTheme, hd]
  have hrel : applyTheme d t { s with selected_theme := t, activeTab := d.tabSwitchID } =
      { applyTheme d t { s with selected_theme := t } with activeTab := d.tabSwitchID } := by
    simp only [applyTheme, setBold, rowExists, State.grids]
    split <;> rfl
  have hform : applyTheme d t { s with selected_theme := t } =
      { s with
        selected_theme := t
        paths := colorMap d t s.paths s.data
        mapAlt := d.mapAltText
        legend := colorLegend d s.legend
        legendTitle := d.themeName
        pointer := d.pointerText
        legendAlt := d.legendAltText
        bold := if rowExists s d.gridRowID then [d.gridRowID] else [] } := by
    simp only [applyTheme, setBold, rowExists, State.grids]
    split <;> simp
  rw [themeOf_eq t d hd]
  refine ⟨_, _, hC, step_selectTheme s t d hd hlen hc, hrel, ?_, ?_, ?_, ?_, ?_, ?_, ?_, ?_, ?_,
    ?_, ?_⟩
  all_goals first
    | (rw [hrel])
    | skip
  all_goals rw [hform]

/-- Witness for C21: the row of the population density clicked, or the theme
chosen in the dropdown, while town 1 of the sample catalog is displayed. -/
theorem table_click_equals_selectTheme_witness :
    "POP_DENSITY" ∈ mapThemes ∧
    ∃ sC sD, step (Action.clickTable "row" "POP_DENSITY")
        (run [Action.selectTown (some 1)] sampleState) = Outcome.done sC ∧
      step (Action.selectTheme "POP_DENSITY")
        (run [Action.selectTown (some 1)] sampleState) = Outcome.done sD ∧
      sD = { sC with activeTab := "#demog" } ∧
      sC.bold = ["#demog_table_r_2"] ∧
      sC.paths.map (fun e => (e.d, e.fill)) =
        [("M1,0L2,0L2,1Z", some "#595691"), ("M2,0L3,0L3,1Z", none),
         ("M0,0L1,0L1,1Z", some "#e6e5fe")] := by
  obtain ⟨sC, sD, h1, h2, h3, _, _, _, h7, _, _, _, _, _, h13, _⟩ :=
    table_click_equals_selectTheme (run [Action.selectTown (some 1)] sampleState) "POP_DENSITY"
      (by decide!)
  refine ⟨by decide!, sC, sD, h1, h2, ?_, ?_, ?_⟩
  · rw [h3]; rfl
  · rw [h13]; decide!
  · rw [h7]; decide!

/-- C23: when no entry of `data` has the number of `iTownId` as its `TOWN_ID`
(in particular while `data` is still empty), `getDataForTown` displays nothing:
whatever the theme dropdown shows, the six stores, the six grids, the cached
record and the row classes stay as they were and no alert is shown; and with no
theme or a registered theme in the theme dropdown the call runs to its end,
changing at most which row is bold. -/
theorem lookup_not_found_is_normal (iTownId : JSVal) (s : State)
    (hno : ∀ f ∈ s.data, numEq (townId f) (toNumber iTownId) = false) :
    (getDataForTown iTownId s).state.stores = s.stores ∧
    (getDataForTown iTownId s).state.grids = s.grids ∧
    (getDataForTown iTownId s).state.lastaAttrs = s.lastaAttrs ∧
    (getDataForTown iTownId s).state.rowClass = s.rowClass ∧
    (∀ msg s', getDataForTown iTownId s ≠ Outcome.alerted msg s') ∧
    ((s.selected_theme = "" ∨ s.selected_theme ∈ mapThemes) →
      ∃ s', getDataForTown iTownId s = Outcome.done s' ∧ s' = { s with bold := s'.bold } ∧
        s'.stores = s.stores) := by
  have hfind : s.data.find? (fun f => numEq (townId f) (toNumber iTownId)) = none := by
    rw [List.find?_eq_none]
    intro f hf
    rw [hno f hf]
    simp
  have hg := getDataForTown_not_found iTownId s hfind
  have hcases := rehighlight_cases s
  refine ⟨?_, ?_, ?_, ?_, fun msg s' => getDataForTown_not_alerted _ _ _ _, ?_⟩
  · rw [hg]
    rcases hcases with h | ⟨sel, h⟩ | h
    · rw [h]; rfl
    · rw [h, setBold_eq]; rfl
    · rw [h]; rfl
  · rw [hg]
    rcases hcases with h | ⟨sel, h⟩ | h
    · rw [h]; rfl
    · rw [h, setBold_eq]; rfl
    · rw [h]; rfl
  · rw [hg]
    rcases hcases with h | ⟨sel, h⟩ | h
    · rw [h]; rfl
    · rw [h, setBold_eq]; rfl
    · rw [h]; rfl
  · rw [hg]
    rcases hcases with h | ⟨sel, h⟩ | h
    · rw [h]; rfl
    · rw [h, setBold_eq]; rfl
    · rw [h]; rfl
  · intro h0
    rw [hg]
    rcases h0 with h0 | h0
    · refine ⟨s, ?_, rfl, rfl⟩
      simp [rehighlight, h0]
    · obtain ⟨d, hd, hlen⟩ := getTheme_of_mem _ h0
      have hpos : s.selected_theme.length > 0 := Nat.pos_of_ne_zero hlen
      refine ⟨setBold d.gridRowID s, ?_, setBold_eq _ _, ?_⟩
      · simp only [rehighlight, hpos, hd, if_true]
      · rw [setBold_eq]; rfl

/-- Witness for C23: the number 5 looked up before the data have arrived, and
the number 99 looked up in the sample catalog while town 1 is displayed and the
theme `POP_DENSITY` is shown. -/
theorem lookup_not_found_is_normal_witness :
    (startState sampleMpoTowns (some 0) "").data = [] ∧
    getDataForTown (JSVal.number 5) (startState sampleMpoTowns (some 0) "") =
      Outcome.done (startState sampleMpoTowns (some 0) "") ∧
    (∃ s', getDataForTown (JSVal.number 99)
        (run [Action.selectTown (some 1), Action.selectTheme "POP_DENSITY"] sampleState) =
          Outcome.done s' ∧
      s'.stores =
        (run [Action.selectTown (some 1), Action.selectTheme "POP_DENSITY"] sampleState).stores) ∧
    (run [Action.selectTown (some 1), Action.selectTheme "POP_DENSITY"] sampleState).stores.map
      List.length = [5, 3, 4, 4, 2, 7] := by
  obtain ⟨_, _, _, _, _, a⟩ := lookup_not_found_is_normal (JSVal.number 5)
    (startState sampleMpoTowns (some 0) "") (by decide!)
  obtain ⟨_, _, _, _, _, b⟩ := lookup_not_found_is_normal (JSVal.number 99)
    (run [Action.selectTown (some 1), Action.selectTheme "POP_DENSITY"] sampleState) (by decide!)
  obtain ⟨s1, h1, h2, _⟩ := a (Or.inl rfl)
  obtain ⟨s2, h3, _, h4⟩ := b (Or.inr (by decide!))
  refine ⟨rfl, ?_, ⟨s2, h3, h4⟩, by decide!⟩
  rw [h1]
  congr 1
  rw [h2]
  have : s1.bold = [] := by
    have := congrArg (fun o => o.state.bold) h1
    simp only [Outcome.state] at this
    rw [← this]
    decide!
  rw [this]
  rfl

/-! ### The order of `data` and of the paths -/

theorem reachable_inv (aMpoTowns : List (ℚ × String)) (towns : List Feature)
    (lcData : List Props) (town0 : Option ℚ) (theme0 : String) (actions : List Action)
    (hkey : Keyed towns) :
    Keyed (run actions (loadedState aMpoTowns towns lcData town0 theme0)).data ∧
    Synced (run actions (loadedState aMpoTowns towns lcData town0 theme0)) ∧
    (run actions (loadedState aMpoTowns towns lcData town0 theme0)).data.Perm
      (build towns lcData) := by
  obtain ⟨hs0, hd0⟩ := loadedState_inv aMpoTowns towns lcData town0 theme0
  have hk0 : Keyed (loadedState aMpoTowns towns lcData town0 theme0).data := by
    rw [hd0]; exact keyed_build towns lcData hkey
  obtain ⟨hs, hp⟩ := run_inv actions _ hk0 hs0
  exact ⟨keyed_perm hp hk0, hs, hd0 ▸ hp⟩

/-- C25: for a catalog whose town ids are numbers and pairwise distinct, after
the load and after any sequence of actions (clicks on the map, choices in the
two dropdowns, clicks on the tables), the `TOWN_ID`s of `data` in array order
are the ids of the paths in document order, each path is bound to the entry of
`data` at its position, and that entry is the town the path was created for
(its id and its outline are those of the entry); hence the rebinding by
position in `colorMap` leaves every datum in place and fills each path from the
value of its own town. -/
theorem data_order_is_path_order (aMpoTowns : List (ℚ × String)) (towns : List Feature)
    (lcData : List Props) (town0 : Option ℚ) (theme0 : String) (actions : List Action)
    (d : ThemeDescriptor) (t : String) (hkey : Keyed towns) :
    (run actions (loadedState aMpoTowns towns lcData town0 theme0)).data.map
        (fun f => f.properties.get "TOWN_ID") =
      (run actions (loadedState aMpoTowns towns lcData town0 theme0)).paths.map (fun el => el.id) ∧
    (run actions (loadedState aMpoTowns towns lcData town0 theme0)).data.map
        (fun f => f.geometry) =
      (run actions (loadedState aMpoTowns towns lcData town0 theme0)).paths.map (fun el => el.d) ∧
    (run actions (loadedState aMpoTowns towns lcData town0 theme0)).paths.map
        (fun el => el.datum) =
      (run actions (loadedState aMpoTowns towns lcData town0 theme0)).data ∧
    (run actions (loadedState aMpoTowns towns lcData town0 theme0)).data.Perm
      (build towns lcData) ∧
    colorMap d t (run actions (loadedState aMpoTowns towns lcData town0 theme0)).paths
        (run actions (loadedState aMpoTowns towns lcData town0 theme0)).data =
      (run actions (loadedState aMpoTowns towns lcData town0 theme0)).paths.map (fun el =>
        { el with fill := pathcolor d (el.datum.properties.get t), opacity := some "0.7" }) := by
  obtain ⟨_, hs, hp⟩ := reachable_inv aMpoTowns towns lcData town0 theme0 actions hkey
  refine ⟨?_, ?_, hs.1, hp, colorMap_synced d t _ hs⟩
  · rw [← hs.1, List.map_map]
    apply List.map_congr_left
    intro el hel
    exact (hs.2 el hel).1.symm
  · rw [← hs.1, List.map_map]
    apply List.map_congr_left
    intro el hel
    exact (hs.2 el hel).2.symm

/-- Witness for C25: the sample catalog after a click on the first path and
the choice of town 2 in the dropdown. -/
theorem data_order_is_path_order_witness :
    Keyed sampleTowns ∧
    (run [Action.clickTown 0, Action.selectTown (some 2)] sampleState).data.map
        (fun f => f.properties.get "TOWN_ID") =
      (run [Action.clickTown 0, Action.selectTown (some 2)] sampleState).paths.map
        (fun el => el.id) ∧
    (run [Action.clickTown 0, Action.selectTown (some 2)] sampleState).data.map townId =
      [some 3, some 1, some 2] ∧
    (run [Action.clickTown 0, Action.selectTown (some 2)] sampleState).paths.map (fun el => el.d) =
      ["M2,0L3,0L3,1Z", "M0,0L1,0L1,1Z", "M1,0L2,0L2,1Z"] := by
  have hk : Keyed sampleTowns := by unfold Keyed; decide!
  obtain ⟨h1, _⟩ := data_order_is_path_order sampleMpoTowns sampleTowns sampleRows (some 0) ""
    [Action.clickTown 0, Action.selectTown (some 2)] (themeOf "POP_DENSITY") "POP_DENSITY" hk
  exact ⟨hk, h1, by decide!, by decide!⟩

/-! ### Outline and order of `data` after a selection -/

theorem moveToLast_of_keyed (q : ℚ) (data : List Feature) (f : Feature) (hk : Keyed data)
    (hf : f ∈ data) (hq : townId f = some q) :
    moveToLast (some q) data = data.filter (fun g => !numEq (townId g) (some q)) ++ [f] := by
  have hlen := filter_numEq_length_le_one (some q) data hk.2
  rw [moveToLast_partition (some q) data hlen]
  congr 1
  have hin : f ∈ data.filter (fun g => numEq (townId g) (some q)) :=
    List.mem_filter.mpr ⟨hf, by rw [hq]; simp [numEq]⟩
  cases hl : data.filter (fun g => numEq (townId g) (some q)) with
  | nil => rw [hl] at hin; simp at hin
  | cons x xs =>
    rw [hl] at hlen hin
    cases xs with
    | nil => rw [List.mem_singleton.mp hin]
    | cons _ _ => simp at hlen

theorem moved_last_facts (q : ℚ) (data : List Feature) (f : Feature) (hk : Keyed data)
    (hf : f ∈ data) (hq : townId f = some q) :
    (data.filter (fun g => !numEq (townId g) (some q)) ++ [f]).Perm data ∧
    (data.filter (fun g => !numEq (townId g) (some q)) ++ [f]).length = data.length := by
  have hp : (data.filter (fun g => !numEq (townId g) (some q)) ++ [f]).Perm data := by
    rw [← moveToLast_of_keyed q data f hk hf hq,
      moveToLast_partition (some q) data (filter_numEq_length_le_one (some q) data hk.2)]
    exact partition_perm _ data
  exact ⟨hp, hp.length_eq⟩

/-- The paths and the array `data` a selection of the town bound to the path
at position `k` leaves: through the dropdown when the handler runs to its end,
through a click whenever the name of the town is a string. -/
theorem selection_closed_form (s : State) (k : Nat) (el : PathEl) (q : ℚ)
    (hk : Keyed s.data) (hs : Synced s) (hel : s.paths[k]? = some el)
    (hq : townId el.datum = some q) :
    (∀ s', step (Action.selectTown (some q)) s = Outcome.done s' →
      s'.paths = (s.paths.eraseIdx k).map resetStroke ++ [highlight el] ∧
      s'.data = s.data.filter (fun g => !numEq (townId g) (some q)) ++ [el.datum]) ∧
    (∀ town, el.datum.properties.get "TOWN" = JSVal.string town →
      (step (Action.clickTown k) s).state.paths =
        (s.paths.eraseIdx k).map resetStroke ++ [highlight el] ∧
      (step (Action.clickTown k) s).state.data =
        s.data.filter (fun g => !numEq (townId g) (some q)) ++ [el.datum]) := by
  have hmem : el ∈ s.paths := List.getElem?_mem hel
  have hdat : el.datum ∈ s.data := by
    rw [← hs.1]; exact List.mem_map_of_mem _ hmem
  have hid : elementIdNumber el.id = some q := by
    rw [hit_eq_of_synced s hk hs el hmem, hq]
  obtain ⟨hit1, hit2⟩ := only_hit s k el q hk hs hel hq
  have hmove := moveToLast_of_keyed q s.data el.datum hk hdat hq
  constructor
  · intro s' hdone
    have key : ∀ X : State, X.paths = s.paths → X.data = s.data →
        (getDataForTown (JSVal.number q) X).andThen (fun s => Outcome.done (eachTown q s)) =
          Outcome.done s' →
        s'.paths = (s.paths.eraseIdx k).map resetStroke ++ [highlight el] ∧
        s'.data = s.data.filter (fun g => !numEq (townId g) (some q)) ++ [el.datum] := by
      intro X hXp hXd h
      obtain ⟨t, ht⟩ := getDataForTown_frame (JSVal.number q) X
      cases ho : getDataForTown (JSVal.number q) X with
      | done s1 =>
        rw [ho] at h ht
        simp only [Outcome.andThen] at h
        have hs1 : s1 = withTables X t := ht
        cases h
        have hp : s1.paths = s.paths := by rw [hs1]; exact hXp
        have hd : s1.data = s.data := by rw [hs1]; exact hXd
        simp only [eachTown, hp, hd, hit1, hit2, List.map_cons, List.map_nil, List.foldl_cons,
          List.foldl_nil, hid, hmove, and_self]
      | alerted msg s1 => rw [ho] at h; cases h
      | threw s1 => rw [ho] at h; cases h
    simp only [step, renderMapAndDataForTown] at hdone
    by_cases hq0 : q = 0
    · rw [if_pos hq0] at hdone; cases hdone
    · rw [if_neg hq0] at hdone
      cases hf : s.aMpoTowns.find? (fun t => t.1 == q) with
      | none =>
        rw [hf] at hdone
        exact key { s with selected_town := some q, iSelectedTown := some q } rfl rfl hdone
      | some t =>
        rw [hf] at hdone
        exact key { s with selected_town := some q, iSelectedTown := some q,
                           town_text := toTitleCase t.2 } rfl rfl hdone
  · intro town htown
    have hstep : step (Action.clickTown k) s =
        getDataForTown (el.datum.properties.get "TOWN_ID")
          { setSelectedTown { s with paths := s.paths.map resetStroke }
              (toNumber (el.datum.properties.get "TOWN_ID")) with
            town_text := toTitleCase town
            paths := (s.paths.map resetStroke).eraseIdx k ++ [highlight (resetStroke el)]
            data := moveToLast (elementIdNumber el.id) s.data } := by
      simp only [step, clickTown, hel, htown]
      rfl
    obtain ⟨t, ht⟩ := getDataForTown_frame (el.datum.properties.get "TOWN_ID")
      { setSelectedTown { s with paths := s.paths.map resetStroke }
          (toNumber (el.datum.properties.get "TOWN_ID")) with
        town_text := toTitleCase town
        paths := (s.paths.map resetStroke).eraseIdx k ++ [highlight (resetStroke el)]
        data := moveToLast (elementIdNumber el.id) s.data }
    rw [hstep, ht]
    refine ⟨?_, ?_⟩
    · show (s.paths.map resetStroke).eraseIdx k ++ [highlight (resetStroke el)] = _
      rw [eraseIdx_map]
      rfl
    · show moveToLast (elementIdNumber el.id) s.data = _
      rw [hid, hmove]

theorem outline_list (paths : List PathEl) (el : PathEl) :
    (paths.map resetStroke ++ [highlight el]).map (fun p => (p.stroke, p.strokeWidth)) =
      List.replicate paths.length ("#000", "1px") ++ [("#ff0000", "4px")] := by
  rw [List.map_append, List.map_map]
  congr 1
  rw [List.eq_replicate_iff]
  refine ⟨by simp, ?_⟩
  intro b hb
  obtain ⟨p, _, hp⟩ := List.mem_map.mp hb
  rw [← hp]
  rfl

theorem path_of_entity (s : State) (hs : Synced s) (e : Feature) (he : e ∈ s.data) :
    ∃ (k : Nat) (el : PathEl), s.paths[k]? = some el ∧ el.datum = e ∧ el.d = e.geometry := by
  rw [← hs.1] at he
  obtain ⟨el, hel, hd⟩ := List.mem_map.mp he
  obtain ⟨k, hk⟩ := List.getElem?_of_mem hel
  exact ⟨k, el, hk, hd, hd ▸ (hs.2 el hel).2⟩

/-- C22: for a catalog whose town ids are numbers and pairwise distinct, in any
state `S` reached from the loaded page, an entity `e` of the catalog has its
path, and a selection of `e` that runs to its end, through the town dropdown
or by a click on that path, leaves that path last in the document with the
outline 4px `#ff0000` and every other path with the outline 1px `#000`,
whatever the outlines were in `S`.  The selection does run to its end when the
record of `e` names a community type with a profile and the theme dropdown
shows no theme or a registered one (through the dropdown for an id other than
0, by a click when `TOWN` is a string). -/
theorem selected_entity_outlined (aMpoTowns : List (ℚ × String)) (towns : List Feature)
    (lcData : List Props) (town0 : Option ℚ) (theme0 : String) (actions : List Action)
    (S : State) (e : Feature) (q : ℚ) (hkey : Keyed towns)
    (hS : S = run actions (loadedState aMpoTowns towns lcData town0 theme0))
    (he : e ∈ build towns lcData) (hq : townId e = some q) :
    ∃ (k : Nat) (el : PathEl), S.paths[k]? = some el ∧ el.datum = e ∧ el.d = e.geometry ∧
      (∀ s', step (Action.selectTown (some q)) S = Outcome.done s' ∨
          step (Action.clickTown k) S = Outcome.done s' →
        s'.paths = (S.paths.eraseIdx k).map resetStroke ++ [highlight el] ∧
        s'.paths.map (fun p => (p.stroke, p.strokeWidth)) =
          List.replicate (S.paths.length - 1) ("#000", "1px") ++ [("#ff0000", "4px")]) ∧
      (∀ ct, commTypeStatsAt (toNumber (e.properties.get "COMMUNITY_TYPE")) = some ct →
        (S.selected_theme = "" ∨ S.selected_theme ∈ mapThemes) →
        (q ≠ 0 → ∃ s', step (Action.selectTown (some q)) S = Outcome.done s') ∧
        (∀ town, e.properties.get "TOWN" = JSVal.string town →
          ∃ s', step (Action.clickTown k) S = Outcome.done s')) := by
  obtain ⟨hk, hs, hp⟩ := reachable_inv aMpoTowns towns lcData town0 theme0 actions hkey
  rw [← hS] at hk hs hp
  have heS : e ∈ S.data := hp.mem_iff.mpr he
  obtain ⟨k, el, hel, hdat, hgeo⟩ := path_of_entity S hs e heS
  have hq' : townId el.datum = some q := by rw [hdat]; exact hq
  obtain ⟨hD, hC⟩ := selection_closed_form S k el q hk hs hel hq'
  have hklt : k < S.paths.length := (List.getElem?_eq_some_iff.mp hel).1
  have hshape : ((S.paths.eraseIdx k).map resetStroke ++ [highlight el]).map
      (fun p => (p.stroke, p.strokeWidth)) =
      List.replicate (S.paths.length - 1) ("#000", "1px") ++ [("#ff0000", "4px")] := by
    rw [outline_list, List.length_eraseIdx, if_pos hklt]
  refine ⟨k, el, hel, hdat, hgeo, ?_, ?_⟩
  · intro s' h
    have hpaths : s'.paths = (S.paths.eraseIdx k).map resetStroke ++ [highlight el] := by
      rcases h with h | h
      · exact (hD s' h).1
      · cases htown : el.datum.properties.get "TOWN" with
        | string town =>
          have := (hC town htown).1
          rw [h] at this
          exact this
        | undefined => simp only [step, clickTown, hel, htown] at h; cases h
        | number x => simp only [step, clickTown, hel, htown] at h; cases h
    rw [hpaths]
    exact ⟨rfl, hshape⟩
  · intro ct hct h0
    constructor
    · intro hq0
      obtain ⟨s1, h1, _⟩ := selectTown_done S q e ct hq0 (find_of_keyed q S.data e hk heS hq) hct h0
      exact ⟨s1, h1⟩
    · intro town htown
      obtain ⟨_, _, h3⟩ := clickTown_tables S k el town ct hk hs hel (by rw [hdat]; exact htown)
        (by rw [hdat]; exact hct)
      obtain ⟨s1, h1, _⟩ := h3 h0
      exact ⟨s1, h1⟩

/-- Witness for C22: in the sample catalog, after a click on the path of town 1
(which outlines it), town 2 is chosen in the dropdown. -/
theorem selected_entity_outlined_witness :
    Keyed sampleTowns ∧
    (run [Action.clickTown 0] sampleState).paths.map (fun p => (p.d, p.stroke, p.strokeWidth)) =
      [("M1,0L2,0L2,1Z", "#000", "1px"), ("M2,0L3,0L3,1Z", "#000", "1px"),
       ("M0,0L1,0L1,1Z", "#ff0000", "4px")] ∧
    ∃ s', step (Action.selectTown (some 2)) (run [Action.clickTown 0] sampleState) =
        Outcome.done s' ∧
      s'.paths.map (fun p => (p.stroke, p.strokeWidth)) =
        [("#000", "1px"), ("#000", "1px"), ("#ff0000", "4px")] ∧
      s'.paths.map (fun p => p.d) = ["M2,0L3,0L3,1Z", "M0,0L1,0L1,1Z", "M1,0L2,0L2,1Z"] := by
  have hk : Keyed sampleTowns := by unfold Keyed; decide!
  obtain ⟨k, el, hel, hdat, _, h1, h2⟩ := selected_entity_outlined sampleMpoTowns sampleTowns
    sampleRows (some 0) "" [Action.clickTown 0] (run [Action.clickTown 0] sampleState)
    ⟨"M1,0L2,0L2,1Z", sampleRows.getD 1 []⟩ 2 hk rfl (by decide!) (by decide!)
  obtain ⟨s', hs'⟩ := (h2 (commTypeStats.getD 1 []) (by decide!) (Or.inl (by decide!))).1
    (by decide!)
  obtain ⟨_, h4⟩ := h1 s' (Or.inl hs')
  refine ⟨hk, by decide!, s', hs', ?_, ?_⟩
  · rw [h4]; decide!
  · have := congrArg (fun o => o.state.paths.map (fun p => p.d)) hs'
    simp only [Outcome.state] at this
    rw [← this]
    decide!

/-- C24 (as amended): for a catalog whose town ids are numbers and pairwise
distinct, in any state `S` reached from the loaded page, a selection of an
entity `e` of the catalog through the town dropdown that runs to its end, or a
click on the path of `e` when `TOWN` is a string, leaves in `data` the other
entries in the order they had, followed by `e`: a permutation of the old array,
of the same length, with `e` last.  The dropdown selection runs to its end when
the id is not 0, the record of `e` names a community type with a profile and
the theme dropdown shows no theme or a registered one. -/
theorem selection_moves_town_last (aMpoTowns : List (ℚ × String)) (towns : List Feature)
    (lcData : List Props) (town0 : Option ℚ) (theme0 : String) (actions : List Action)
    (S : State) (e : Feature) (q : ℚ) (hkey : Keyed towns)
    (hS : S = run actions (loadedState aMpoTowns towns lcData town0 theme0))
    (he : e ∈ build towns lcData) (hq : townId e = some q) :
    ∃ (k : Nat) (el : PathEl), S.paths[k]? = some el ∧ el.datum = e ∧
      (∀ s', step (Action.selectTown (some q)) S = Outcome.done s' ∨
          ((step (Action.clickTown k) S).state = s' ∧
            ∃ town, e.properties.get "TOWN" = JSVal.string town) →
        s'.data = S.data.filter (fun g => !numEq (townId g) (some q)) ++ [e] ∧
        s'.data.Perm S.data ∧ s'.data.length = S.data.length ∧
        s'.data.getLast? = some e ∧
        s'.data.filter (fun g => !numEq (townId g) (some q)) =
          S.data.filter (fun g => !numEq (townId g) (some q))) ∧
      (∀ ct, commTypeStatsAt (toNumber (e.properties.get "COMMUNITY_TYPE")) = some ct →
        (S.selected_theme = "" ∨ S.selected_theme ∈ mapThemes) → q ≠ 0 →
        ∃ s', step (Action.selectTown (some q)) S = Outcome.done s') := by
  obtain ⟨hk, hs, hp⟩ := reachable_inv aMpoTowns towns lcData town0 theme0 actions hkey
  rw [← hS] at hk hs hp
  have heS : e ∈ S.data := hp.mem_iff.mpr he
  obtain ⟨k, el, hel, hdat, _⟩ := path_of_entity S hs e heS
  have hq' : townId el.datum = some q := by rw [hdat]; exact hq
  obtain ⟨hD, hC⟩ := selection_closed_form S k el q hk hs hel hq'
  obtain ⟨hperm, hlen⟩ := moved_last_facts q S.data e hk heS hq
  refine ⟨k, el, hel, hdat, ?_, ?_⟩
  · intro s' h
    have hdata : s'.data = S.data.filter (fun g => !numEq (townId g) (some q)) ++ [e] := by
      rcases h with h | ⟨h, town, htown⟩
      · rw [(hD s' h).2, hdat]
      · rw [← h, (hC town (by rw [hdat]; exact htown)).2, hdat]
    rw [hdata]
    refine ⟨rfl, hperm, hlen, by simp, ?_⟩
    have hm : numEq (townId e) (some q) = true := by rw [hq]; simp [numEq]
    simp [List.filter_append, hm]
  · intro ct hct h0 hq0
    obtain ⟨s1, h1, _⟩ := selectTown_done S q e ct hq0 (find_of_keyed q S.data e hk heS hq) hct h0
    exact ⟨s1, h1⟩

/-- Witness for C24 (as amended): in the sample catalog, after a click on the
path of town 1, town 2 is chosen in the dropdown: the array of towns 2, 3, 1
becomes that of towns 3, 1, 2. -/
theorem selection_moves_town_last_witness :
    Keyed sampleTowns ∧
    (run [Action.clickTown 0] sampleState).data.map townId = [some 2, some 3, some 1] ∧
    ∃ s', step (Action.selectTown (some 2)) (run [Action.clickTown 0] sampleState) =
        Outcome.done s' ∧
      s'.data.map townId = [some 3, some 1, some 2] := by
  have hk : Keyed sampleTowns := by unfold Keyed; decide!
  obtain ⟨k, el, _, _, h1, h2⟩ := selection_moves_town_last sampleMpoTowns sampleTowns
    sampleRows (some 0) "" [Action.clickTown 0] (run [Action.clickTown 0] sampleState)
    ⟨"M1,0L2,0L2,1Z", sampleRows.getD 1 []⟩ 2 hk rfl (by decide!) (by decide!)
  obtain ⟨s', hs'⟩ := h2 (commTypeStats.getD 1 []) (by decide!) (Or.inl (by decide!)) (by decide!)
  obtain ⟨h3, _⟩ := h1 s' (Or.inl hs')
  refine ⟨hk, by decide!, s', hs', ?_⟩
  rw [h3]
  decide!

/-- Counterexample to C24 as stated: the sample catalog has pairwise distinct
ids and town 3 is in it, without an indicator row.  After a click on the path
of town 1 the array holds towns 2, 3, 1; choosing town 3 in the dropdown then
stops in `populateDataStores` before the loop that reorders `data` is reached,
and the array still holds towns 2, 3, 1, with town 3 not last. -/
theorem selection_without_reorder :
    (sampleTowns.map townId).Nodup ∧
    (build sampleTowns sampleRows).map townId = [some 1, some 2, some 3] ∧
    (run [Action.clickTown 0] sampleState).data.map townId = [some 2, some 3, some 1] ∧
    step (Action.selectTown (some 3)) (run [Action.clickTown 0] sampleState) =
      Outcome.threw
        (step (Action.selectTown (some 3)) (run [Action.clickTown 0] sampleState)).state ∧
    (step (Action.selectTown (some 3)) (run [Action.clickTown 0] sampleState)).state.data.map
      townId = [some 2, some 3, some 1] := by
  decide!

end LcApp
